import Mathlib

/-!
# PayloadBuilder (session/src/PayloadBuilder.cpp)

A shallow embedding of the parameter-block codec, the channel-map resolver and
the calibration key-vector rules of `PayloadBuilder.cpp`, followed by the
theorems that settle the specification claims against it.

Conventions of the embedding

* Byte counts, element counts and field values are natural numbers (integers
  where a field is signed), stored as given.  A block that exists was
  allocated, so the byte counts of the source lie below the range of `size_t`
  and of the 32-bit `param_size` field and its sums are taken without
  wrap-around.  The one narrowing that changes which branch runs at small
  values, the `uint8_t numChannel` argument of `populateChannelMap`, is kept
  as an explicit `% 256` at the call sites, and so is the explicit
  `(uint16_t)` cast of the channel-map copy.
* Constants, enumerators and `sizeof` values declared in headers that are not
  part of the sources are parameters (`ApiConsts`, `StructSizes`, `CalConsts`).
* An encoder's effect on its two output arguments `*payload` and `*size` is an
  `EncodeResult`: either both were left as the caller had them, or both were
  stored.
* A `float` volume is given by its exact value, a rational; a `float` literal
  of the source is the binary32 number nearest to the decimal written
  (`binary32`, certified by `float_literals_nearest`), and comparing two
  floats compares their values.
* The rows of the voice-mode table hold `uint32_t` values; a value pushed from
  there into a key-vector of `int` pairs goes through `castInt32`.
-/

namespace PayloadBuilder

/-! ## Alignment macros -/

/-- Macro `QAL_ALIGN_8BYTE(x) (((x) + 7) & (~7))`.  On a non-negative operand
`a & ~7` is the and-not of `a` with `7`, which is `Nat.ldiff a 7`. -/
def QAL_ALIGN_8BYTE (x : Nat) : Nat := Nat.ldiff (x + 7) 7

/-- Macro `QAL_PADDING_8BYTE_ALIGN(x) ((((x) + 7) & 7) ^ 7)`. -/
def QAL_PADDING_8BYTE_ALIGN (x : Nat) : Nat := ((x + 7) &&& 7) ^^^ 7

/-! ## Constants and sizes taken from absent headers -/

/-- Modelled from the spec: `sizeof(struct apm_module_param_data_t)`.  The
header struct is declared outside the sources; the spec gives it as four
32-bit fields (module instance id, parameter id, error code, payload size). -/
def sizeof_apm_module_param_data_t : Nat := 16

/-- Parameter `PARAM_ID_DISPLAY_PORT_INTF_CFG` as defined at the top of the source file. -/
def PARAM_ID_DISPLAY_PORT_INTF_CFG : Nat := 0x8001154

/-- Parameter `PARAM_ID_USB_AUDIO_INTF_CFG` as defined at the top of the source file. -/
def PARAM_ID_USB_AUDIO_INTF_CFG : Nat := 0x080010D6

/-- Parameter `PARAM_ID_MFC_OUTPUT_MEDIA_FORMAT` as defined at the top of the source file. -/
def PARAM_ID_MFC_OUTPUT_MEDIA_FORMAT : Nat := 0x08001024

/-- Linux `errno.h` value of `ENOMEM`. -/
def ENOMEM : Int := 12

/-- Linux `errno.h` value of `EINVAL`. -/
def EINVAL : Int := 22

/-- The constants the encoders use whose definitions live in headers that are
not part of the sources.  Every encoder takes them as a parameter. -/
structure ApiConsts where
  PCM_CHANNEL_C : Nat
  PCM_CHANNEL_L : Nat
  PCM_CHANNEL_R : Nat
  PCM_CHANNEL_LB : Nat
  PCM_CHANNEL_RB : Nat
  PCM_CHANNEL_LFE : Nat
  PCM_CHANNEL_LS : Nat
  PCM_CHANNEL_RS : Nat
  PCM_CHANNEL_CS : Nat
  QAL_SPEAKER_ROTATION_RL : Nat
  QAL_SOUND_TRIGGER_MAX_USERS : Nat
  CODEC_TYPE_APTX_DUAL_MONO : Nat
  PARAM_ID_SPR_SESSION_TIME : Nat
  PARAM_ID_DETECTION_ENGINE_SOUND_MODEL : Nat
  PARAM_ID_DETECTION_ENGINE_CONFIG_VOICE_WAKEUP : Nat
  PARAM_ID_VOICE_WAKEUP_BUFFERING_CONFIG : Nat
  PARAM_ID_AUDIO_DAM_DOWNSTREAM_SETUP_DURATION : Nat
  PARAM_ID_DETECTION_ENGINE_GENERIC_EVENT_CFG : Nat
  PARAM_ID_DETECTION_ENGINE_RESET : Nat
  PARAM_ID_FFV_DOA_TRACKING_MONITOR : Nat
  PARAM_ID_APTX_CLASSIC_SWITCH_ENC_PCM_INPUT : Nat
  PARAM_ID_APTX_ADAPTIVE_ENC_SWITCH_TO_MONO : Nat
  PARAM_ID_RAT_MEDIA_FORMAT : Nat
  PARAM_ID_PCM_OUTPUT_FORMAT_CFG : Nat
  PARAM_ID_COP_PACKETIZER_OUTPUT_MEDIA_FORMAT : Nat
  PARAM_ID_SP_TH_VI_R0T0_CFG : Nat
  DATA_FORMAT_FIXED_POINT : Nat
  MEDIA_FMT_ID_PCM : Nat
  PCM_LITTLE_ENDIAN : Nat
  PCM_LSB_ALIGNED : Nat
  PCM_MSB_ALIGNED : Nat
  PCM_INTERLEAVED : Nat
  BIT_WIDTH_24 : Nat
  BITS_PER_SAMPLE_32 : Nat
  PCM_Q_FACTOR_31 : Nat
  deriving Repr

/-- The `sizeof` of every fixed payload struct the encoders measure.  Two of
them are declared in the source file itself (`param_id_usb_audio_intf_cfg_t`,
two `uint32_t`, and the packed `param_id_mfc_output_media_fmt_t`, an `int32_t`
and two `int16_t` before the flexible array: 8 bytes each); the others are
declared in absent headers.  All are parameters. -/
structure StructSizes where
  param_id_usb_audio_intf_cfg_t : Nat
  dpAudioConfig : Nat
  param_id_mfc_output_media_fmt_t : Nat
  param_id_spr_session_time_t : Nat
  detection_engine_config_voice_wakeup : Nat
  detection_engine_voice_wakeup_buffer_config : Nat
  audio_dam_downstream_setup_duration : Nat
  audio_dam_downstream_setup_duration_t : Nat
  detection_engine_generic_event_cfg : Nat
  ffv_doa_tracking_monitor_t : Nat
  param_id_aptx_classic_switch_enc_pcm_input_payload_t : Nat
  param_id_aptx_adaptive_enc_switch_to_mono_t : Nat
  param_id_rat_mf_t : Nat
  media_format_t : Nat
  payload_pcm_output_format_cfg_t : Nat
  param_id_cop_pack_output_media_fmt_t : Nat
  param_id_sp_th_vi_r0t0_cfg_t : Nat
  vi_r0t0_cfg_t : Nat
  deriving Repr

/-- A sample assignment of the absent constants, used where a statement is
evaluated at a concrete input.  The three sample-format constants take the
values their identifiers spell (24, 32, 31); the channel roles are numbered
1 to 9 in the order L, R, C, LS, RS, LFE, CS, LB, RB. -/
def sampleConsts : ApiConsts where
  PCM_CHANNEL_C := 3
  PCM_CHANNEL_L := 1
  PCM_CHANNEL_R := 2
  PCM_CHANNEL_LB := 8
  PCM_CHANNEL_RB := 9
  PCM_CHANNEL_LFE := 6
  PCM_CHANNEL_LS := 4
  PCM_CHANNEL_RS := 5
  PCM_CHANNEL_CS := 7
  QAL_SPEAKER_ROTATION_RL := 1
  QAL_SOUND_TRIGGER_MAX_USERS := 10
  CODEC_TYPE_APTX_DUAL_MONO := 1
  PARAM_ID_SPR_SESSION_TIME := 101
  PARAM_ID_DETECTION_ENGINE_SOUND_MODEL := 102
  PARAM_ID_DETECTION_ENGINE_CONFIG_VOICE_WAKEUP := 103
  PARAM_ID_VOICE_WAKEUP_BUFFERING_CONFIG := 104
  PARAM_ID_AUDIO_DAM_DOWNSTREAM_SETUP_DURATION := 105
  PARAM_ID_DETECTION_ENGINE_GENERIC_EVENT_CFG := 106
  PARAM_ID_DETECTION_ENGINE_RESET := 107
  PARAM_ID_FFV_DOA_TRACKING_MONITOR := 108
  PARAM_ID_APTX_CLASSIC_SWITCH_ENC_PCM_INPUT := 109
  PARAM_ID_APTX_ADAPTIVE_ENC_SWITCH_TO_MONO := 110
  PARAM_ID_RAT_MEDIA_FORMAT := 111
  PARAM_ID_PCM_OUTPUT_FORMAT_CFG := 112
  PARAM_ID_COP_PACKETIZER_OUTPUT_MEDIA_FORMAT := 113
  PARAM_ID_SP_TH_VI_R0T0_CFG := 114
  DATA_FORMAT_FIXED_POINT := 1
  MEDIA_FMT_ID_PCM := 0x09001000
  PCM_LITTLE_ENDIAN := 1
  PCM_LSB_ALIGNED := 1
  PCM_MSB_ALIGNED := 2
  PCM_INTERLEAVED := 1
  BIT_WIDTH_24 := 24
  BITS_PER_SAMPLE_32 := 32
  PCM_Q_FACTOR_31 := 31

/-- A sample assignment of the struct sizes: the two structs declared in the
source file have their real size 8, the DisplayPort config is three 32-bit
fields (12), the others are plausible packed sizes. -/
def sampleSizes : StructSizes where
  param_id_usb_audio_intf_cfg_t := 8
  dpAudioConfig := 12
  param_id_mfc_output_media_fmt_t := 8
  param_id_spr_session_time_t := 24
  detection_engine_config_voice_wakeup := 26
  detection_engine_voice_wakeup_buffer_config := 8
  audio_dam_downstream_setup_duration := 4
  audio_dam_downstream_setup_duration_t := 8
  detection_engine_generic_event_cfg := 8
  ffv_doa_tracking_monitor_t := 34
  param_id_aptx_classic_switch_enc_pcm_input_payload_t := 4
  param_id_aptx_adaptive_enc_switch_to_mono_t := 4
  param_id_rat_mf_t := 16
  media_format_t := 12
  payload_pcm_output_format_cfg_t := 14
  param_id_cop_pack_output_media_fmt_t := 12
  param_id_sp_th_vi_r0t0_cfg_t := 4
  vi_r0t0_cfg_t := 8

/-! ## Parameter blocks -/

/-- The header `struct apm_module_param_data_t` written at the start of every block. -/
structure apm_module_param_data_t where
  module_instance_id : Nat
  param_id : Nat
  error_code : Nat
  param_size : Nat
  deriving DecidableEq, Repr

/-- What an encoder wrote after the header, one shape per parameter kind.
Regions that are only zero-initialised or byte-copied are `raw` byte lists. -/
inductive Payload where
  | usb (usb_token svc_interval : Nat)
  | dp (channel_allocation mst_idx dptx_idx : Nat)
  | mfc (sampling_rate bit_width num_channels : Int) (channel_type : List Nat)
  | raw (bytes : List Nat)
  | wakeup (fixedPart confidence_level kw_user_enable : List Nat)
  | aptxClassic (transition_direction : Nat)
  | aptxAdaptive (switch_between_mono_and_stereo : Nat)
  | rat (sample_rate bits_per_sample q_factor data_format num_channels : Nat) (channel_map : List Nat)
  | pcm (data_format fmt_id payload_size : Nat)
      (endianness num_channels bit_width bits_per_sample q_factor alignment interleaved : Nat)
      (channel_map : List Nat)
  | cop (sampling_rate bits_per_sample num_channels : Nat) (channel_map : List Nat)
  | sp (num_speakers : Nat) (r0t0 : List (Nat × Nat))
  deriving DecidableEq, Repr

/-- The buffer an encoder allocated: its header, what follows it, and the
number of bytes that were requested from the allocator. -/
structure ParamBlock where
  header : apm_module_param_data_t
  payload : Payload
  allocated : Nat
  deriving DecidableEq, Repr

/-- The effect of an encoder call on the output arguments `*payload` and
`*size`: `untouched` when the function returned without assigning them,
`stored p n` when it executed `*size = n; *payload = p` (`none` is `NULL`). -/
inductive EncodeResult where
  | untouched
  | stored (payload : Option ParamBlock) (size : Nat)
  deriving DecidableEq, Repr

/-! ## Encoder inputs -/

/-- Input `struct usbAudioConfig` (the two fields the encoder reads). -/
structure usbAudioConfig where
  usb_token : Nat
  svc_interval : Nat
  deriving Repr

/-- Input `struct dpAudioConfig`. -/
structure dpAudioConfig where
  channel_allocation : Nat
  mst_idx : Nat
  dptx_idx : Nat
  deriving Repr

/-- Input `struct sessionToPayloadParam` (the fields `payloadMFCConfig` reads);
`ch_info` is `none` for a null pointer and otherwise holds `ch_info->ch_map`. -/
structure sessionToPayloadParam where
  sampleRate : Int
  bitWidth : Int
  numChannel : Nat
  ch_info : Option (List Nat)
  rotation_type : Nat
  deriving Repr

/-- Input `struct qal_media_config` (the fields the media-format encoders read);
`channels` is `ch_info.channels`. -/
structure qal_media_config where
  sample_rate : Nat
  bit_width : Nat
  channels : Nat
  deriving Repr

/-- Input `struct qal_st_sound_model`: the two fields read and the bytes of
the object itself, from which the model blob is taken at `data_offset`. -/
structure qal_st_sound_model where
  data_size : Nat
  data_offset : Nat
  objectBytes : List Nat
  deriving Repr

/-- Input `struct detection_engine_config_voice_wakeup`: the bytes of the fixed
part in front of the two arrays, the active-model count and the two arrays. -/
structure detection_engine_config_voice_wakeup where
  objectBytes : List Nat
  num_active_models : Nat
  confidence_levels : List Nat
  keyword_user_enables : List Nat
  deriving Repr

/-- Input `struct audio_dam_downstream_setup_duration`: the port count and the
bytes of the object, which is copied as a whole. -/
structure audio_dam_downstream_setup_duration where
  num_output_ports : Nat
  objectBytes : List Nat
  deriving Repr

/-- One `vi_r0t0_cfg_t` entry. -/
structure vi_r0t0_cfg_t where
  r0_cali_q24 : Nat
  t0_cali_q6 : Nat
  deriving Repr

/-- Input `param_id_sp_th_vi_r0t0_cfg_t`. -/
structure param_id_sp_th_vi_r0t0_cfg_t where
  num_speakers : Nat
  vi_r0t0_cfg : List vi_r0t0_cfg_t
  deriving Repr

/-! ## Channel-map resolver -/

/-- Function `PayloadBuilder::populateChannelMap(T pcmChannel, uint8_t numChannel)`:
the chain of assignments into the caller's array, one branch per count. -/
def populateChannelMap (k : ApiConsts) (pcmChannel : List Nat) (numChannel : Nat) : List Nat :=
  if numChannel = 1 then
    pcmChannel.set 0 k.PCM_CHANNEL_C
  else if numChannel = 2 then
    (pcmChannel.set 0 k.PCM_CHANNEL_L).set 1 k.PCM_CHANNEL_R
  else if numChannel = 3 then
    ((pcmChannel.set 0 k.PCM_CHANNEL_L).set 1 k.PCM_CHANNEL_R).set 2 k.PCM_CHANNEL_C
  else if numChannel = 4 then
    (((pcmChannel.set 0 k.PCM_CHANNEL_L).set 1 k.PCM_CHANNEL_R).set 2 k.PCM_CHANNEL_LB).set 3
      k.PCM_CHANNEL_RB
  else if numChannel = 5 then
    ((((pcmChannel.set 0 k.PCM_CHANNEL_L).set 1 k.PCM_CHANNEL_R).set 2 k.PCM_CHANNEL_C).set 3
      k.PCM_CHANNEL_LB).set 4 k.PCM_CHANNEL_RB
  else if numChannel = 6 then
    (((((pcmChannel.set 0 k.PCM_CHANNEL_L).set 1 k.PCM_CHANNEL_R).set 2 k.PCM_CHANNEL_C).set 3
      k.PCM_CHANNEL_LFE).set 4 k.PCM_CHANNEL_LB).set 5 k.PCM_CHANNEL_RB
  else if numChannel = 7 then
    ((((((pcmChannel.set 0 k.PCM_CHANNEL_L).set 1 k.PCM_CHANNEL_R).set 2 k.PCM_CHANNEL_C).set 3
      k.PCM_CHANNEL_LS).set 4 k.PCM_CHANNEL_RS).set 5 k.PCM_CHANNEL_LB).set 6 k.PCM_CHANNEL_RB
  else if numChannel = 8 then
    (((((((pcmChannel.set 0 k.PCM_CHANNEL_L).set 1 k.PCM_CHANNEL_R).set 2 k.PCM_CHANNEL_C).set 3
      k.PCM_CHANNEL_LS).set 4 k.PCM_CHANNEL_RS).set 5 k.PCM_CHANNEL_CS).set 6
      k.PCM_CHANNEL_LB).set 7 k.PCM_CHANNEL_RB
  else
    pcmChannel

/-- The table of canonical channel orders as the specification lists it,
1:[C], 2:[L,R], 3:[L,R,C], 4:[L,R,LB,RB], 5:[L,R,C,LB,RB], 6:[L,R,C,LFE,LB,RB],
7:[L,R,C,LS,RS,LB,RB], 8:[L,R,C,LS,RS,CS,LB,RB]; empty for any other count. -/
def canonicalChannelOrder (k : ApiConsts) : Nat → List Nat
  | 1 => [k.PCM_CHANNEL_C]
  | 2 => [k.PCM_CHANNEL_L, k.PCM_CHANNEL_R]
  | 3 => [k.PCM_CHANNEL_L, k.PCM_CHANNEL_R, k.PCM_CHANNEL_C]
  | 4 => [k.PCM_CHANNEL_L, k.PCM_CHANNEL_R, k.PCM_CHANNEL_LB, k.PCM_CHANNEL_RB]
  | 5 => [k.PCM_CHANNEL_L, k.PCM_CHANNEL_R, k.PCM_CHANNEL_C, k.PCM_CHANNEL_LB, k.PCM_CHANNEL_RB]
  | 6 => [k.PCM_CHANNEL_L, k.PCM_CHANNEL_R, k.PCM_CHANNEL_C, k.PCM_CHANNEL_LFE,
          k.PCM_CHANNEL_LB, k.PCM_CHANNEL_RB]
  | 7 => [k.PCM_CHANNEL_L, k.PCM_CHANNEL_R, k.PCM_CHANNEL_C, k.PCM_CHANNEL_LS,
          k.PCM_CHANNEL_RS, k.PCM_CHANNEL_LB, k.PCM_CHANNEL_RB]
  | 8 => [k.PCM_CHANNEL_L, k.PCM_CHANNEL_R, k.PCM_CHANNEL_C, k.PCM_CHANNEL_LS,
          k.PCM_CHANNEL_RS, k.PCM_CHANNEL_CS, k.PCM_CHANNEL_LB, k.PCM_CHANNEL_RB]
  | _ => []

/-! ## Parameter-block encoders -/

/-- An element-by-element copy loop `for (i = 0; i < n; i++) dst[i] = src[i]`
into a zero-initialised destination of `n` entries.  The source array must hold
`n` entries; an index past the end of the list reads as 0. -/
def copyElements (src : List Nat) (n : Nat) : List Nat :=
  (List.range n).map (fun i => src.getD i 0)

/-- Function `PayloadBuilder::payloadUsbAudioConfig`.  The buffer comes from an
unchecked `malloc`; the call is modelled where it returns. -/
def payloadUsbAudioConfig (sz : StructSizes) (miid : Nat) (data : usbAudioConfig) :
    EncodeResult :=
  let payloadSize0 := sizeof_apm_module_param_data_t + sz.param_id_usb_audio_intf_cfg_t
  let payloadSize :=
    if payloadSize0 % 8 ≠ 0 then payloadSize0 + (8 - payloadSize0 % 8) else payloadSize0
  let header : apm_module_param_data_t :=
    { module_instance_id := miid
      param_id := PARAM_ID_USB_AUDIO_INTF_CFG
      error_code := 0
      param_size := payloadSize - sizeof_apm_module_param_data_t }
  .stored (some ⟨header, .usb data.usb_token data.svc_interval, payloadSize⟩) payloadSize

/-- Function `PayloadBuilder::payloadDpAudioConfig`.  The buffer comes from an
unchecked `malloc`; the call is modelled where it returns. -/
def payloadDpAudioConfig (sz : StructSizes) (miid : Nat) (data : dpAudioConfig) :
    EncodeResult :=
  let payloadSize0 := sizeof_apm_module_param_data_t + sz.dpAudioConfig
  let payloadSize :=
    if payloadSize0 % 8 ≠ 0 then payloadSize0 + (8 - payloadSize0 % 8) else payloadSize0
  let header : apm_module_param_data_t :=
    { module_instance_id := miid
      param_id := PARAM_ID_DISPLAY_PORT_INTF_CFG
      error_code := 0
      param_size := payloadSize - sizeof_apm_module_param_data_t }
  .stored (some ⟨header, .dp data.channel_allocation data.mst_idx data.dptx_idx, payloadSize⟩)
    payloadSize

/-- Function `PayloadBuilder::payloadMFCConfig`; `allocOk` tells whether
`calloc` returned a buffer, `data = none` is the null argument.  The source
initialises `numChannels` from `data->numChannel` before it tests `data`; the
model gives the outcome of the null test itself for a null argument. -/
def payloadMFCConfig (k : ApiConsts) (sz : StructSizes) (allocOk : Bool) (miid : Nat)
    (data : Option sessionToPayloadParam) : EncodeResult :=
  match data with
  | none => .untouched
  | some d =>
    let numChannels := d.numChannel
    let payloadSize := sizeof_apm_module_param_data_t + sz.param_id_mfc_output_media_fmt_t +
      2 * numChannels
    let padBytes := QAL_PADDING_8BYTE_ALIGN payloadSize
    if !allocOk then .untouched
    else
      let header : apm_module_param_data_t :=
        { module_instance_id := miid
          param_id := PARAM_ID_MFC_OUTPUT_MEDIA_FORMAT
          error_code := 0
          param_size := payloadSize - sizeof_apm_module_param_data_t }
      let pcmChannel0 := List.replicate numChannels 0
      let pcmChannel1 :=
        match d.ch_info with
        | some ch_map => (copyElements ch_map d.numChannel).map (fun c => c % 65536)
        | none => populateChannelMap k pcmChannel0 (d.numChannel % 256)
      let pcmChannel2 :=
        if 2 = d.numChannel ∧ k.QAL_SPEAKER_ROTATION_RL = d.rotation_type then
          (pcmChannel1.set 0 k.PCM_CHANNEL_R).set 1 k.PCM_CHANNEL_L
        else pcmChannel1
      .stored
        (some ⟨header, .mfc d.sampleRate d.bitWidth d.numChannel pcmChannel2,
          payloadSize + padBytes⟩)
        (payloadSize + padBytes)

/-- Function `PayloadBuilder::payloadTimestamp`. -/
def payloadTimestamp (k : ApiConsts) (sz : StructSizes) (allocOk : Bool) (moduleId : Nat) :
    EncodeResult :=
  let payloadSize := sizeof_apm_module_param_data_t + sz.param_id_spr_session_time_t
  let padBytes := QAL_PADDING_8BYTE_ALIGN payloadSize
  if !allocOk then .untouched
  else
    let header : apm_module_param_data_t :=
      { module_instance_id := moduleId
        param_id := k.PARAM_ID_SPR_SESSION_TIME
        error_code := 0
        param_size := payloadSize - sizeof_apm_module_param_data_t }
    .stored
      (some ⟨header, .raw (List.replicate sz.param_id_spr_session_time_t 0),
        payloadSize + padBytes⟩)
      (payloadSize + padBytes)

/-- Function `PayloadBuilder::payloadCustomParam`; returns the status together
with the effect on the outputs.  `customPayload` are the bytes behind the
caller's pointer, of which `customPayloadSize` are copied. -/
def payloadCustomParam (allocOk : Bool) (customPayload : List Nat) (customPayloadSize : Nat)
    (moduleInstanceId paramId : Nat) : Int × EncodeResult :=
  let alsaPayloadSize := QAL_ALIGN_8BYTE (sizeof_apm_module_param_data_t + customPayloadSize)
  if !allocOk then (-ENOMEM, .untouched)
  else
    let header : apm_module_param_data_t :=
      { module_instance_id := moduleInstanceId
        param_id := paramId
        error_code := 0
        param_size := customPayloadSize }
    let body :=
      if customPayloadSize ≠ 0 then customPayload.take customPayloadSize
      else List.replicate customPayloadSize 0
    (0, .stored (some ⟨header, .raw body, alsaPayloadSize⟩) alsaPayloadSize)

/-- Function `PayloadBuilder::payloadSVASoundModel`. -/
def payloadSVASoundModel (k : ApiConsts) (allocOk : Bool) (moduleId : Nat)
    (soundModel : Option qal_st_sound_model) : EncodeResult :=
  match soundModel with
  | none => .untouched
  | some m =>
    let soundModelSize := m.data_size
    let payloadSize := sizeof_apm_module_param_data_t + soundModelSize
    let padBytes := QAL_PADDING_8BYTE_ALIGN payloadSize
    if !allocOk then .untouched
    else
      let header : apm_module_param_data_t :=
        { module_instance_id := moduleId
          param_id := k.PARAM_ID_DETECTION_ENGINE_SOUND_MODEL
          error_code := 0
          param_size := payloadSize - sizeof_apm_module_param_data_t }
      let sm_data := m.objectBytes.drop m.data_offset
      .stored (some ⟨header, .raw (sm_data.take soundModelSize), payloadSize + padBytes⟩)
        (payloadSize + padBytes)

/-- Function `PayloadBuilder::payloadSVAWakeUpConfig`. -/
def payloadSVAWakeUpConfig (k : ApiConsts) (sz : StructSizes) (allocOk : Bool) (moduleId : Nat)
    (pWakeUp : Option detection_engine_config_voice_wakeup) : EncodeResult :=
  match pWakeUp with
  | none => .untouched
  | some w =>
    let fixedConfigVoiceWakeupSize :=
      sz.detection_engine_config_voice_wakeup - k.QAL_SOUND_TRIGGER_MAX_USERS * 2
    let payloadSize := sizeof_apm_module_param_data_t + fixedConfigVoiceWakeupSize +
      w.num_active_models * 2
    let padBytes := QAL_PADDING_8BYTE_ALIGN payloadSize
    if !allocOk then .untouched
    else
      let header : apm_module_param_data_t :=
        { module_instance_id := moduleId
          param_id := k.PARAM_ID_DETECTION_ENGINE_CONFIG_VOICE_WAKEUP
          error_code := 0
          param_size := payloadSize - sizeof_apm_module_param_data_t }
      .stored
        (some ⟨header,
          .wakeup (w.objectBytes.take fixedConfigVoiceWakeupSize)
            (copyElements w.confidence_levels w.num_active_models)
            (copyElements w.keyword_user_enables w.num_active_models),
          payloadSize + padBytes⟩)
        (payloadSize + padBytes)

/-- Function `PayloadBuilder::payloadSVAWakeUpBufferConfig`; the config struct
is copied as bytes. -/
def payloadSVAWakeUpBufferConfig (k : ApiConsts) (sz : StructSizes) (allocOk : Bool)
    (moduleId : Nat) (pWakeUpBufConfig : Option (List Nat)) : EncodeResult :=
  match pWakeUpBufConfig with
  | none => .untouched
  | some cfg =>
    let payloadSize := sizeof_apm_module_param_data_t +
      sz.detection_engine_voice_wakeup_buffer_config
    let padBytes := QAL_PADDING_8BYTE_ALIGN payloadSize
    if !allocOk then .untouched
    else
      let header : apm_module_param_data_t :=
        { module_instance_id := moduleId
          param_id := k.PARAM_ID_VOICE_WAKEUP_BUFFERING_CONFIG
          error_code := 0
          param_size := payloadSize - sizeof_apm_module_param_data_t }
      .stored
        (some ⟨header, .raw (cfg.take sz.detection_engine_voice_wakeup_buffer_config),
          payloadSize + padBytes⟩)
        (payloadSize + padBytes)

/-- Function `PayloadBuilder::payloadSVAStreamSetupDuration`. -/
def payloadSVAStreamSetupDuration (k : ApiConsts) (sz : StructSizes) (allocOk : Bool)
    (moduleId : Nat) (pSetupDuration : Option audio_dam_downstream_setup_duration) :
    EncodeResult :=
  match pSetupDuration with
  | none => .untouched
  | some d =>
    let structSize := sz.audio_dam_downstream_setup_duration +
      d.num_output_ports * sz.audio_dam_downstream_setup_duration_t
    let payloadSize := sizeof_apm_module_param_data_t + structSize
    let padBytes := QAL_PADDING_8BYTE_ALIGN payloadSize
    if !allocOk then .untouched
    else
      let header : apm_module_param_data_t :=
        { module_instance_id := moduleId
          param_id := k.PARAM_ID_AUDIO_DAM_DOWNSTREAM_SETUP_DURATION
          error_code := 0
          param_size := payloadSize - sizeof_apm_module_param_data_t }
      .stored (some ⟨header, .raw (d.objectBytes.take structSize), payloadSize + padBytes⟩)
        (payloadSize + padBytes)

/-- Function `PayloadBuilder::payloadSVAEventConfig`; the config struct is
copied as bytes. -/
def payloadSVAEventConfig (k : ApiConsts) (sz : StructSizes) (allocOk : Bool) (moduleId : Nat)
    (pEventConfig : Option (List Nat)) : EncodeResult :=
  match pEventConfig with
  | none => .untouched
  | some cfg =>
    let payloadSize := sizeof_apm_module_param_data_t + sz.detection_engine_generic_event_cfg
    let padBytes := QAL_PADDING_8BYTE_ALIGN payloadSize
    if !allocOk then .untouched
    else
      let header : apm_module_param_data_t :=
        { module_instance_id := moduleId
          param_id := k.PARAM_ID_DETECTION_ENGINE_GENERIC_EVENT_CFG
          error_code := 0
          param_size := payloadSize - sizeof_apm_module_param_data_t }
      .stored
        (some ⟨header, .raw (cfg.take sz.detection_engine_generic_event_cfg),
          payloadSize + padBytes⟩)
        (payloadSize + padBytes)

/-- Function `PayloadBuilder::payloadSVAEngineReset`. -/
def payloadSVAEngineReset (k : ApiConsts) (allocOk : Bool) (moduleId : Nat) : EncodeResult :=
  let payloadSize := sizeof_apm_module_param_data_t
  let padBytes := QAL_PADDING_8BYTE_ALIGN payloadSize
  if !allocOk then .untouched
  else
    let header : apm_module_param_data_t :=
      { module_instance_id := moduleId
        param_id := k.PARAM_ID_DETECTION_ENGINE_RESET
        error_code := 0
        param_size := payloadSize - sizeof_apm_module_param_data_t }
    .stored (some ⟨header, .raw [], payloadSize + padBytes⟩) (payloadSize + padBytes)

/-- Function `PayloadBuilder::payloadQuery`. -/
def payloadQuery (allocOk : Bool) (moduleId paramId querySize : Nat) : EncodeResult :=
  let payloadSize := sizeof_apm_module_param_data_t + querySize
  let padBytes := QAL_PADDING_8BYTE_ALIGN payloadSize
  if !allocOk then .untouched
  else
    let header : apm_module_param_data_t :=
      { module_instance_id := moduleId
        param_id := paramId
        error_code := 0
        param_size := payloadSize - sizeof_apm_module_param_data_t }
    .stored (some ⟨header, .raw (List.replicate querySize 0), payloadSize + padBytes⟩)
      (payloadSize + padBytes)

/-- Function `PayloadBuilder::payloadDOAInfo`. -/
def payloadDOAInfo (k : ApiConsts) (sz : StructSizes) (allocOk : Bool) (moduleId : Nat) :
    EncodeResult :=
  let payloadSize := sizeof_apm_module_param_data_t + sz.ffv_doa_tracking_monitor_t
  let padBytes := QAL_PADDING_8BYTE_ALIGN payloadSize
  if !allocOk then .untouched
  else
    let header : apm_module_param_data_t :=
      { module_instance_id := moduleId
        param_id := k.PARAM_ID_FFV_DOA_TRACKING_MONITOR
        error_code := 0
        param_size := payloadSize - sizeof_apm_module_param_data_t }
    .stored
      (some ⟨header, .raw (List.replicate sz.ffv_doa_tracking_monitor_t 0),
        payloadSize + padBytes⟩)
      (payloadSize + padBytes)

/-- Function `PayloadBuilder::payloadTWSConfig`. -/
def payloadTWSConfig (k : ApiConsts) (sz : StructSizes) (allocOk : Bool) (miid : Nat)
    (isTwsMonoModeOn : Bool) (codecFormat : Nat) : EncodeResult :=
  let param_id :=
    if codecFormat = k.CODEC_TYPE_APTX_DUAL_MONO then k.PARAM_ID_APTX_CLASSIC_SWITCH_ENC_PCM_INPUT
    else k.PARAM_ID_APTX_ADAPTIVE_ENC_SWITCH_TO_MONO
  let customPayloadSize :=
    if codecFormat = k.CODEC_TYPE_APTX_DUAL_MONO then
      sz.param_id_aptx_classic_switch_enc_pcm_input_payload_t
    else sz.param_id_aptx_adaptive_enc_switch_to_mono_t
  let payloadSize := QAL_ALIGN_8BYTE (sizeof_apm_module_param_data_t + customPayloadSize)
  if !allocOk then .untouched
  else
    let header : apm_module_param_data_t :=
      { module_instance_id := miid
        param_id := param_id
        error_code := 0
        param_size := customPayloadSize }
    let val := if isTwsMonoModeOn = true then 1 else 2
    let body :=
      if codecFormat = k.CODEC_TYPE_APTX_DUAL_MONO then Payload.aptxClassic val
      else Payload.aptxAdaptive val
    .stored (some ⟨header, body, payloadSize⟩) payloadSize

/-- Function `PayloadBuilder::payloadRATConfig`.  The buffer is zero-initialised,
so the two format fields stay 0 when neither branch of the bit-width test runs. -/
def payloadRATConfig (k : ApiConsts) (sz : StructSizes) (allocOk : Bool) (miid : Nat)
    (data : Option qal_media_config) : EncodeResult :=
  match data with
  | none => .untouched
  | some d =>
    let numChannel := d.channels
    let bitWidth := d.bit_width
    let payloadSize := sizeof_apm_module_param_data_t + sz.param_id_rat_mf_t + 2 * numChannel
    let padBytes := QAL_PADDING_8BYTE_ALIGN payloadSize
    if !allocOk then .untouched
    else
      let header : apm_module_param_data_t :=
        { module_instance_id := miid
          param_id := k.PARAM_ID_RAT_MEDIA_FORMAT
          error_code := 0
          param_size := payloadSize - sizeof_apm_module_param_data_t }
      let bits_per_sample :=
        if bitWidth = 16 ∨ bitWidth = 32 then bitWidth else if bitWidth = 24 then 32 else 0
      let q_factor :=
        if bitWidth = 16 ∨ bitWidth = 32 then bitWidth - 1 else if bitWidth = 24 then 27 else 0
      let pcmChannel := populateChannelMap k (List.replicate numChannel 0) (numChannel % 256)
      .stored
        (some ⟨header,
          .rat d.sample_rate bits_per_sample q_factor k.DATA_FORMAT_FIXED_POINT numChannel
            pcmChannel,
          payloadSize + padBytes⟩)
        (payloadSize + padBytes)

/-- Function `PayloadBuilder::payloadPcmCnvConfig`.  The last branch of the
bit-width test frees the buffer and stores `*size = 0; *payload = NULL`. -/
def payloadPcmCnvConfig (k : ApiConsts) (sz : StructSizes) (allocOk : Bool) (miid : Nat)
    (data : Option qal_media_config) : EncodeResult :=
  match data with
  | none => .untouched
  | some d =>
    let numChannels := d.channels
    let payloadSize := sizeof_apm_module_param_data_t + sz.media_format_t +
      sz.payload_pcm_output_format_cfg_t + 1 * numChannels
    let padBytes := QAL_PADDING_8BYTE_ALIGN payloadSize
    if !allocOk then .untouched
    else
      let header : apm_module_param_data_t :=
        { module_instance_id := miid
          param_id := k.PARAM_ID_PCM_OUTPUT_FORMAT_CFG
          error_code := 0
          param_size := payloadSize - sizeof_apm_module_param_data_t }
      let fmt_payload_size := sz.payload_pcm_output_format_cfg_t + 1 * numChannels
      let pcmChannel := populateChannelMap k (List.replicate numChannels 0) (numChannels % 256)
      if d.bit_width = 16 ∨ d.bit_width = 32 then
        .stored
          (some ⟨header,
            .pcm k.DATA_FORMAT_FIXED_POINT k.MEDIA_FMT_ID_PCM fmt_payload_size
              k.PCM_LITTLE_ENDIAN d.channels d.bit_width d.bit_width (d.bit_width - 1)
              k.PCM_LSB_ALIGNED k.PCM_INTERLEAVED pcmChannel,
            payloadSize + padBytes⟩)
          (payloadSize + padBytes)
      else if d.bit_width = 24 then
        .stored
          (some ⟨header,
            .pcm k.DATA_FORMAT_FIXED_POINT k.MEDIA_FMT_ID_PCM fmt_payload_size
              k.PCM_LITTLE_ENDIAN d.channels k.BIT_WIDTH_24 k.BITS_PER_SAMPLE_32
              k.PCM_Q_FACTOR_31 k.PCM_MSB_ALIGNED k.PCM_INTERLEAVED pcmChannel,
            payloadSize + padBytes⟩)
          (payloadSize + padBytes)
      else
        .stored none 0

/-- Function `PayloadBuilder::payloadCopPackConfig`. -/
def payloadCopPackConfig (k : ApiConsts) (sz : StructSizes) (allocOk : Bool) (miid : Nat)
    (data : Option qal_media_config) : EncodeResult :=
  match data with
  | none => .untouched
  | some d =>
    let numChannel := d.channels
    let payloadSize := sizeof_apm_module_param_data_t + sz.param_id_cop_pack_output_media_fmt_t +
      2 * numChannel
    let padBytes := QAL_PADDING_8BYTE_ALIGN payloadSize
    if !allocOk then .untouched
    else
      let header : apm_module_param_data_t :=
        { module_instance_id := miid
          param_id := k.PARAM_ID_COP_PACKETIZER_OUTPUT_MEDIA_FORMAT
          error_code := 0
          param_size := payloadSize - sizeof_apm_module_param_data_t }
      let pcmChannel := populateChannelMap k (List.replicate numChannel 0) (numChannel % 256)
      .stored
        (some ⟨header, .cop d.sample_rate d.bit_width numChannel pcmChannel,
          payloadSize + padBytes⟩)
        (payloadSize + padBytes)

/-- Function `PayloadBuilder::payloadSPConfig`. -/
def payloadSPConfig (k : ApiConsts) (sz : StructSizes) (allocOk : Bool) (miid : Nat)
    (param : Option param_id_sp_th_vi_r0t0_cfg_t) : EncodeResult :=
  match param with
  | none => .untouched
  | some d =>
    let payloadSize := sizeof_apm_module_param_data_t + sz.param_id_sp_th_vi_r0t0_cfg_t +
      sz.vi_r0t0_cfg_t * d.num_speakers
    let padBytes := QAL_PADDING_8BYTE_ALIGN payloadSize
    if !allocOk then .untouched
    else
      let header : apm_module_param_data_t :=
        { module_instance_id := miid
          param_id := k.PARAM_ID_SP_TH_VI_R0T0_CFG
          error_code := 0
          param_size := payloadSize - sizeof_apm_module_param_data_t }
      let r0t0 := (List.range d.num_speakers).map (fun i =>
        ((d.vi_r0t0_cfg.getD i ⟨0, 0⟩).r0_cali_q24, (d.vi_r0t0_cfg.getD i ⟨0, 0⟩).t0_cali_q6))
      .stored (some ⟨header, .sp d.num_speakers r0t0, payloadSize + padBytes⟩)
        (payloadSize + padBytes)

/-! ## One call of any encoder -/

/-- A call of one of the eighteen parameter-block encoders with its arguments. -/
inductive EncoderCall where
  | usbAudioConfig (miid : Nat) (data : usbAudioConfig)
  | dpAudioConfig (miid : Nat) (data : dpAudioConfig)
  | mfcConfig (allocOk : Bool) (miid : Nat) (data : Option sessionToPayloadParam)
  | timestamp (allocOk : Bool) (moduleId : Nat)
  | customParam (allocOk : Bool) (customPayload : List Nat) (customPayloadSize : Nat)
      (moduleInstanceId paramId : Nat)
  | svaSoundModel (allocOk : Bool) (moduleId : Nat) (soundModel : Option qal_st_sound_model)
  | svaWakeUpConfig (allocOk : Bool) (moduleId : Nat)
      (pWakeUp : Option detection_engine_config_voice_wakeup)
  | svaWakeUpBufferConfig (allocOk : Bool) (moduleId : Nat) (cfg : Option (List Nat))
  | svaStreamSetupDuration (allocOk : Bool) (moduleId : Nat)
      (pSetupDuration : Option audio_dam_downstream_setup_duration)
  | svaEventConfig (allocOk : Bool) (moduleId : Nat) (cfg : Option (List Nat))
  | svaEngineReset (allocOk : Bool) (moduleId : Nat)
  | query (allocOk : Bool) (moduleId paramId querySize : Nat)
  | doaInfo (allocOk : Bool) (moduleId : Nat)
  | twsConfig (allocOk : Bool) (miid : Nat) (isTwsMonoModeOn : Bool) (codecFormat : Nat)
  | ratConfig (allocOk : Bool) (miid : Nat) (data : Option qal_media_config)
  | pcmCnvConfig (allocOk : Bool) (miid : Nat) (data : Option qal_media_config)
  | copPackConfig (allocOk : Bool) (miid : Nat) (data : Option qal_media_config)
  | spConfig (allocOk : Bool) (miid : Nat) (param : Option param_id_sp_th_vi_r0t0_cfg_t)

/-- Runs the encoder an `EncoderCall` names and gives its effect on the outputs. -/
def EncoderCall.run (k : ApiConsts) (sz : StructSizes) : EncoderCall → EncodeResult
  | .usbAudioConfig miid data => payloadUsbAudioConfig sz miid data
  | .dpAudioConfig miid data => payloadDpAudioConfig sz miid data
  | .mfcConfig a miid data => payloadMFCConfig k sz a miid data
  | .timestamp a moduleId => payloadTimestamp k sz a moduleId
  | .customParam a p n m i => (payloadCustomParam a p n m i).2
  | .svaSoundModel a moduleId m => payloadSVASoundModel k a moduleId m
  | .svaWakeUpConfig a moduleId w => payloadSVAWakeUpConfig k sz a moduleId w
  | .svaWakeUpBufferConfig a moduleId c => payloadSVAWakeUpBufferConfig k sz a moduleId c
  | .svaStreamSetupDuration a moduleId d => payloadSVAStreamSetupDuration k sz a moduleId d
  | .svaEventConfig a moduleId c => payloadSVAEventConfig k sz a moduleId c
  | .svaEngineReset a moduleId => payloadSVAEngineReset k a moduleId
  | .query a moduleId paramId querySize => payloadQuery a moduleId paramId querySize
  | .doaInfo a moduleId => payloadDOAInfo k sz a moduleId
  | .twsConfig a miid mono codec => payloadTWSConfig k sz a miid mono codec
  | .ratConfig a miid data => payloadRATConfig k sz a miid data
  | .pcmCnvConfig a miid data => payloadPcmCnvConfig k sz a miid data
  | .copPackConfig a miid data => payloadCopPackConfig k sz a miid data
  | .spConfig a miid param => payloadSPConfig k sz a miid param

/-- Whether the call is to the USB or the DisplayPort interface-config encoder,
the two that round `payloadSize` itself instead of computing `padBytes`. -/
def EncoderCall.isInterfaceConfig : EncoderCall → Bool
  | .usbAudioConfig _ _ => true
  | .dpAudioConfig _ _ => true
  | _ => false

/-- The number of payload bytes a call asks for, as the specification counts
them: the size of the fixed payload struct plus the variable-length part
(0 where the encoder returns before measuring anything). -/
def EncoderCall.payloadBytes (k : ApiConsts) (sz : StructSizes) : EncoderCall → Nat
  | .usbAudioConfig _ _ => sz.param_id_usb_audio_intf_cfg_t
  | .dpAudioConfig _ _ => sz.dpAudioConfig
  | .mfcConfig _ _ (some d) => sz.param_id_mfc_output_media_fmt_t + 2 * d.numChannel
  | .timestamp _ _ => sz.param_id_spr_session_time_t
  | .customParam _ _ n _ _ => n
  | .svaSoundModel _ _ (some m) => m.data_size
  | .svaWakeUpConfig _ _ (some w) =>
      (sz.detection_engine_config_voice_wakeup - k.QAL_SOUND_TRIGGER_MAX_USERS * 2) +
        2 * w.num_active_models
  | .svaWakeUpBufferConfig _ _ (some _) => sz.detection_engine_voice_wakeup_buffer_config
  | .svaStreamSetupDuration _ _ (some d) =>
      sz.audio_dam_downstream_setup_duration +
        d.num_output_ports * sz.audio_dam_downstream_setup_duration_t
  | .svaEventConfig _ _ (some _) => sz.detection_engine_generic_event_cfg
  | .svaEngineReset _ _ => 0
  | .query _ _ _ querySize => querySize
  | .doaInfo _ _ => sz.ffv_doa_tracking_monitor_t
  | .twsConfig _ _ _ codec =>
      if codec = k.CODEC_TYPE_APTX_DUAL_MONO then
        sz.param_id_aptx_classic_switch_enc_pcm_input_payload_t
      else sz.param_id_aptx_adaptive_enc_switch_to_mono_t
  | .ratConfig _ _ (some d) => sz.param_id_rat_mf_t + 2 * d.channels
  | .pcmCnvConfig _ _ (some d) =>
      sz.media_format_t + sz.payload_pcm_output_format_cfg_t + d.channels
  | .copPackConfig _ _ (some d) => sz.param_id_cop_pack_output_media_fmt_t + 2 * d.channels
  | .spConfig _ _ (some d) => sz.param_id_sp_th_vi_r0t0_cfg_t + sz.vi_r0t0_cfg_t * d.num_speakers
  | _ => 0

/-! ## Stream and device collaborators -/

/-- Modelled from the spec: the stream-type enumeration `qal_stream_type_t`,
declared in an absent header.  The constructors are the enumerators the source
names; `QAL_STREAM_OTHER` stands for any further value of the enum. -/
inductive qal_stream_type_t where
  | QAL_STREAM_LOW_LATENCY
  | QAL_STREAM_DEEP_BUFFER
  | QAL_STREAM_COMPRESSED
  | QAL_STREAM_VOIP_TX
  | QAL_STREAM_VOIP_RX
  | QAL_STREAM_VOICE_CALL_MUSIC
  | QAL_STREAM_GENERIC
  | QAL_STREAM_VOICE_CALL_RECORD
  | QAL_STREAM_VOICE_CALL
  | QAL_STREAM_LOOPBACK
  | QAL_STREAM_ULTRA_LOW_LATENCY
  | QAL_STREAM_PROXY
  | QAL_STREAM_PCM_OFFLOAD
  | QAL_STREAM_VOICE_UI
  | QAL_STREAM_OTHER (code : Nat)
  deriving DecidableEq, Repr

/-- Modelled from the spec: the stream direction (output, input, both), declared
in an absent header.  `QAL_AUDIO_OUTPUT_INPUT` is the value of the expression
`QAL_AUDIO_OUTPUT | QAL_AUDIO_INPUT`; `QAL_AUDIO_DIR_OTHER` is any other value. -/
inductive qal_stream_direction_t where
  | QAL_AUDIO_OUTPUT
  | QAL_AUDIO_INPUT
  | QAL_AUDIO_OUTPUT_INPUT
  | QAL_AUDIO_DIR_OTHER (code : Nat)
  deriving DecidableEq, Repr

/-- Modelled from the spec: the loopback subtype of a loopback stream, declared
in an absent header; `QAL_STREAM_LOOPBACK_PCM` is every value other than the
two HFP subtypes the source names. -/
inductive qal_stream_loopback_type_t where
  | QAL_STREAM_LOOPBACK_HFP_RX
  | QAL_STREAM_LOOPBACK_HFP_TX
  | QAL_STREAM_LOOPBACK_PCM
  deriving DecidableEq, Repr

/-- Modelled from the spec: the device-id enumeration `qal_device_id_t`, declared
in an absent header.  The constructors are the ids the source names;
`QAL_DEVICE_OTHER` stands for any further id. -/
inductive qal_device_id_t where
  | QAL_DEVICE_OUT_SPEAKER
  | QAL_DEVICE_OUT_HANDSET
  | QAL_DEVICE_OUT_BLUETOOTH_A2DP
  | QAL_DEVICE_OUT_BLUETOOTH_SCO
  | QAL_DEVICE_OUT_AUX_DIGITAL
  | QAL_DEVICE_OUT_AUX_DIGITAL_1
  | QAL_DEVICE_OUT_HDMI
  | QAL_DEVICE_OUT_WIRED_HEADSET
  | QAL_DEVICE_OUT_WIRED_HEADPHONE
  | QAL_DEVICE_OUT_USB_HEADSET
  | QAL_DEVICE_OUT_USB_DEVICE
  | QAL_DEVICE_IN_SPEAKER_MIC
  | QAL_DEVICE_IN_BLUETOOTH_SCO_HEADSET
  | QAL_DEVICE_IN_WIRED_HEADSET
  | QAL_DEVICE_IN_USB_DEVICE
  | QAL_DEVICE_IN_USB_HEADSET
  | QAL_DEVICE_IN_HANDSET_MIC
  | QAL_DEVICE_IN_HANDSET_VA_MIC
  | QAL_DEVICE_IN_HEADSET_VA_MIC
  | QAL_DEVICE_IN_PROXY
  | QAL_DEVICE_OUT_PROXY
  | QAL_DEVICE_OTHER (code : Int)
  deriving DecidableEq, Repr

/-- The fields of `struct qal_stream_attributes` the resolvers read. -/
structure qal_stream_attributes where
  type : qal_stream_type_t
  direction : qal_stream_direction_t
  loopback_type : qal_stream_loopback_type_t
  VSID : Int
  deriving DecidableEq, Repr

/-- An associated device as the resolvers see it: the status its
`getDeviceAttributes` returns and the attributes it fills in. -/
structure Device where
  getDeviceAttributesStatus : Int
  id : qal_device_id_t
  channels : Nat
  deriving DecidableEq, Repr

/-- A key-vector: `std::vector<std::pair<int,int>>`. -/
abbrev KeyVector := List (Int × Int)

/-- The stream collaborator, given by the answers of the queries the resolvers
make: the status and result of `getStreamAttributes`, of `getVolumeData`
(`vol` is the exact value of the finite `float` `volume_pair[0].vol`) and of
`getAssociatedDevices`, the lists `getStreamModifiers` and `getDevPpModifiers`
return, and the instance id. -/
structure Stream where
  getStreamAttributesStatus : Int
  sattr : qal_stream_attributes
  getVolumeDataStatus : Int
  vol : ℚ
  getStreamModifiers : KeyVector
  getDevPpModifiers : KeyVector
  getInstanceId : Nat
  getAssociatedDevicesStatus : Int
  associatedDevices : List Device

/-- The resource manager as `populateCalKeyVector` uses it:
`GetSVACaptureProfile()` is `none` for a null profile and otherwise holds the
channel count `GetChannels()` reports. -/
structure ResourceManager where
  GetSVACaptureProfile : Option Nat

/-- The calibration tags, keys and values `populateCalKeyVector` uses, all
defined in absent headers. -/
structure CalConsts where
  TAG_STREAM_VOLUME : Nat
  TAG_MODULE_CHANNELS : Nat
  SPKR_PROT_ENABLED : Nat
  SPKR_PROT_DISABLED : Nat
  VOLUME : Int
  LEVEL_0 : Int
  LEVEL_1 : Int
  LEVEL_2 : Int
  LEVEL_3 : Int
  LEVEL_4 : Int
  LEVEL_5 : Int
  LEVEL_6 : Int
  LEVEL_7 : Int
  LEVEL_8 : Int
  LEVEL_9 : Int
  LEVEL_10 : Int
  LEVEL_11 : Int
  LEVEL_12 : Int
  LEVEL_13 : Int
  LEVEL_14 : Int
  LEVEL_15 : Int
  CHANNELS : Int
  SPK_PRO_CH_MAP : Int
  LEFT_RIGHT : Int
  RIGHT_MONO : Int
  SP_DISABLED : Int
  VUI_STREAM_CFG_SVA : Int

/-- A sample assignment of the calibration constants, used where a statement is
evaluated at a concrete input: four distinct tags, and `LEVEL_k` valued `k`. -/
def sampleCalConsts : CalConsts where
  TAG_STREAM_VOLUME := 0xC0000001
  TAG_MODULE_CHANNELS := 0xC0000002
  SPKR_PROT_ENABLED := 0xC0000003
  SPKR_PROT_DISABLED := 0xC0000004
  VOLUME := 500
  LEVEL_0 := 0
  LEVEL_1 := 1
  LEVEL_2 := 2
  LEVEL_3 := 3
  LEVEL_4 := 4
  LEVEL_5 := 5
  LEVEL_6 := 6
  LEVEL_7 := 7
  LEVEL_8 := 8
  LEVEL_9 := 9
  LEVEL_10 := 10
  LEVEL_11 := 11
  LEVEL_12 := 12
  LEVEL_13 := 13
  LEVEL_14 := 14
  LEVEL_15 := 15
  CHANNELS := 501
  SPK_PRO_CH_MAP := 502
  LEFT_RIGHT := 1
  RIGHT_MONO := 2
  SP_DISABLED := 3
  VUI_STREAM_CFG_SVA := 7

/-- A sample stream: every query succeeds, low-latency output, volume 1/2. -/
def sampleStream : Stream where
  getStreamAttributesStatus := 0
  sattr := ⟨.QAL_STREAM_LOW_LATENCY, .QAL_AUDIO_OUTPUT, .QAL_STREAM_LOOPBACK_PCM, 0⟩
  getVolumeDataStatus := 0
  vol := 1 / 2
  getStreamModifiers := []
  getDevPpModifiers := []
  getInstanceId := 1
  getAssociatedDevicesStatus := 0
  associatedDevices := []

/-! ## Calibration key-vector -/

/-- The `static_cast<uint32_t>(tag)` of an `int` tag. -/
def castUint32 (tag : Int) : Nat := (tag % 4294967296).toNat

/-- The conversion to `int` of a 32-bit value, as when a `uint32_t` becomes
the member of a `std::pair<int,int>`: the bit pattern is kept, so a value of
2^31 or more becomes that value minus 2^32. -/
def castInt32 (v : Int) : Int :=
  if v % 4294967296 < 2147483648 then v % 4294967296 else v % 4294967296 - 4294967296

/-- The value of a normalised binary32 (`float`) number: the 24-bit
significand `m` scaled by `2 ^ -k`. -/
def binary32 (m k : Nat) : ℚ := (m : ℚ) / 2 ^ k

/-- Whether `binary32 m k` is the `float` a decimal literal `d` denotes: the
significand has 24 bits and the number lies less than half a unit in the last
place from `d`, so it is the binary32 number nearest to `d`. -/
def nearestBinary32 (m k : Nat) (d : ℚ) : Prop :=
  2 ^ 23 ≤ m ∧ m < 2 ^ 24 ∧
    d - 1 / 2 ^ (k + 1) < binary32 m k ∧ binary32 m k < d + 1 / 2 ^ (k + 1)

/-- The `float` literal `0.002172f` of the volume chain. -/
def float_0_002172 : ℚ := binary32 9328669 32

/-- The `float` literal `0.004660f` of the volume chain. -/
def float_0_004660 : ℚ := binary32 10007274 31

/-- The `float` literal `0.01f` of the volume chain. -/
def float_0_01 : ℚ := binary32 10737418 30

/-- The `float` literal `0.014877f` of the volume chain. -/
def float_0_014877 : ℚ := binary32 15974057 30

/-- The `float` literal `0.023646f` of the volume chain. -/
def float_0_023646 : ℚ := binary32 12694850 29

/-- The `float` literal `0.037584f` of the volume chain. -/
def float_0_037584 : ℚ := binary32 10088878 28

/-- The `float` literal `0.055912f` of the volume chain. -/
def float_0_055912 : ℚ := binary32 15008763 28

/-- The `float` literal `0.088869f` of the volume chain. -/
def float_0_088869 : ℚ := binary32 11927795 27

/-- The `float` literal `0.141254f` of the volume chain. -/
def float_0_141254 : ℚ := binary32 9479395 26

/-- The `float` literal `0.189453f` of the volume chain. -/
def float_0_189453 : ℚ := binary32 12713976 26

/-- The `float` literal `0.266840f` of the volume chain. -/
def float_0_266840 : ℚ := binary32 8953665 25

/-- The `float` literal `0.375838f` of the volume chain. -/
def float_0_375838 : ℚ := binary32 12611031 25

/-- The `float` literal `0.504081f` of the volume chain. -/
def float_0_504081 : ℚ := binary32 8457076 24

/-- The `float` literal `0.709987f` of the volume chain. -/
def float_0_709987 : ℚ := binary32 11911605 24

/-- The `float` literal `0.9f` of the volume chain. -/
def float_0_9 : ℚ := binary32 15099494 24

/-- The `float` nearest to 0.003, the value a caller passing `0.003f` supplies. -/
def float_0_003 : ℚ := binary32 12884902 32

/-- The `float` nearest to 0.95, the value a caller passing `0.95f` supplies. -/
def float_0_95 : ℚ := binary32 15938355 24

/-- The `TAG_STREAM_VOLUME` case of `populateCalKeyVector`: the chain of
comparisons of `voldB` and the pair each branch pushes onto `ckv`.  `voldB` is
the exact value of the `float` read from the volume data; every bound is a
`float` literal, that is the binary32 number nearest to the decimal written,
and comparing two floats compares their values (`0.0f` is 0 and `1.0f` is 1). -/
def volumeCase (c : CalConsts) (voldB : ℚ) (ckv : KeyVector) : KeyVector :=
  if voldB = 0.0 then ckv ++ [(c.VOLUME, c.LEVEL_15)]
  else if voldB < float_0_002172 then ckv ++ [(c.VOLUME, c.LEVEL_15)]
  else if voldB < float_0_004660 then ckv ++ [(c.VOLUME, c.LEVEL_14)]
  else if voldB < float_0_01 then ckv ++ [(c.VOLUME, c.LEVEL_13)]
  else if voldB < float_0_014877 then ckv ++ [(c.VOLUME, c.LEVEL_12)]
  else if voldB < float_0_023646 then ckv ++ [(c.VOLUME, c.LEVEL_11)]
  else if voldB < float_0_037584 then ckv ++ [(c.VOLUME, c.LEVEL_10)]
  else if voldB < float_0_055912 then ckv ++ [(c.VOLUME, c.LEVEL_9)]
  else if voldB < float_0_088869 then ckv ++ [(c.VOLUME, c.LEVEL_8)]
  else if voldB < float_0_141254 then ckv ++ [(c.VOLUME, c.LEVEL_7)]
  else if voldB < float_0_189453 then ckv ++ [(c.VOLUME, c.LEVEL_6)]
  else if voldB < float_0_266840 then ckv ++ [(c.VOLUME, c.LEVEL_5)]
  else if voldB < float_0_375838 then ckv ++ [(c.VOLUME, c.LEVEL_4)]
  else if voldB < float_0_504081 then ckv ++ [(c.VOLUME, c.LEVEL_3)]
  else if voldB < float_0_709987 then ckv ++ [(c.VOLUME, c.LEVEL_2)]
  else if voldB < float_0_9 then ckv ++ [(c.VOLUME, c.LEVEL_1)]
  else if voldB ≤ 1.0 then ckv ++ [(c.VOLUME, c.LEVEL_0)]
  else ckv

/-- The `TAG_MODULE_CHANNELS` case of `populateCalKeyVector`; `status` is 0 on
entry. -/
def channelsCase (c : CalConsts) (rm : ResourceManager) (s : Stream) (ckv : KeyVector) :
    Int × KeyVector :=
  if s.sattr.type = .QAL_STREAM_VOICE_UI then
    let stream_config_kv := s.getStreamModifiers
    match stream_config_kv with
    | [] => (0, ckv)
    | kv0 :: _ =>
      if kv0.2 ≠ c.VUI_STREAM_CFG_SVA then (0, ckv)
      else
        match rm.GetSVACaptureProfile with
        | none => (-EINVAL, ckv)
        | some channels =>
          if channels = 0 then (-EINVAL, ckv)
          else (0, ckv ++ [(c.CHANNELS, (channels : Int))])
  else (0, ckv)

/-- The device loop of the `SPKR_PROT_ENABLED` case: a failing attribute query
returns its status at once, the first speaker device pushes one pair and
leaves the loop. -/
def spkrProtLoop (c : CalConsts) : List Device → KeyVector → Int × KeyVector
  | [], ckv => (0, ckv)
  | d :: rest, ckv =>
    if d.getDeviceAttributesStatus ≠ 0 then (d.getDeviceAttributesStatus, ckv)
    else if d.id = .QAL_DEVICE_OUT_SPEAKER then
      if d.channels > 1 then (0, ckv ++ [(c.SPK_PRO_CH_MAP, c.LEFT_RIGHT)])
      else (0, ckv ++ [(c.SPK_PRO_CH_MAP, c.RIGHT_MONO)])
    else spkrProtLoop c rest ckv

/-- Function `PayloadBuilder::populateCalKeyVector`: the returned status and the
caller's `ckv` after the call.  `allocOk` tells whether the `calloc` of the
volume scratch buffer succeeded. -/
def populateCalKeyVector (c : CalConsts) (rm : ResourceManager) (allocOk : Bool) (s : Stream)
    (ckv : KeyVector) (tag : Int) : Int × KeyVector :=
  if s.getStreamAttributesStatus ≠ 0 then (s.getStreamAttributesStatus, ckv)
  else if !allocOk then (-ENOMEM, ckv)
  else if s.getVolumeDataStatus ≠ 0 then (s.getVolumeDataStatus, ckv)
  else
    let voldB := s.vol
    if castUint32 tag = c.TAG_STREAM_VOLUME then (0, volumeCase c voldB ckv)
    else if castUint32 tag = c.TAG_MODULE_CHANNELS then channelsCase c rm s ckv
    else if castUint32 tag = c.SPKR_PROT_ENABLED then
      if s.getAssociatedDevicesStatus ≠ 0 then (s.getAssociatedDevicesStatus, ckv)
      else spkrProtLoop c s.associatedDevices ckv
    else if castUint32 tag = c.SPKR_PROT_DISABLED then
      (0, ckv ++ [(c.SPK_PRO_CH_MAP, c.SP_DISABLED)])
    else (0, ckv)

/-- The sixteen level values by index: `levelValue c k` is `LEVEL_k`. -/
def levelValue (c : CalConsts) : Nat → Int
  | 0 => c.LEVEL_0
  | 1 => c.LEVEL_1
  | 2 => c.LEVEL_2
  | 3 => c.LEVEL_3
  | 4 => c.LEVEL_4
  | 5 => c.LEVEL_5
  | 6 => c.LEVEL_6
  | 7 => c.LEVEL_7
  | 8 => c.LEVEL_8
  | 9 => c.LEVEL_9
  | 10 => c.LEVEL_10
  | 11 => c.LEVEL_11
  | 12 => c.LEVEL_12
  | 13 => c.LEVEL_13
  | 14 => c.LEVEL_14
  | _ => c.LEVEL_15

/-- The upper bounds of the specification in their order, read as exact
decimals, each with the level index it selects. -/
def volumeBounds : List (ℚ × Nat) :=
  [(0.002172, 15), (0.004660, 14), (0.01, 13), (0.014877, 12), (0.023646, 11),
   (0.037584, 10), (0.055912, 9), (0.088869, 8), (0.141254, 7), (0.189453, 6),
   (0.266840, 5), (0.375838, 4), (0.504081, 3), (0.709987, 2), (0.9, 1)]

/-- The step function of the specification: the level of the first upper
bound the volume is strictly less than, and level 0 when it is below none. -/
def firstBoundLevel (v : ℚ) : List (ℚ × Nat) → Nat
  | [] => 0
  | (bound, level) :: rest => if v < bound then level else firstBoundLevel v rest

/-- The upper bounds the source compares the volume with, the `float` literals
of the chain in their order, each with the index of the level its branch
pushes. -/
def volumeBoundsFloat : List (ℚ × Nat) :=
  [(float_0_002172, 15),
   (float_0_004660, 14),
   (float_0_01, 13),
   (float_0_014877, 12),
   (float_0_023646, 11),
   (float_0_037584, 10),
   (float_0_055912, 9),
   (float_0_088869, 8),
   (float_0_141254, 7),
   (float_0_189453, 6),
   (float_0_266840, 5),
   (float_0_375838, 4),
   (float_0_504081, 3),
   (float_0_709987, 2),
   (float_0_9, 1)]

/-! ## Reading a result -/

/-- The block an encoder handed to the caller, if it stored a non-null one. -/
def EncodeResult.block : EncodeResult → Option ParamBlock
  | .stored (some b) _ => some b
  | _ => none

/-- Field `bit_width` of a payload that has one. -/
def Payload.bit_width : Payload → Option Int
  | .mfc _ bw _ _ => some bw
  | .pcm _ _ _ _ _ bw _ _ _ _ _ => some (bw : Int)
  | _ => none

/-- Field `bits_per_sample` of a payload that has one. -/
def Payload.bits_per_sample : Payload → Option Nat
  | .rat _ bps _ _ _ _ => some bps
  | .pcm _ _ _ _ _ _ bps _ _ _ _ => some bps
  | .cop _ bps _ _ => some bps
  | _ => none

/-- Field `q_factor` of a payload that has one. -/
def Payload.q_factor : Payload → Option Nat
  | .rat _ _ q _ _ _ => some q
  | .pcm _ _ _ _ _ _ _ q _ _ _ => some q
  | _ => none

/-- Field `alignment` of a PCM output-format payload. -/
def Payload.alignment : Payload → Option Nat
  | .pcm _ _ _ _ _ _ _ _ al _ _ => some al
  | _ => none

/-- A payload field of the block an encoder handed over; `none` when no block
was handed over or its payload has no such field. -/
def EncodeResult.field {α : Type} (r : EncodeResult) (f : Payload → Option α) : Option α :=
  r.block.bind (fun b => f b.payload)

/-- The header field `param_size` of the block an encoder handed over. -/
def EncodeResult.param_size (r : EncodeResult) : Option Nat :=
  r.block.map (fun b => b.header.param_size)

/-- The channel-role array that follows the fixed fields of a media-format
payload (`channel_type` of the converter payload, the channel map of the
others). -/
def Payload.channel_map : Payload → Option (List Nat)
  | .mfc _ _ _ cm => some cm
  | .rat _ _ _ _ _ cm => some cm
  | .pcm _ _ _ _ _ _ _ _ _ _ cm => some cm
  | .cop _ _ _ cm => some cm
  | _ => none

/-! ## Stream and device key-vectors -/

/-- The keys and values the single-vector `populateStreamKV` pushes, all
defined in an absent header. -/
structure StreamKeys where
  STREAMRX : Int
  STREAMTX : Int
  INSTANCE : Int
  INSTANCE_1 : Int
  PCM_LL_PLAYBACK : Int
  RAW_RECORD : Int
  PCM_RX_LOOPBACK : Int
  PCM_ULL_PLAYBACK : Int
  PCM_ULL_RECORD : Int
  PCM_PROXY_PLAYBACK : Int
  PCM_PROXY_RECORD : Int
  PCM_DEEP_BUFFER : Int
  PCM_RECORD : Int
  PCM_OFFLOAD_PLAYBACK : Int
  COMPRESSED_OFFLOAD_PLAYBACK : Int
  VOIP_TX_RECORD : Int
  VOIP_RX_PLAYBACK : Int
  VOICE_UI : Int
  INCALL_RECORD : Int
  INCALL_MUSIC : Int

/-- A sample assignment of the stream keys, used where a statement is evaluated
at a concrete input; `INSTANCE_1` is 1 as the specification reads it. -/
def sampleStreamKeys : StreamKeys where
  STREAMRX := 1001
  STREAMTX := 1002
  INSTANCE := 1003
  INSTANCE_1 := 1
  PCM_LL_PLAYBACK := 1101
  RAW_RECORD := 1102
  PCM_RX_LOOPBACK := 1103
  PCM_ULL_PLAYBACK := 1104
  PCM_ULL_RECORD := 1105
  PCM_PROXY_PLAYBACK := 1106
  PCM_PROXY_RECORD := 1107
  PCM_DEEP_BUFFER := 1108
  PCM_RECORD := 1109
  PCM_OFFLOAD_PLAYBACK := 1110
  COMPRESSED_OFFLOAD_PLAYBACK := 1111
  VOIP_TX_RECORD := 1112
  VOIP_RX_PLAYBACK := 1113
  VOICE_UI := 1114
  INCALL_RECORD := 1115
  INCALL_MUSIC := 1116

/-- Function `PayloadBuilder::populateStreamKV(Stream* s, std::vector<std::pair<int,int>>
&keyVector)`, the single-vector overload: the returned status and the caller's
vector after the call.  `allocOk` tells whether `new` gave the attribute
struct.  The stream pointer is used before the voice-UI case tests it, so it
is non-null here; the range-for over the stream modifiers pushes them in
order, which is an append. -/
def populateStreamKV (sk : StreamKeys) (allocOk : Bool) (s : Stream) (keyVector : KeyVector) :
    Int × KeyVector :=
  if !allocOk then (-ENOMEM, keyVector)
  else if s.getStreamAttributesStatus ≠ 0 then (s.getStreamAttributesStatus, keyVector)
  else
    match s.sattr.type with
    | .QAL_STREAM_LOW_LATENCY =>
      if s.sattr.direction = .QAL_AUDIO_OUTPUT then
        (0, keyVector ++ [(sk.STREAMRX, sk.PCM_LL_PLAYBACK), (sk.INSTANCE, sk.INSTANCE_1)])
      else if s.sattr.direction = .QAL_AUDIO_INPUT then
        (0, keyVector ++ [(sk.STREAMTX, sk.RAW_RECORD)])
      else if s.sattr.direction = .QAL_AUDIO_OUTPUT_INPUT then
        (0, keyVector ++ [(sk.STREAMRX, sk.PCM_RX_LOOPBACK)])
      else (-EINVAL, keyVector)
    | .QAL_STREAM_ULTRA_LOW_LATENCY =>
      if s.sattr.direction = .QAL_AUDIO_OUTPUT then
        (0, keyVector ++ [(sk.STREAMRX, sk.PCM_ULL_PLAYBACK)])
      else if s.sattr.direction = .QAL_AUDIO_INPUT then
        (0, keyVector ++ [(sk.STREAMTX, sk.PCM_ULL_RECORD)])
      else (-EINVAL, keyVector)
    | .QAL_STREAM_PROXY =>
      if s.sattr.direction = .QAL_AUDIO_OUTPUT then
        (0, keyVector ++ [(sk.STREAMRX, sk.PCM_PROXY_PLAYBACK)])
      else if s.sattr.direction = .QAL_AUDIO_INPUT then
        (0, keyVector ++ [(sk.STREAMTX, sk.PCM_PROXY_RECORD)])
      else (-EINVAL, keyVector)
    | .QAL_STREAM_DEEP_BUFFER =>
      if s.sattr.direction = .QAL_AUDIO_OUTPUT then
        (0, keyVector ++ [(sk.STREAMRX, sk.PCM_DEEP_BUFFER)])
      else if s.sattr.direction = .QAL_AUDIO_INPUT then
        (0, keyVector ++ [(sk.STREAMTX, sk.PCM_RECORD)])
      else (-EINVAL, keyVector)
    | .QAL_STREAM_PCM_OFFLOAD =>
      if s.sattr.direction = .QAL_AUDIO_OUTPUT then
        (0, keyVector ++ [(sk.STREAMRX, sk.PCM_OFFLOAD_PLAYBACK), (sk.INSTANCE, sk.INSTANCE_1)])
      else (-EINVAL, keyVector)
    | .QAL_STREAM_GENERIC => (0, keyVector)
    | .QAL_STREAM_COMPRESSED =>
      if s.sattr.direction = .QAL_AUDIO_OUTPUT then
        (0, keyVector ++
          [(sk.STREAMRX, sk.COMPRESSED_OFFLOAD_PLAYBACK), (sk.INSTANCE, sk.INSTANCE_1)])
      else (0, keyVector)
    | .QAL_STREAM_VOIP_TX => (0, keyVector ++ [(sk.STREAMTX, sk.VOIP_TX_RECORD)])
    | .QAL_STREAM_VOIP_RX => (0, keyVector ++ [(sk.STREAMRX, sk.VOIP_RX_PLAYBACK)])
    | .QAL_STREAM_VOICE_UI =>
      let keyVector1 := keyVector ++ [(sk.STREAMTX, sk.VOICE_UI)]
      let keyVector2 := keyVector1 ++ s.getStreamModifiers
      let instance_id := s.getInstanceId
      if (instance_id : Int) < sk.INSTANCE_1 then (-EINVAL, keyVector2)
      else (0, keyVector2 ++ [(sk.INSTANCE, (instance_id : Int))])
    | .QAL_STREAM_VOICE_CALL_RECORD => (0, keyVector ++ [(sk.STREAMTX, sk.INCALL_RECORD)])
    | .QAL_STREAM_VOICE_CALL_MUSIC => (0, keyVector ++ [(sk.STREAMRX, sk.INCALL_MUSIC)])
    | _ => (-EINVAL, keyVector)

/-- The keys and values the single-device `populateDeviceKV` pushes, all defined
in an absent header. -/
structure DeviceKeys where
  DEVICERX : Int
  DEVICETX : Int
  BT_PROFILE : Int
  SCO : Int
  SPEAKER : Int
  HANDSET : Int
  BT_RX : Int
  HDMI_RX : Int
  HEADPHONES : Int
  USB_RX : Int
  SPEAKER_MIC : Int
  BT_TX : Int
  HEADPHONE_MIC : Int
  USB_TX : Int
  HANDSETMIC : Int
  HANDSETMIC_VA : Int
  HEADSETMIC_VA : Int
  PROXY_TX : Int
  PROXY_RX : Int

/-- A sample assignment of the device keys, used where a statement is evaluated
at a concrete input. -/
def sampleDeviceKeys : DeviceKeys where
  DEVICERX := 2001
  DEVICETX := 2002
  BT_PROFILE := 2003
  SCO := 2101
  SPEAKER := 2102
  HANDSET := 2103
  BT_RX := 2104
  HDMI_RX := 2105
  HEADPHONES := 2106
  USB_RX := 2107
  SPEAKER_MIC := 2108
  BT_TX := 2109
  HEADPHONE_MIC := 2110
  USB_TX := 2111
  HANDSETMIC := 2112
  HANDSETMIC_VA := 2113
  HEADSETMIC_VA := 2114
  PROXY_TX := 2115
  PROXY_RX := 2116

/-- Function `PayloadBuilder::populateDeviceKV(Stream* s, int32_t beDevId,
std::vector<std::pair<int,int>> &keyVector)`, the single-device overload: the
returned status and the caller's vector after the call.  The stream argument
is unused. -/
def populateDeviceKV (dk : DeviceKeys) (beDevId : qal_device_id_t) (keyVector : KeyVector) :
    Int × KeyVector :=
  match beDevId with
  | .QAL_DEVICE_OUT_SPEAKER => (0, keyVector ++ [(dk.DEVICERX, dk.SPEAKER)])
  | .QAL_DEVICE_OUT_HANDSET => (0, keyVector ++ [(dk.DEVICERX, dk.HANDSET)])
  | .QAL_DEVICE_OUT_BLUETOOTH_A2DP => (0, keyVector)
  | .QAL_DEVICE_OUT_BLUETOOTH_SCO =>
    (0, keyVector ++ [(dk.DEVICERX, dk.BT_RX), (dk.BT_PROFILE, dk.SCO)])
  | .QAL_DEVICE_OUT_AUX_DIGITAL => (0, keyVector ++ [(dk.DEVICERX, dk.HDMI_RX)])
  | .QAL_DEVICE_OUT_AUX_DIGITAL_1 => (0, keyVector ++ [(dk.DEVICERX, dk.HDMI_RX)])
  | .QAL_DEVICE_OUT_HDMI => (0, keyVector ++ [(dk.DEVICERX, dk.HDMI_RX)])
  | .QAL_DEVICE_OUT_WIRED_HEADSET => (0, keyVector ++ [(dk.DEVICERX, dk.HEADPHONES)])
  | .QAL_DEVICE_OUT_WIRED_HEADPHONE => (0, keyVector ++ [(dk.DEVICERX, dk.HEADPHONES)])
  | .QAL_DEVICE_OUT_USB_HEADSET => (0, keyVector ++ [(dk.DEVICERX, dk.USB_RX)])
  | .QAL_DEVICE_OUT_USB_DEVICE => (0, keyVector ++ [(dk.DEVICERX, dk.USB_RX)])
  | .QAL_DEVICE_IN_SPEAKER_MIC => (0, keyVector ++ [(dk.DEVICETX, dk.SPEAKER_MIC)])
  | .QAL_DEVICE_IN_BLUETOOTH_SCO_HEADSET =>
    (0, keyVector ++ [(dk.DEVICETX, dk.BT_TX), (dk.BT_PROFILE, dk.SCO)])
  | .QAL_DEVICE_IN_WIRED_HEADSET => (0, keyVector ++ [(dk.DEVICETX, dk.HEADPHONE_MIC)])
  | .QAL_DEVICE_IN_USB_DEVICE => (0, keyVector ++ [(dk.DEVICETX, dk.USB_TX)])
  | .QAL_DEVICE_IN_USB_HEADSET => (0, keyVector ++ [(dk.DEVICETX, dk.USB_TX)])
  | .QAL_DEVICE_IN_HANDSET_MIC => (0, keyVector ++ [(dk.DEVICETX, dk.HANDSETMIC)])
  | .QAL_DEVICE_IN_HANDSET_VA_MIC => (0, keyVector ++ [(dk.DEVICETX, dk.HANDSETMIC_VA)])
  | .QAL_DEVICE_IN_HEADSET_VA_MIC => (0, keyVector ++ [(dk.DEVICETX, dk.HEADSETMIC_VA)])
  | .QAL_DEVICE_IN_PROXY => (0, keyVector ++ [(dk.DEVICETX, dk.PROXY_TX)])
  | .QAL_DEVICE_OUT_PROXY => (0, keyVector ++ [(dk.DEVICERX, dk.PROXY_RX)])
  | .QAL_DEVICE_OTHER _ => (0, keyVector)

/-- Whether a device id has a case label in the switch of `populateDeviceKV`:
every id the source names, the A2DP output included; only the ids it does not
name fall to `default`. -/
def qal_device_id_t.recognised : qal_device_id_t → Bool
  | .QAL_DEVICE_OTHER _ => false
  | _ => true

/-! ## Tag key-vector -/

/-- Modelled from the spec: the tag ids `populateTagKeyVector` switches on,
defined in an absent header.  The constructors are the case labels of the
switch (pairwise distinct, as the labels of one switch are); `TAG_OTHER` stands
for every other value of the `int` argument. -/
inductive TagId where
  | MUTE_TAG
  | UNMUTE_TAG
  | VOICE_SLOW_TALK_OFF
  | VOICE_SLOW_TALK_ON
  | PAUSE_TAG
  | RESUME_TAG
  | MFC_SR_8K
  | MFC_SR_16K
  | MFC_SR_32K
  | MFC_SR_44K
  | MFC_SR_48K
  | MFC_SR_96K
  | MFC_SR_192K
  | MFC_SR_384K
  | FLUENCE_ON_TAG
  | FLUENCE_OFF_TAG
  | FLUENCE_EC_TAG
  | FLUENCE_NS_TAG
  | CHS_1
  | CHS_2
  | CHS_3
  | CHS_4
  | BW_16
  | BW_24
  | BW_32
  | OP_MODE
  | INCALL_RECORD_UPLINK
  | INCALL_RECORD_DOWNLINK
  | INCALL_RECORD_UPLINK_DOWNLINK_MONO
  | INCALL_RECORD_UPLINK_DOWNLINK_STEREO
  | TAG_OTHER (value : Int)
  deriving DecidableEq, Repr

/-- The keys, values and target selectors `populateTagKeyVector` uses, all
defined in absent headers.  The eight selectors are the values stored through
`gsltag`; `TAG_MODULE_OP_MODE` is also pushed as a key. -/
structure TagKeys where
  MUTE : Int
  ON : Int
  OFF : Int
  TAG_KEY_SLOW_TALK : Int
  TAG_VALUE_SLOW_TALK_OFF : Int
  TAG_VALUE_SLOW_TALK_ON : Int
  PAUSE : Int
  SAMPLINGRATE : Int
  SAMPLINGRATE_8K : Int
  SAMPLINGRATE_16K : Int
  SAMPLINGRATE_32K : Int
  SAMPLINGRATE_44K : Int
  SAMPLINGRATE_48K : Int
  SAMPLINGRATE_96K : Int
  SAMPLINGRATE_192K : Int
  SAMPLINGRATE_384K : Int
  FLUENCE : Int
  FLUENCE_ON : Int
  FLUENCE_OFF : Int
  FLUENCE_EC : Int
  FLUENCE_NS : Int
  CHANNELS : Int
  CHANNELS_1 : Int
  CHANNELS_2 : Int
  CHANNELS_3 : Int
  CHANNELS_4 : Int
  BITWIDTH : Int
  BITWIDTH_16 : Int
  BITWIDTH_24 : Int
  BITWIDTH_32 : Int
  NORMAL : Int
  TAG_KEY_MUX_DEMUX_CONFIG : Int
  TAG_VALUE_MUX_DEMUX_CONFIG_UPLINK : Int
  TAG_VALUE_MUX_DEMUX_CONFIG_DOWNLINK : Int
  TAG_VALUE_MUX_DEMUX_CONFIG_UPLINK_DOWNLINK_MONO : Int
  TAG_VALUE_MUX_DEMUX_CONFIG_UPLINK_DOWNLINK_STEREO : Int
  TAG_MUTE : Nat
  TAG_STREAM_SLOW_TALK : Nat
  TAG_PAUSE : Nat
  TAG_STREAM_MFC_SR : Nat
  TAG_DEVICE_MFC_SR : Nat
  TAG_FLUENCE : Nat
  TAG_MODULE_OP_MODE : Nat
  TAG_STREAM_MUX_DEMUX : Nat

/-- A sample assignment of the tag keys, used where a statement is evaluated at
a concrete input. -/
def sampleTagKeys : TagKeys where
  MUTE := 3001
  ON := 1
  OFF := 0
  TAG_KEY_SLOW_TALK := 3002
  TAG_VALUE_SLOW_TALK_OFF := 3003
  TAG_VALUE_SLOW_TALK_ON := 3004
  PAUSE := 3005
  SAMPLINGRATE := 3006
  SAMPLINGRATE_8K := 8000
  SAMPLINGRATE_16K := 16000
  SAMPLINGRATE_32K := 32000
  SAMPLINGRATE_44K := 44100
  SAMPLINGRATE_48K := 48000
  SAMPLINGRATE_96K := 96000
  SAMPLINGRATE_192K := 192000
  SAMPLINGRATE_384K := 384000
  FLUENCE := 3007
  FLUENCE_ON := 3008
  FLUENCE_OFF := 3009
  FLUENCE_EC := 3010
  FLUENCE_NS := 3011
  CHANNELS := 3012
  CHANNELS_1 := 3013
  CHANNELS_2 := 3014
  CHANNELS_3 := 3015
  CHANNELS_4 := 3016
  BITWIDTH := 3017
  BITWIDTH_16 := 3018
  BITWIDTH_24 := 3019
  BITWIDTH_32 := 3020
  NORMAL := 3021
  TAG_KEY_MUX_DEMUX_CONFIG := 3022
  TAG_VALUE_MUX_DEMUX_CONFIG_UPLINK := 3023
  TAG_VALUE_MUX_DEMUX_CONFIG_DOWNLINK := 3024
  TAG_VALUE_MUX_DEMUX_CONFIG_UPLINK_DOWNLINK_MONO := 3025
  TAG_VALUE_MUX_DEMUX_CONFIG_UPLINK_DOWNLINK_STEREO := 3026
  TAG_MUTE := 4001
  TAG_STREAM_SLOW_TALK := 4002
  TAG_PAUSE := 4003
  TAG_STREAM_MFC_SR := 4004
  TAG_DEVICE_MFC_SR := 4005
  TAG_FLUENCE := 4006
  TAG_MODULE_OP_MODE := 4007
  TAG_STREAM_MUX_DEMUX := 4008

/-- Function `PayloadBuilder::populateTagKeyVector`: the returned status, the
caller's `tkv` after the call and the value behind `gsltag` after the call
(`gsltag` on entry is the value the caller had there).  The `OP_MODE` case has
no `break`: after its own push and store, control runs on into the
`INCALL_RECORD_UPLINK` case, which pushes its pair and stores its selector. -/
def populateTagKeyVector (tk : TagKeys) (s : Stream) (tkv : KeyVector) (tag : TagId)
    (gsltag : Nat) : Int × KeyVector × Nat :=
  if s.getStreamAttributesStatus ≠ 0 then (s.getStreamAttributesStatus, tkv, gsltag)
  else
    match tag with
    | .MUTE_TAG => (0, tkv ++ [(tk.MUTE, tk.ON)], tk.TAG_MUTE)
    | .UNMUTE_TAG => (0, tkv ++ [(tk.MUTE, tk.OFF)], tk.TAG_MUTE)
    | .VOICE_SLOW_TALK_OFF =>
      (0, tkv ++ [(tk.TAG_KEY_SLOW_TALK, tk.TAG_VALUE_SLOW_TALK_OFF)], tk.TAG_STREAM_SLOW_TALK)
    | .VOICE_SLOW_TALK_ON =>
      (0, tkv ++ [(tk.TAG_KEY_SLOW_TALK, tk.TAG_VALUE_SLOW_TALK_ON)], tk.TAG_STREAM_SLOW_TALK)
    | .PAUSE_TAG => (0, tkv ++ [(tk.PAUSE, tk.ON)], tk.TAG_PAUSE)
    | .RESUME_TAG => (0, tkv ++ [(tk.PAUSE, tk.OFF)], tk.TAG_PAUSE)
    | .MFC_SR_8K =>
      (0, tkv ++ [(tk.SAMPLINGRATE, tk.SAMPLINGRATE_8K)],
        if s.sattr.direction = .QAL_AUDIO_INPUT then tk.TAG_STREAM_MFC_SR
        else tk.TAG_DEVICE_MFC_SR)
    | .MFC_SR_16K =>
      (0, tkv ++ [(tk.SAMPLINGRATE, tk.SAMPLINGRATE_16K)],
        if s.sattr.direction = .QAL_AUDIO_INPUT then tk.TAG_STREAM_MFC_SR
        else tk.TAG_DEVICE_MFC_SR)
    | .MFC_SR_32K =>
      (0, tkv ++ [(tk.SAMPLINGRATE, tk.SAMPLINGRATE_32K)],
        if s.sattr.direction = .QAL_AUDIO_INPUT then tk.TAG_STREAM_MFC_SR
        else tk.TAG_DEVICE_MFC_SR)
    | .MFC_SR_44K =>
      (0, tkv ++ [(tk.SAMPLINGRATE, tk.SAMPLINGRATE_44K)],
        if s.sattr.direction = .QAL_AUDIO_INPUT then tk.TAG_STREAM_MFC_SR
        else tk.TAG_DEVICE_MFC_SR)
    | .MFC_SR_48K =>
      (0, tkv ++ [(tk.SAMPLINGRATE, tk.SAMPLINGRATE_48K)],
        if s.sattr.direction = .QAL_AUDIO_INPUT then tk.TAG_STREAM_MFC_SR
        else tk.TAG_DEVICE_MFC_SR)
    | .MFC_SR_96K =>
      (0, tkv ++ [(tk.SAMPLINGRATE, tk.SAMPLINGRATE_96K)],
        if s.sattr.direction = .QAL_AUDIO_INPUT then tk.TAG_STREAM_MFC_SR
        else tk.TAG_DEVICE_MFC_SR)
    | .MFC_SR_192K =>
      (0, tkv ++ [(tk.SAMPLINGRATE, tk.SAMPLINGRATE_192K)],
        if s.sattr.direction = .QAL_AUDIO_INPUT then tk.TAG_STREAM_MFC_SR
        else tk.TAG_DEVICE_MFC_SR)
    | .MFC_SR_384K =>
      (0, tkv ++ [(tk.SAMPLINGRATE, tk.SAMPLINGRATE_384K)],
        if s.sattr.direction = .QAL_AUDIO_INPUT then tk.TAG_STREAM_MFC_SR
        else tk.TAG_DEVICE_MFC_SR)
    | .FLUENCE_ON_TAG => (0, tkv ++ [(tk.FLUENCE, tk.FLUENCE_ON)], tk.TAG_FLUENCE)
    | .FLUENCE_OFF_TAG => (0, tkv ++ [(tk.FLUENCE, tk.FLUENCE_OFF)], tk.TAG_FLUENCE)
    | .FLUENCE_EC_TAG => (0, tkv ++ [(tk.FLUENCE, tk.FLUENCE_EC)], tk.TAG_FLUENCE)
    | .FLUENCE_NS_TAG => (0, tkv ++ [(tk.FLUENCE, tk.FLUENCE_NS)], tk.TAG_FLUENCE)
    | .CHS_1 =>
      (0, tkv ++ [(tk.CHANNELS, tk.CHANNELS_1)],
        if s.sattr.direction = .QAL_AUDIO_INPUT then tk.TAG_STREAM_MFC_SR
        else tk.TAG_DEVICE_MFC_SR)
    | .CHS_2 =>
      (0, tkv ++ [(tk.CHANNELS, tk.CHANNELS_2)],
        if s.sattr.direction = .QAL_AUDIO_INPUT then tk.TAG_STREAM_MFC_SR
        else tk.TAG_DEVICE_MFC_SR)
    | .CHS_3 =>
      (0, tkv ++ [(tk.CHANNELS, tk.CHANNELS_3)],
        if s.sattr.direction = .QAL_AUDIO_INPUT then tk.TAG_STREAM_MFC_SR
        else tk.TAG_DEVICE_MFC_SR)
    | .CHS_4 =>
      (0, tkv ++ [(tk.CHANNELS, tk.CHANNELS_4)],
        if s.sattr.direction = .QAL_AUDIO_INPUT then tk.TAG_STREAM_MFC_SR
        else tk.TAG_DEVICE_MFC_SR)
    | .BW_16 =>
      (0, tkv ++ [(tk.BITWIDTH, tk.BITWIDTH_16)],
        if s.sattr.direction = .QAL_AUDIO_INPUT then tk.TAG_STREAM_MFC_SR
        else tk.TAG_DEVICE_MFC_SR)
    | .BW_24 =>
      (0, tkv ++ [(tk.BITWIDTH, tk.BITWIDTH_24)],
        if s.sattr.direction = .QAL_AUDIO_INPUT then tk.TAG_STREAM_MFC_SR
        else tk.TAG_DEVICE_MFC_SR)
    | .BW_32 =>
      (0, tkv ++ [(tk.BITWIDTH, tk.BITWIDTH_32)],
        if s.sattr.direction = .QAL_AUDIO_INPUT then tk.TAG_STREAM_MFC_SR
        else tk.TAG_DEVICE_MFC_SR)
    | .OP_MODE =>
      (0,
        (tkv ++ [((tk.TAG_MODULE_OP_MODE : Int), tk.NORMAL)]) ++
          [(tk.TAG_KEY_MUX_DEMUX_CONFIG, tk.TAG_VALUE_MUX_DEMUX_CONFIG_UPLINK)],
        tk.TAG_STREAM_MUX_DEMUX)
    | .INCALL_RECORD_UPLINK =>
      (0, tkv ++ [(tk.TAG_KEY_MUX_DEMUX_CONFIG, tk.TAG_VALUE_MUX_DEMUX_CONFIG_UPLINK)],
        tk.TAG_STREAM_MUX_DEMUX)
    | .INCALL_RECORD_DOWNLINK =>
      (0, tkv ++ [(tk.TAG_KEY_MUX_DEMUX_CONFIG, tk.TAG_VALUE_MUX_DEMUX_CONFIG_DOWNLINK)],
        tk.TAG_STREAM_MUX_DEMUX)
    | .INCALL_RECORD_UPLINK_DOWNLINK_MONO =>
      (0,
        tkv ++ [(tk.TAG_KEY_MUX_DEMUX_CONFIG, tk.TAG_VALUE_MUX_DEMUX_CONFIG_UPLINK_DOWNLINK_MONO)],
        tk.TAG_STREAM_MUX_DEMUX)
    | .INCALL_RECORD_UPLINK_DOWNLINK_STEREO =>
      (0,
        tkv ++
          [(tk.TAG_KEY_MUX_DEMUX_CONFIG, tk.TAG_VALUE_MUX_DEMUX_CONFIG_UPLINK_DOWNLINK_STEREO)],
        tk.TAG_STREAM_MUX_DEMUX)
    | .TAG_OTHER _ => (0, tkv, gsltag)

/-- Whether a tag id is one of the case labels of the switch. -/
def TagId.recognised : TagId → Bool
  | .TAG_OTHER _ => false
  | _ => true

/-- The pair the specification lists for a sample-rate, channel-count or
bit-width tag; `none` for every other tag. -/
def mfcTagPair (tk : TagKeys) : TagId → Option (Int × Int)
  | .MFC_SR_8K => some (tk.SAMPLINGRATE, tk.SAMPLINGRATE_8K)
  | .MFC_SR_16K => some (tk.SAMPLINGRATE, tk.SAMPLINGRATE_16K)
  | .MFC_SR_32K => some (tk.SAMPLINGRATE, tk.SAMPLINGRATE_32K)
  | .MFC_SR_44K => some (tk.SAMPLINGRATE, tk.SAMPLINGRATE_44K)
  | .MFC_SR_48K => some (tk.SAMPLINGRATE, tk.SAMPLINGRATE_48K)
  | .MFC_SR_96K => some (tk.SAMPLINGRATE, tk.SAMPLINGRATE_96K)
  | .MFC_SR_192K => some (tk.SAMPLINGRATE, tk.SAMPLINGRATE_192K)
  | .MFC_SR_384K => some (tk.SAMPLINGRATE, tk.SAMPLINGRATE_384K)
  | .CHS_1 => some (tk.CHANNELS, tk.CHANNELS_1)
  | .CHS_2 => some (tk.CHANNELS, tk.CHANNELS_2)
  | .CHS_3 => some (tk.CHANNELS, tk.CHANNELS_3)
  | .CHS_4 => some (tk.CHANNELS, tk.CHANNELS_4)
  | .BW_16 => some (tk.BITWIDTH, tk.BITWIDTH_16)
  | .BW_24 => some (tk.BITWIDTH, tk.BITWIDTH_24)
  | .BW_32 => some (tk.BITWIDTH, tk.BITWIDTH_32)
  | _ => none

/-! ## Device post-processing key-vector -/

/-- The keys and values `populateDevicePPKV` pushes itself, all defined in an
absent header. -/
structure DevicePPKeys where
  DEVICEPP_RX : Int
  DEVICEPP_TX : Int
  DEVICEPP_RX_VOICE_DEFAULT : Int
  DEVICEPP_RX_DEFAULT : Int
  DEVICEPP_RX_AUDIO_MBDRC : Int
  DEVICEPP_RX_VOIP_MBDRC : Int
  DEVICEPP_RX_HFPSINK : Int
  DEVICEPP_TX_HFP_SINK_FLUENCE_SMECNS : Int

/-- A sample assignment of the device post-processing keys, used where a
statement is evaluated at a concrete input. -/
def sampleDevicePPKeys : DevicePPKeys where
  DEVICEPP_RX := 5001
  DEVICEPP_TX := 5002
  DEVICEPP_RX_VOICE_DEFAULT := 5101
  DEVICEPP_RX_DEFAULT := 5102
  DEVICEPP_RX_AUDIO_MBDRC := 5103
  DEVICEPP_RX_VOIP_MBDRC := 5104
  DEVICEPP_RX_HFPSINK := 5105
  DEVICEPP_TX_HFP_SINK_FLUENCE_SMECNS := 5106

/-- The switch inside the device loop of `populateDevicePPKV`, for one
associated device whose attributes are `dAttr`: the two vectors after the
case ran, or `none` when the stream type falls to `default` (which leaves the
loop by `goto free_sattr`).  `kvpair` is the caller-supplied list, pushed pair
by pair. -/
def devicePPSwitch (pk : DevicePPKeys) (s : Stream) (dAttr : Device)
    (rxBeDevId txBeDevId : qal_device_id_t) (kvpair : KeyVector)
    (keyVectorRx keyVectorTx : KeyVector) : Option (KeyVector × KeyVector) :=
  match s.sattr.type with
  | .QAL_STREAM_VOICE_CALL =>
    let rx1 :=
      if dAttr.id = rxBeDevId then
        keyVectorRx ++ [(pk.DEVICEPP_RX, pk.DEVICEPP_RX_VOICE_DEFAULT)]
      else keyVectorRx
    let tx1 := if dAttr.id = txBeDevId then keyVectorTx ++ kvpair else keyVectorTx
    some (rx1, tx1)
  | .QAL_STREAM_LOW_LATENCY | .QAL_STREAM_COMPRESSED | .QAL_STREAM_DEEP_BUFFER
  | .QAL_STREAM_PCM_OFFLOAD =>
    if s.sattr.direction = .QAL_AUDIO_OUTPUT then
      if dAttr.id = .QAL_DEVICE_OUT_PROXY then
        some (keyVectorRx ++ [(pk.DEVICEPP_RX, pk.DEVICEPP_RX_DEFAULT)], keyVectorTx)
      else some (keyVectorRx ++ [(pk.DEVICEPP_RX, pk.DEVICEPP_RX_AUDIO_MBDRC)], keyVectorTx)
    else if s.sattr.direction = .QAL_AUDIO_INPUT then some (keyVectorRx, keyVectorTx ++ kvpair)
    else some (keyVectorRx, keyVectorTx)
  | .QAL_STREAM_VOIP_RX =>
    some (keyVectorRx ++ [(pk.DEVICEPP_RX, pk.DEVICEPP_RX_VOIP_MBDRC)], keyVectorTx)
  | .QAL_STREAM_LOOPBACK =>
    if s.sattr.loopback_type = .QAL_STREAM_LOOPBACK_HFP_RX then
      some (keyVectorRx ++ [(pk.DEVICEPP_RX, pk.DEVICEPP_RX_HFPSINK)], keyVectorTx)
    else if s.sattr.loopback_type = .QAL_STREAM_LOOPBACK_HFP_TX then
      some (keyVectorRx, keyVectorTx ++ [(pk.DEVICEPP_TX, pk.DEVICEPP_TX_HFP_SINK_FLUENCE_SMECNS)])
    else some (keyVectorRx, keyVectorTx)
  | .QAL_STREAM_VOIP_TX => some (keyVectorRx, keyVectorTx ++ kvpair)
  | .QAL_STREAM_VOICE_UI => some (keyVectorRx, keyVectorTx ++ s.getDevPpModifiers)
  | _ => none

/-- The device loop of `populateDevicePPKV`.  `.error r` is a return from
inside the loop with result `r`: a failed attribute query returns its status,
the `default` case returns the status 0 the query left; both skip the two
device-key calls after the loop.  `.ok` is the loop running to its end. -/
def devicePPLoop (pk : DevicePPKeys) (s : Stream) (rxBeDevId txBeDevId : qal_device_id_t)
    (kvpair : KeyVector) :
    List Device → KeyVector → KeyVector →
      Except (Int × KeyVector × KeyVector) (KeyVector × KeyVector)
  | [], keyVectorRx, keyVectorTx => .ok (keyVectorRx, keyVectorTx)
  | d :: rest, keyVectorRx, keyVectorTx =>
    if d.getDeviceAttributesStatus ≠ 0 then
      .error (d.getDeviceAttributesStatus, keyVectorRx, keyVectorTx)
    else
      match devicePPSwitch pk s d rxBeDevId txBeDevId kvpair keyVectorRx keyVectorTx with
      | none => .error (0, keyVectorRx, keyVectorTx)
      | some (rx1, tx1) => devicePPLoop pk s rxBeDevId txBeDevId kvpair rest rx1 tx1

/-- Function `PayloadBuilder::populateDevicePPKV`: the returned status and the
caller's Rx and Tx vectors after the call.  `allocOk` tells whether `new` gave
the attribute struct; `is_lpi` is unused. -/
def populateDevicePPKV (pk : DevicePPKeys) (dk : DeviceKeys) (allocOk : Bool) (s : Stream)
    (rxBeDevId : qal_device_id_t) (keyVectorRx : KeyVector) (txBeDevId : qal_device_id_t)
    (keyVectorTx : KeyVector) (kvpair : KeyVector) : Int × KeyVector × KeyVector :=
  if !allocOk then (-ENOMEM, keyVectorRx, keyVectorTx)
  else if s.getStreamAttributesStatus ≠ 0 then
    (s.getStreamAttributesStatus, keyVectorRx, keyVectorTx)
  else if s.getAssociatedDevicesStatus ≠ 0 then
    (s.getAssociatedDevicesStatus, keyVectorRx, keyVectorTx)
  else
    match devicePPLoop pk s rxBeDevId txBeDevId kvpair s.associatedDevices keyVectorRx
        keyVectorTx with
    | .error r => r
    | .ok (rx1, tx1) =>
      (0, (populateDeviceKV dk rxBeDevId rx1).2, (populateDeviceKV dk txBeDevId tx1).2)

/-! ## Voice-call stream key-vector and the voice-mode table -/

/-- The keys and values the Rx/Tx `populateStreamKV` uses beyond those of
`StreamKeys`, all defined in an absent header; the four `VOICE*MODE*` values
are the keys of the rows of `VSIDtoKV`. -/
structure VoiceKeys where
  HFP_RX_PLAYBACK : Int
  HFP_RX_CAPTURE : Int
  VOICE_CALL_RX : Int
  VOICE_CALL_TX : Int
  VOICEMMODE1 : Int
  VOICEMMODE2 : Int
  VOICELBMMODE1 : Int
  VOICELBMMODE2 : Int

/-- A sample assignment of the voice keys, used where a statement is evaluated
at a concrete input. -/
def sampleVoiceKeys : VoiceKeys where
  HFP_RX_PLAYBACK := 6001
  HFP_RX_CAPTURE := 6002
  VOICE_CALL_RX := 6003
  VOICE_CALL_TX := 6004
  VOICEMMODE1 := 6101
  VOICEMMODE2 := 6102
  VOICELBMMODE1 := 6103
  VOICELBMMODE2 := 6104

/-- The file-scope table `VSIDtoKV` as its initialiser leaves it: the four
voice modes, each mapped to 0. -/
def VSIDtoKV_initial (vk : VoiceKeys) : List (Int × Int) :=
  [(vk.VOICEMMODE1, 0), (vk.VOICEMMODE2, 0), (vk.VOICELBMMODE1, 0), (vk.VOICELBMMODE2, 0)]

/-- Argument `struct vsid_info`: the key `vsid` and the (key, value) entries of
`modepair`. -/
structure vsid_info where
  vsid : Int
  modepair : List (Int × Int)

/-- The two nested loops at the head of the voice-call case: for every entry
of `modepair` in order, every row of the table whose key equals the entry's
key gets the entry's value.  The rows of `VSIDtoKV` are pairs of `uint32_t`:
the entry's key is compared as a 32-bit unsigned value and the entry's value
is stored as one. -/
def updateVSIDtoKV (table : List (Int × Int)) (modepair : List (Int × Int)) :
    List (Int × Int) :=
  modepair.foldl
    (fun t mp => t.map (fun row =>
      if (castUint32 mp.1 : Int) = row.1 then (row.1, (castUint32 mp.2 : Int)) else row)) table

/-- Function `PayloadBuilder::populateStreamKV(Stream* s, keyVectorRx,
keyVectorTx, struct vsid_info vsidinfo)`, the Rx/Tx overload, with the
file-scope table `VSIDtoKV` passed in and out: the returned status, the two
vectors and the table after the call.  `allocOk` tells whether `new` gave the
attribute struct.  The rows of the table hold `uint32_t` values; the stream's
VSID is compared with a row key as a 32-bit unsigned value, and the pair
pushed for a matching row is a `std::pair<int,int>`, so `vsidinfo.vsid` and
the row value are converted to `int`. -/
def populateStreamKV_RxTx (sk : StreamKeys) (vk : VoiceKeys) (allocOk : Bool) (s : Stream)
    (VSIDtoKV : List (Int × Int)) (keyVectorRx keyVectorTx : KeyVector) (vsidinfo : vsid_info) :
    Int × KeyVector × KeyVector × List (Int × Int) :=
  if !allocOk then (-ENOMEM, keyVectorRx, keyVectorTx, VSIDtoKV)
  else if s.getStreamAttributesStatus ≠ 0 then
    (s.getStreamAttributesStatus, keyVectorRx, keyVectorTx, VSIDtoKV)
  else
    match s.sattr.type with
    | .QAL_STREAM_LOOPBACK =>
      if s.sattr.loopback_type = .QAL_STREAM_LOOPBACK_HFP_RX then
        (0, keyVectorRx ++ [(sk.STREAMRX, vk.HFP_RX_PLAYBACK)],
          keyVectorTx ++ [(sk.STREAMTX, vk.HFP_RX_CAPTURE)], VSIDtoKV)
      else if s.sattr.loopback_type = .QAL_STREAM_LOOPBACK_HFP_TX then
        (0, keyVectorRx, keyVectorTx, VSIDtoKV)
      else (0, keyVectorRx ++ [(sk.STREAMRX, sk.PCM_RX_LOOPBACK)], keyVectorTx, VSIDtoKV)
    | .QAL_STREAM_VOICE_CALL =>
      let table1 := updateVSIDtoKV VSIDtoKV vsidinfo.modepair
      let matching :=
        (table1.filter (fun row => (castUint32 s.sattr.VSID : Int) = row.1)).map
          (fun row => (castInt32 vsidinfo.vsid, castInt32 row.2))
      (0, keyVectorRx ++ [(sk.STREAMRX, vk.VOICE_CALL_RX)] ++ matching,
        keyVectorTx ++ [(sk.STREAMTX, vk.VOICE_CALL_TX)] ++ matching, table1)
    | _ => (-EINVAL, keyVectorRx, keyVectorTx, VSIDtoKV)

/-! ## The bytes of a block -/

/-- The `w` little-endian bytes of the low `8 * w` bits of `v`: what a store
into a `w`-byte unsigned field leaves in memory. -/
def storeLE : Nat → Nat → List Nat
  | 0, _ => []
  | w + 1, v => (v % 256) :: storeLE w (v / 256)

/-- The unsigned value of a little-endian byte sequence. -/
def loadLE : List Nat → Nat
  | [] => 0
  | b :: rest => b + 256 * loadLE rest

/-- The bit pattern a signed value has in a two's-complement field of `bits` bits. -/
def twosComplement (bits : Nat) (v : Int) : Nat := (v % (2 : Int) ^ bits).toNat

/-- The signed value of a two's-complement bit pattern of `bits` bits. -/
def signedOf (bits : Nat) (u : Nat) : Int :=
  if u < 2 ^ (bits - 1) then (u : Int) else (u : Int) - (2 : Int) ^ bits

/-- Reads the `w`-byte unsigned field at byte offset `off` of a buffer. -/
def readLE (buf : List Nat) (off w : Nat) : Nat := loadLE ((buf.drop off).take w)

/-- Modelled from the spec: the layout of `struct apm_module_param_data_t`,
which is declared in an absent header.  The sixteen bytes of the header are
four consecutive 32-bit little-endian fields in the order module instance id,
parameter id, error code, param size. -/
def headerBytes (h : apm_module_param_data_t) : List Nat :=
  storeLE 4 h.module_instance_id ++ storeLE 4 h.param_id ++ storeLE 4 h.error_code ++
    storeLE 4 h.param_size

/-- The bytes an encoder wrote after the header, for the payload shapes whose
layout the source fixes: the packed `param_id_mfc_output_media_fmt_t`
(`int32_t sampling_rate`, `int16_t bit_width`, `int16_t num_channels`, then
the `uint16_t` channel types) and the byte-copied or zeroed `raw` payloads. -/
def Payload.bytes : Payload → Option (List Nat)
  | .mfc sr bw nch cm =>
    some (storeLE 4 (twosComplement 32 sr) ++ storeLE 2 (twosComplement 16 bw) ++
      storeLE 2 (twosComplement 16 nch) ++ (cm.map (storeLE 2)).flatten)
  | .raw b => some b
  | _ => none

/-- The whole buffer of a block obtained from `calloc` or a value-initialising
`new`: header, payload, and zeros up to the allocated length. -/
def ParamBlock.bytes (b : ParamBlock) : Option (List Nat) :=
  b.payload.bytes.map (fun p =>
    headerBytes b.header ++ p ++ List.replicate (b.allocated - (16 + p.length)) 0)

/-- Reads the header back from the first sixteen bytes of a buffer. -/
def readHeader (buf : List Nat) : apm_module_param_data_t :=
  { module_instance_id := readLE buf 0 4
    param_id := readLE buf 4 4
    error_code := readLE buf 8 4
    param_size := readLE buf 12 4 }

/-- The caller's `*payload` and `*size` after an encoder call, given what they
held before it. -/
def EncodeResult.applyTo (r : EncodeResult) (prior : Option ParamBlock × Nat) :
    Option ParamBlock × Nat :=
  match r with
  | .untouched => prior
  | .stored p n => (p, n)

/-! ## The remaining key-vector resolvers -/

/-- The key and the value `populateStreamPPKV` pushes, defined in an absent
header. -/
structure StreamPPKeys where
  STREAMPP_RX : Int
  STREAMPP_RX_DEFAULT : Int

/-- A sample assignment of the stream post-processing keys, used where a
statement is evaluated at a concrete input. -/
def sampleStreamPPKeys : StreamPPKeys where
  STREAMPP_RX := 7001
  STREAMPP_RX_DEFAULT := 7101

/-- Function `PayloadBuilder::populateStreamPPKV`: the returned status and the
two vectors after the call.  `keyVectorTx` is unused; the `default` case only
logs and leaves `status` at 0.  `allocOk` tells whether `new` gave the
attribute struct. -/
def populateStreamPPKV (pp : StreamPPKeys) (allocOk : Bool) (s : Stream)
    (keyVectorRx keyVectorTx : KeyVector) : Int × KeyVector × KeyVector :=
  if !allocOk then (-ENOMEM, keyVectorRx, keyVectorTx)
  else if s.getStreamAttributesStatus ≠ 0 then
    (s.getStreamAttributesStatus, keyVectorRx, keyVectorTx)
  else
    match s.sattr.type with
    | .QAL_STREAM_VOICE_CALL =>
      (0, keyVectorRx ++ [(pp.STREAMPP_RX, pp.STREAMPP_RX_DEFAULT)], keyVectorTx)
    | _ => (0, keyVectorRx, keyVectorTx)

/-- Modelled from the spec: the enumeration `sidetone_mode_t`, declared in an
absent header.  `SIDETONE_SW` is the enumerator the source names;
`SIDETONE_OTHER` stands for any other value. -/
inductive sidetone_mode_t where
  | SIDETONE_SW
  | SIDETONE_OTHER (code : Nat)
  deriving DecidableEq, Repr

/-- The key and the value of the sidetone pair, defined in an absent header. -/
structure SidetoneKeys where
  SW_SIDETONE : Int
  SW_SIDETONE_ON : Int

/-- A sample assignment of the sidetone keys, used where a statement is
evaluated at a concrete input. -/
def sampleSidetoneKeys : SidetoneKeys where
  SW_SIDETONE := 8001
  SW_SIDETONE_ON := 8101

/-- Function `PayloadBuilder::populateDeviceKV(Stream* s, int32_t rxBeDevId,
keyVectorRx, int32_t txBeDevId, keyVectorTx, sidetone_mode_t sidetoneMode)`,
the Rx/Tx overload: the returned status and the two vectors after the call.
The statuses of the two single-device calls are discarded. -/
def populateDeviceKV_RxTx (dk : DeviceKeys) (stk : SidetoneKeys) (s : Stream)
    (rxBeDevId : qal_device_id_t) (keyVectorRx : KeyVector) (txBeDevId : qal_device_id_t)
    (keyVectorTx : KeyVector) (sidetoneMode : sidetone_mode_t) :
    Int × KeyVector × KeyVector :=
  if s.getStreamAttributesStatus ≠ 0 then
    (s.getStreamAttributesStatus, keyVectorRx, keyVectorTx)
  else
    let keyVectorRx1 := (populateDeviceKV dk rxBeDevId keyVectorRx).2
    let keyVectorTx1 := (populateDeviceKV dk txBeDevId keyVectorTx).2
    if s.sattr.type = .QAL_STREAM_VOICE_CALL ∧ sidetoneMode = .SIDETONE_SW then
      (0, keyVectorRx1, keyVectorTx1 ++ [(stk.SW_SIDETONE, stk.SW_SIDETONE_ON)])
    else (0, keyVectorRx1, keyVectorTx1)

/-- Function `PayloadBuilder::populateStreamCkv`: every argument but the vector
is unused; one pair is pushed. -/
def populateStreamCkv (c : CalConsts) (keyVector : KeyVector) : Int × KeyVector :=
  (0, keyVector ++ [(c.VOLUME, c.LEVEL_15)])

/-- The device loop of `populateDevicePPCkv`: a failing attribute query returns
its status at once; the voice-UI case pushes the channel count of the device;
the `default` case leaves the loop by `goto free_sattr` with the status 0 the
query left. -/
def devicePPCkvLoop (c : CalConsts) (s : Stream) : List Device → KeyVector → Int × KeyVector
  | [], keyVector => (0, keyVector)
  | d :: rest, keyVector =>
    if d.getDeviceAttributesStatus ≠ 0 then (d.getDeviceAttributesStatus, keyVector)
    else
      match s.sattr.type with
      | .QAL_STREAM_VOICE_UI =>
        devicePPCkvLoop c s rest (keyVector ++ [(c.CHANNELS, (d.channels : Int))])
      | _ => (0, keyVector)

/-- Function `PayloadBuilder::populateDevicePPCkv`: the returned status and the
caller's vector after the call.  `allocOk` tells whether `new` gave the
attribute struct. -/
def populateDevicePPCkv (c : CalConsts) (allocOk : Bool) (s : Stream) (keyVector : KeyVector) :
    Int × KeyVector :=
  if !allocOk then (-ENOMEM, keyVector)
  else if s.getStreamAttributesStatus ≠ 0 then (s.getStreamAttributesStatus, keyVector)
  else if s.getAssociatedDevicesStatus ≠ 0 then (s.getAssociatedDevicesStatus, keyVector)
  else devicePPCkvLoop c s s.associatedDevices keyVector

/-- The effect of the two nested loops at the head of the voice-call case on
one row, in words: the value (as a 32-bit unsigned value) of the last entry of
`modepair` whose key (as a 32-bit unsigned value) is the key of the row, and
the row as it was when there is none. -/
def lastMatchingEntry (modepair : List (Int × Int)) (row : Int × Int) : Int × Int :=
  match modepair.reverse.find? (fun mp => decide ((castUint32 mp.1 : Int) = row.1)) with
  | some mp => (row.1, (castUint32 mp.2 : Int))
  | none => row

/-! ## Theorems -/

/-! ### Alignment arithmetic -/

theorem ldiff_seven (m : Nat) : Nat.ldiff m 7 = m - m % 8 := by
  have h : m - m % 8 = (m >>> 3) <<< 3 := by
    rw [Nat.shiftRight_eq_div_pow, Nat.shiftLeft_eq]; omega
  rw [h]
  apply Nat.eq_of_testBit_eq
  intro i
  rw [Nat.testBit_ldiff, Nat.testBit_shiftLeft, Nat.testBit_shiftRight]
  have h7 : (7 : Nat) = 2 ^ 3 - 1 := by norm_num
  rw [h7, Nat.testBit_two_pow_sub_one]
  by_cases hi : i < 3
  · simp [hi]
  · have h3 : 3 + (i - 3) = i := by omega
    simp [hi, h3]; omega

theorem land_seven (m : Nat) : m &&& 7 = m % 8 := by
  have h := Nat.and_pow_two_sub_one_eq_mod m 3
  simpa using h

theorem xor_seven (r : Nat) (h : r < 8) : r ^^^ 7 = 7 - r := by
  interval_cases r <;> decide

theorem padding_eq (x : Nat) : QAL_PADDING_8BYTE_ALIGN x = (8 - x % 8) % 8 := by
  unfold QAL_PADDING_8BYTE_ALIGN
  rw [land_seven, xor_seven _ (Nat.mod_lt _ (by norm_num))]
  omega

theorem align_eq (x : Nat) : QAL_ALIGN_8BYTE x = x + (8 - x % 8) % 8 := by
  unfold QAL_ALIGN_8BYTE
  rw [ldiff_seven]
  omega

theorem padded_mod_eight (x : Nat) : (x + QAL_PADDING_8BYTE_ALIGN x) % 8 = 0 := by
  rw [padding_eq]; omega

theorem align_mod_eight (x : Nat) : QAL_ALIGN_8BYTE x % 8 = 0 := by
  rw [align_eq]; omega

/-- C5: for every size x the padding macro gives (8 - x mod 8) mod 8, a value
in 0..7, and x plus that padding is the value of the align macro, which is the
least multiple of 8 that is at least x. -/
theorem padding_align_macros (x : Nat) :
    QAL_PADDING_8BYTE_ALIGN x = (8 - x % 8) % 8 ∧
    QAL_PADDING_8BYTE_ALIGN x ≤ 7 ∧
    x + QAL_PADDING_8BYTE_ALIGN x = QAL_ALIGN_8BYTE x ∧
    QAL_ALIGN_8BYTE x % 8 = 0 ∧
    x ≤ QAL_ALIGN_8BYTE x ∧
    ∀ m : Nat, m % 8 = 0 → x ≤ m → QAL_ALIGN_8BYTE x ≤ m := by
  rw [padding_eq, align_eq]
  refine ⟨rfl, by omega, rfl, by omega, by omega, ?_⟩
  intro m hm hx
  omega

/-- C5 at x = 13: padding 3, aligned size 16, and 16 is below the multiple 24. -/
theorem padding_align_macros_witness :
    QAL_PADDING_8BYTE_ALIGN 13 = 3 ∧ QAL_ALIGN_8BYTE 13 = 16 ∧ QAL_ALIGN_8BYTE 13 ≤ 24 := by
  have h := padding_align_macros 13
  refine ⟨by simpa using h.1, ?_, h.2.2.2.2.2 24 (by norm_num) (by norm_num)⟩
  have h3 := h.2.2.1
  rw [h.1] at h3
  simpa using h3.symm

/-! ### Channel-map resolver -/

/-- C1: for every channel count n from 1 to 8 and every destination array of at
least n entries, populateChannelMap leaves the canonical order of n as the
first n entries, that order has length n, and nothing beyond entry n changes;
on a destination of exactly n entries the result is the table entry itself. -/
theorem populateChannelMap_canonical (k : ApiConsts) (pcmChannel : List Nat) (n : Nat)
    (h1 : 1 ≤ n) (h8 : n ≤ 8) (hlen : n ≤ pcmChannel.length) :
    (populateChannelMap k pcmChannel n).take n = canonicalChannelOrder k n ∧
    (canonicalChannelOrder k n).length = n ∧
    (populateChannelMap k pcmChannel n).drop n = pcmChannel.drop n ∧
    (populateChannelMap k pcmChannel n).length = pcmChannel.length ∧
    (pcmChannel.length = n → populateChannelMap k pcmChannel n = canonicalChannelOrder k n) := by
  rcases pcmChannel with _ | ⟨a0, _ | ⟨a1, _ | ⟨a2, _ | ⟨a3, _ | ⟨a4, _ | ⟨a5, _ | ⟨a6, _ | ⟨a7, r⟩⟩⟩⟩⟩⟩⟩⟩ <;>
    interval_cases n <;>
    first
      | (exfalso; simp at hlen; done)
      | simp [populateChannelMap, canonicalChannelOrder]

/-- C1 at n = 6 on a zeroed array of 6 entries: the result is [L,R,C,LFE,LB,RB]. -/
theorem populateChannelMap_canonical_witness :
    (populateChannelMap sampleConsts [0, 0, 0, 0, 0, 0] 6).take 6 = [1, 2, 3, 6, 8, 9] :=
  (populateChannelMap_canonical sampleConsts [0, 0, 0, 0, 0, 0] 6 (by decide) (by decide)
    (by decide)).1

/-! ### Block length and the param_size field -/

/-- C2: whenever any of the eighteen encoders hands a buffer to the caller, for
every struct size and every variable-length count, the length it reports in
`*size` is a multiple of 8 (and is the number of bytes it allocated). -/
theorem encoded_size_multiple_of_eight (k : ApiConsts) (sz : StructSizes) (call : EncoderCall)
    (blk : ParamBlock) (n : Nat) (h : call.run k sz = .stored (some blk) n) :
    n % 8 = 0 ∧ blk.allocated = n := by
  cases call with
  | usbAudioConfig miid data =>
    simp only [EncoderCall.run, payloadUsbAudioConfig, EncodeResult.stored.injEq,
      Option.some.injEq] at h
    obtain ⟨hb, hn⟩ := h
    subst hb; subst hn
    refine ⟨?_, rfl⟩
    split_ifs <;> omega
  | dpAudioConfig miid data =>
    simp only [EncoderCall.run, payloadDpAudioConfig, EncodeResult.stored.injEq,
      Option.some.injEq] at h
    obtain ⟨hb, hn⟩ := h
    subst hb; subst hn
    refine ⟨?_, rfl⟩
    split_ifs <;> omega
  | mfcConfig a miid data =>
    cases data <;> cases a <;>
      simp [EncoderCall.run, payloadMFCConfig] at h
    obtain ⟨hb, hn⟩ := h
    subst hb; subst hn
    exact ⟨padded_mod_eight _, rfl⟩
  | timestamp a moduleId =>
    cases a <;> simp [EncoderCall.run, payloadTimestamp] at h
    obtain ⟨hb, hn⟩ := h
    subst hb; subst hn
    exact ⟨padded_mod_eight _, rfl⟩
  | customParam a p m i j =>
    cases a <;> simp [EncoderCall.run, payloadCustomParam] at h
    obtain ⟨hb, hn⟩ := h
    subst hb; subst hn
    exact ⟨align_mod_eight _, rfl⟩
  | svaSoundModel a moduleId m =>
    cases m <;> cases a <;> simp [EncoderCall.run, payloadSVASoundModel] at h
    obtain ⟨hb, hn⟩ := h
    subst hb; subst hn
    exact ⟨padded_mod_eight _, rfl⟩
  | svaWakeUpConfig a moduleId w =>
    cases w <;> cases a <;> simp [EncoderCall.run, payloadSVAWakeUpConfig] at h
    obtain ⟨hb, hn⟩ := h
    subst hb; subst hn
    exact ⟨padded_mod_eight _, rfl⟩
  | svaWakeUpBufferConfig a moduleId c =>
    cases c <;> cases a <;> simp [EncoderCall.run, payloadSVAWakeUpBufferConfig] at h
    obtain ⟨hb, hn⟩ := h
    subst hb; subst hn
    exact ⟨padded_mod_eight _, rfl⟩
  | svaStreamSetupDuration a moduleId d =>
    cases d <;> cases a <;> simp [EncoderCall.run, payloadSVAStreamSetupDuration] at h
    obtain ⟨hb, hn⟩ := h
    subst hb; subst hn
    exact ⟨padded_mod_eight _, rfl⟩
  | svaEventConfig a moduleId c =>
    cases c <;> cases a <;> simp [EncoderCall.run, payloadSVAEventConfig] at h
    obtain ⟨hb, hn⟩ := h
    subst hb; subst hn
    exact ⟨padded_mod_eight _, rfl⟩
  | svaEngineReset a moduleId =>
    cases a <;> simp [EncoderCall.run, payloadSVAEngineReset] at h
    obtain ⟨hb, hn⟩ := h
    subst hb; subst hn
    exact ⟨padded_mod_eight _, rfl⟩
  | query a moduleId paramId querySize =>
    cases a <;> simp [EncoderCall.run, payloadQuery] at h
    obtain ⟨hb, hn⟩ := h
    subst hb; subst hn
    exact ⟨padded_mod_eight _, rfl⟩
  | doaInfo a moduleId =>
    cases a <;> simp [EncoderCall.run, payloadDOAInfo] at h
    obtain ⟨hb, hn⟩ := h
    subst hb; subst hn
    exact ⟨padded_mod_eight _, rfl⟩
  | twsConfig a miid mono codec =>
    cases a <;> simp [EncoderCall.run, payloadTWSConfig] at h
    obtain ⟨hb, hn⟩ := h
    subst hb; subst hn
    exact ⟨align_mod_eight _, rfl⟩
  | ratConfig a miid data =>
    cases data <;> cases a <;> simp [EncoderCall.run, payloadRATConfig] at h
    obtain ⟨hb, hn⟩ := h
    subst hb; subst hn
    exact ⟨padded_mod_eight _, rfl⟩
  | pcmCnvConfig a miid data =>
    cases data <;> cases a <;> simp [EncoderCall.run, payloadPcmCnvConfig] at h
    split_ifs at h <;> simp at h
    all_goals
      obtain ⟨hb, hn⟩ := h
      subst hb; subst hn
      exact ⟨padded_mod_eight _, rfl⟩
  | copPackConfig a miid data =>
    cases data <;> cases a <;> simp [EncoderCall.run, payloadCopPackConfig] at h
    obtain ⟨hb, hn⟩ := h
    subst hb; subst hn
    exact ⟨padded_mod_eight _, rfl⟩
  | spConfig a miid param =>
    cases param <;> cases a <;> simp [EncoderCall.run, payloadSPConfig] at h
    obtain ⟨hb, hn⟩ := h
    subst hb; subst hn
    exact ⟨padded_mod_eight _, rfl⟩

/-- C2 at a three-channel media-format-converter call: 24 + 6 = 30 bytes are
padded to a reported length of 32. -/
theorem encoded_size_multiple_of_eight_witness :
    EncoderCall.run sampleConsts sampleSizes
        (.mfcConfig true 1 (some ⟨48000, 16, 3, none, 0⟩)) =
      .stored (some ⟨⟨1, PARAM_ID_MFC_OUTPUT_MEDIA_FORMAT, 0, 14⟩, .mfc 48000 16 3 [1, 2, 3], 32⟩)
        32 ∧
    32 % 8 = 0 :=
  have h : EncoderCall.run sampleConsts sampleSizes
        (.mfcConfig true 1 (some ⟨48000, 16, 3, none, 0⟩)) =
      .stored (some ⟨⟨1, PARAM_ID_MFC_OUTPUT_MEDIA_FORMAT, 0, 14⟩, .mfc 48000 16 3 [1, 2, 3], 32⟩)
        32 := by decide
  ⟨h, (encoded_size_multiple_of_eight sampleConsts sampleSizes _ _ 32 h).1⟩

/-- C3: for every encoder other than the two interface-config encoders, when
a buffer is handed over the header field param_size is exactly the number of
payload bytes (fixed struct plus variable part), the reported length is header
plus payload plus the padding of that sum, and so param_size equals the total
length minus the padding minus the 16-byte header: the padding is never
counted. -/
theorem param_size_excludes_padding (k : ApiConsts) (sz : StructSizes) (call : EncoderCall)
    (blk : ParamBlock) (n : Nat) (hkind : call.isInterfaceConfig = false)
    (h : call.run k sz = .stored (some blk) n) :
    blk.header.param_size = call.payloadBytes k sz ∧
    n = 16 + call.payloadBytes k sz + QAL_PADDING_8BYTE_ALIGN (16 + call.payloadBytes k sz) ∧
    blk.header.param_size = n - QAL_PADDING_8BYTE_ALIGN (16 + call.payloadBytes k sz) - 16 := by
  have key : ∀ p : Nat, blk.header.param_size = p →
      n = 16 + p + QAL_PADDING_8BYTE_ALIGN (16 + p) →
      blk.header.param_size = p ∧ n = 16 + p + QAL_PADDING_8BYTE_ALIGN (16 + p) ∧
        blk.header.param_size = n - QAL_PADDING_8BYTE_ALIGN (16 + p) - 16 := by
    intro p hp hn
    refine ⟨hp, hn, ?_⟩
    rw [hp, hn]; omega
  have hal : ∀ p : Nat, QAL_ALIGN_8BYTE (16 + p) = 16 + p + QAL_PADDING_8BYTE_ALIGN (16 + p) := by
    intro p; rw [align_eq, padding_eq]
  apply key
  · cases call with
    | usbAudioConfig miid data => simp [EncoderCall.isInterfaceConfig] at hkind
    | dpAudioConfig miid data => simp [EncoderCall.isInterfaceConfig] at hkind
    | mfcConfig a miid data =>
      cases data <;> cases a <;> simp [EncoderCall.run, payloadMFCConfig] at h
      obtain ⟨hb, hn⟩ := h
      subst hb
      simp [EncoderCall.payloadBytes, sizeof_apm_module_param_data_t]; omega
    | timestamp a moduleId =>
      cases a <;> simp [EncoderCall.run, payloadTimestamp] at h
      obtain ⟨hb, hn⟩ := h
      subst hb
      simp [EncoderCall.payloadBytes, sizeof_apm_module_param_data_t]
    | customParam a p m i j =>
      cases a <;> simp [EncoderCall.run, payloadCustomParam] at h
      obtain ⟨hb, hn⟩ := h
      subst hb
      simp [EncoderCall.payloadBytes]
    | svaSoundModel a moduleId m =>
      cases m <;> cases a <;> simp [EncoderCall.run, payloadSVASoundModel] at h
      obtain ⟨hb, hn⟩ := h
      subst hb
      simp [EncoderCall.payloadBytes, sizeof_apm_module_param_data_t]
    | svaWakeUpConfig a moduleId w =>
      cases w <;> cases a <;> simp [EncoderCall.run, payloadSVAWakeUpConfig] at h
      obtain ⟨hb, hn⟩ := h
      subst hb
      simp [EncoderCall.payloadBytes, sizeof_apm_module_param_data_t]; omega
    | svaWakeUpBufferConfig a moduleId c =>
      cases c <;> cases a <;> simp [EncoderCall.run, payloadSVAWakeUpBufferConfig] at h
      obtain ⟨hb, hn⟩ := h
      subst hb
      simp [EncoderCall.payloadBytes, sizeof_apm_module_param_data_t]
    | svaStreamSetupDuration a moduleId d =>
      cases d <;> cases a <;> simp [EncoderCall.run, payloadSVAStreamSetupDuration] at h
      obtain ⟨hb, hn⟩ := h
      subst hb
      simp [EncoderCall.payloadBytes, sizeof_apm_module_param_data_t]
    | svaEventConfig a moduleId c =>
      cases c <;> cases a <;> simp [EncoderCall.run, payloadSVAEventConfig] at h
      obtain ⟨hb, hn⟩ := h
      subst hb
      simp [EncoderCall.payloadBytes, sizeof_apm_module_param_data_t]
    | svaEngineReset a moduleId =>
      cases a <;> simp [EncoderCall.run, payloadSVAEngineReset] at h
      obtain ⟨hb, hn⟩ := h
      subst hb
      simp [EncoderCall.payloadBytes, sizeof_apm_module_param_data_t]
    | query a moduleId paramId querySize =>
      cases a <;> simp [EncoderCall.run, payloadQuery] at h
      obtain ⟨hb, hn⟩ := h
      subst hb
      simp [EncoderCall.payloadBytes, sizeof_apm_module_param_data_t]
    | doaInfo a moduleId =>
      cases a <;> simp [EncoderCall.run, payloadDOAInfo] at h
      obtain ⟨hb, hn⟩ := h
      subst hb
      simp [EncoderCall.payloadBytes, sizeof_apm_module_param_data_t]
    | twsConfig a miid mono codec =>
      cases a <;> simp [EncoderCall.run, payloadTWSConfig] at h
      obtain ⟨hb, hn⟩ := h
      subst hb
      simp [EncoderCall.payloadBytes]
    | ratConfig a miid data =>
      cases data <;> cases a <;> simp [EncoderCall.run, payloadRATConfig] at h
      obtain ⟨hb, hn⟩ := h
      subst hb
      simp [EncoderCall.payloadBytes, sizeof_apm_module_param_data_t]; omega
    | pcmCnvConfig a miid data =>
      cases data <;> cases a <;> simp [EncoderCall.run, payloadPcmCnvConfig] at h
      split_ifs at h <;> simp at h
      all_goals
        obtain ⟨hb, hn⟩ := h
        subst hb
        simp [EncoderCall.payloadBytes, sizeof_apm_module_param_data_t]; omega
    | copPackConfig a miid data =>
      cases data <;> cases a <;> simp [EncoderCall.run, payloadCopPackConfig] at h
      obtain ⟨hb, hn⟩ := h
      subst hb
      simp [EncoderCall.payloadBytes, sizeof_apm_module_param_data_t]; omega
    | spConfig a miid param =>
      cases param <;> cases a <;> simp [EncoderCall.run, payloadSPConfig] at h
      obtain ⟨hb, hn⟩ := h
      subst hb
      simp [EncoderCall.payloadBytes, sizeof_apm_module_param_data_t]; omega
  · cases call with
    | usbAudioConfig miid data => simp [EncoderCall.isInterfaceConfig] at hkind
    | dpAudioConfig miid data => simp [EncoderCall.isInterfaceConfig] at hkind
    | mfcConfig a miid data =>
      cases data <;> cases a <;> simp [EncoderCall.run, payloadMFCConfig] at h
      obtain ⟨hb, hn⟩ := h
      subst hn
      simp [EncoderCall.payloadBytes, sizeof_apm_module_param_data_t, Nat.add_assoc]
    | timestamp a moduleId =>
      cases a <;> simp [EncoderCall.run, payloadTimestamp] at h
      obtain ⟨hb, hn⟩ := h
      subst hn
      simp [EncoderCall.payloadBytes, sizeof_apm_module_param_data_t]
    | customParam a p m i j =>
      cases a <;> simp [EncoderCall.run, payloadCustomParam] at h
      obtain ⟨hb, hn⟩ := h
      subst hn
      simp [EncoderCall.payloadBytes, sizeof_apm_module_param_data_t, hal]
    | svaSoundModel a moduleId m =>
      cases m <;> cases a <;> simp [EncoderCall.run, payloadSVASoundModel] at h
      obtain ⟨hb, hn⟩ := h
      subst hn
      simp [EncoderCall.payloadBytes, sizeof_apm_module_param_data_t]
    | svaWakeUpConfig a moduleId w =>
      cases w <;> cases a <;> simp [EncoderCall.run, payloadSVAWakeUpConfig] at h
      obtain ⟨hb, hn⟩ := h
      subst hn
      simp [EncoderCall.payloadBytes, sizeof_apm_module_param_data_t, Nat.add_assoc,
        Nat.mul_comm]
    | svaWakeUpBufferConfig a moduleId c =>
      cases c <;> cases a <;> simp [EncoderCall.run, payloadSVAWakeUpBufferConfig] at h
      obtain ⟨hb, hn⟩ := h
      subst hn
      simp [EncoderCall.payloadBytes, sizeof_apm_module_param_data_t]
    | svaStreamSetupDuration a moduleId d =>
      cases d <;> cases a <;> simp [EncoderCall.run, payloadSVAStreamSetupDuration] at h
      obtain ⟨hb, hn⟩ := h
      subst hn
      simp [EncoderCall.payloadBytes, sizeof_apm_module_param_data_t]
    | svaEventConfig a moduleId c =>
      cases c <;> cases a <;> simp [EncoderCall.run, payloadSVAEventConfig] at h
      obtain ⟨hb, hn⟩ := h
      subst hn
      simp [EncoderCall.payloadBytes, sizeof_apm_module_param_data_t]
    | svaEngineReset a moduleId =>
      cases a <;> simp [EncoderCall.run, payloadSVAEngineReset] at h
      obtain ⟨hb, hn⟩ := h
      subst hn
      simp [EncoderCall.payloadBytes, sizeof_apm_module_param_data_t]
    | query a moduleId paramId querySize =>
      cases a <;> simp [EncoderCall.run, payloadQuery] at h
      obtain ⟨hb, hn⟩ := h
      subst hn
      simp [EncoderCall.payloadBytes, sizeof_apm_module_param_data_t]
    | doaInfo a moduleId =>
      cases a <;> simp [EncoderCall.run, payloadDOAInfo] at h
      obtain ⟨hb, hn⟩ := h
      subst hn
      simp [EncoderCall.payloadBytes, sizeof_apm_module_param_data_t]
    | twsConfig a miid mono codec =>
      cases a <;> simp [EncoderCall.run, payloadTWSConfig] at h
      obtain ⟨hb, hn⟩ := h
      subst hn
      simp [EncoderCall.payloadBytes, sizeof_apm_module_param_data_t, hal]
    | ratConfig a miid data =>
      cases data <;> cases a <;> simp [EncoderCall.run, payloadRATConfig] at h
      obtain ⟨hb, hn⟩ := h
      subst hn
      simp [EncoderCall.payloadBytes, sizeof_apm_module_param_data_t, Nat.add_assoc]
    | pcmCnvConfig a miid data =>
      cases data <;> cases a <;> simp [EncoderCall.run, payloadPcmCnvConfig] at h
      split_ifs at h <;> simp at h
      all_goals
        obtain ⟨hb, hn⟩ := h
        subst hn
        simp [EncoderCall.payloadBytes, sizeof_apm_module_param_data_t, Nat.add_assoc]
    | copPackConfig a miid data =>
      cases data <;> cases a <;> simp [EncoderCall.run, payloadCopPackConfig] at h
      obtain ⟨hb, hn⟩ := h
      subst hn
      simp [EncoderCall.payloadBytes, sizeof_apm_module_param_data_t, Nat.add_assoc]
    | spConfig a miid param =>
      cases param <;> cases a <;> simp [EncoderCall.run, payloadSPConfig] at h
      obtain ⟨hb, hn⟩ := h
      subst hn
      simp [EncoderCall.payloadBytes, sizeof_apm_module_param_data_t, Nat.add_assoc]

/-- C3 at a three-channel media-format-converter call with the 8-byte struct of
the source: param_size is 8 + 2 * 3 = 14 and the reported length is 30 rounded
up to 32, two bytes of padding that param_size does not count. -/
theorem param_size_excludes_padding_witness :
    (14 : Nat) = EncoderCall.payloadBytes sampleConsts sampleSizes
        (.mfcConfig true 1 (some ⟨48000, 16, 3, none, 0⟩)) ∧
    32 = 16 + EncoderCall.payloadBytes sampleConsts sampleSizes
        (.mfcConfig true 1 (some ⟨48000, 16, 3, none, 0⟩)) +
      QAL_PADDING_8BYTE_ALIGN (16 + EncoderCall.payloadBytes sampleConsts sampleSizes
        (.mfcConfig true 1 (some ⟨48000, 16, 3, none, 0⟩))) :=
  have h := param_size_excludes_padding sampleConsts sampleSizes
    (.mfcConfig true 1 (some ⟨48000, 16, 3, none, 0⟩))
    ⟨⟨1, PARAM_ID_MFC_OUTPUT_MEDIA_FORMAT, 0, 14⟩, .mfc 48000 16 3 [1, 2, 3], 32⟩ 32 rfl
    (by decide)
  ⟨h.1, h.2.1⟩

/-- C4, the code at the failing input: for the DisplayPort config of three
32-bit fields (12 bytes) the encoder rounds 28 up to 32 before it fills the
header, so it stores param_size = 32 - 16 = 16, four bytes of padding
included, and not 12. -/
theorem payloadDpAudioConfig_param_size_counts_padding :
    payloadDpAudioConfig sampleSizes 1 ⟨0, 0, 0⟩ =
      .stored (some ⟨⟨1, PARAM_ID_DISPLAY_PORT_INTF_CFG, 0, 16⟩, .dp 0 0 0, 32⟩) 32 ∧
    (payloadDpAudioConfig sampleSizes 1 ⟨0, 0, 0⟩).param_size ≠ some sampleSizes.dpAudioConfig := by
  decide

/-! ### Bit-width conversion -/

/-- C6: for an input bit width b of 16 or 32 the PCM output-format encoder
writes bit_width = b, bits_per_sample = b and q_factor = b - 1 and the
rate-adaptation encoder writes bits_per_sample = b and q_factor = b - 1; for
input bit width 24 the rate-adaptation encoder writes bits_per_sample = 32 and
q_factor = 27. -/
theorem bit_width_conversion (k : ApiConsts) (sz : StructSizes) (miid : Nat)
    (d : qal_media_config) :
    ((d.bit_width = 16 ∨ d.bit_width = 32) →
      (payloadPcmCnvConfig k sz true miid (some d)).field Payload.bit_width =
          some (d.bit_width : Int) ∧
      (payloadPcmCnvConfig k sz true miid (some d)).field Payload.bits_per_sample =
          some d.bit_width ∧
      (payloadPcmCnvConfig k sz true miid (some d)).field Payload.q_factor =
          some (d.bit_width - 1) ∧
      (payloadRATConfig k sz true miid (some d)).field Payload.bits_per_sample =
          some d.bit_width ∧
      (payloadRATConfig k sz true miid (some d)).field Payload.q_factor =
          some (d.bit_width - 1)) ∧
    (d.bit_width = 24 →
      (payloadRATConfig k sz true miid (some d)).field Payload.bits_per_sample = some 32 ∧
      (payloadRATConfig k sz true miid (some d)).field Payload.q_factor = some 27) := by
  constructor
  · intro hb
    simp [payloadPcmCnvConfig, payloadRATConfig, EncodeResult.field, EncodeResult.block,
      Payload.bit_width, Payload.bits_per_sample, Payload.q_factor, hb]
  · intro hb
    simp [payloadRATConfig, EncodeResult.field, EncodeResult.block,
      Payload.bits_per_sample, Payload.q_factor, hb]

/-- C6 at a stereo 16-bit configuration: the PCM encoder writes q_factor 15. -/
theorem bit_width_conversion_witness :
    (payloadPcmCnvConfig sampleConsts sampleSizes true 1 (some ⟨48000, 16, 2⟩)).field
      Payload.q_factor = some 15 :=
  ((bit_width_conversion sampleConsts sampleSizes 1 ⟨48000, 16, 2⟩).1 (Or.inl rfl)).2.2.1

/-- C7 as stated fails: with the three sample-format constants at the values
their names spell, a 24-bit input makes the PCM output-format encoder write
bit_width 24 and q_factor 31, not bit-width 32 and Q-factor 27. -/
theorem payloadPcmCnvConfig_24_not_q27 :
    (payloadPcmCnvConfig sampleConsts sampleSizes true 1 (some ⟨48000, 24, 2⟩)).field
        Payload.bit_width = some 24 ∧
    (payloadPcmCnvConfig sampleConsts sampleSizes true 1 (some ⟨48000, 24, 2⟩)).field
        Payload.bits_per_sample = some 32 ∧
    (payloadPcmCnvConfig sampleConsts sampleSizes true 1 (some ⟨48000, 24, 2⟩)).field
        Payload.q_factor = some 31 ∧
    (payloadPcmCnvConfig sampleConsts sampleSizes true 1 (some ⟨48000, 24, 2⟩)).field
        Payload.bit_width ≠ some 32 ∧
    (payloadPcmCnvConfig sampleConsts sampleSizes true 1 (some ⟨48000, 24, 2⟩)).field
        Payload.q_factor ≠ some 27 := by
  decide

/-- C7 as amended: for input bit width 24 the PCM output-format encoder writes
bit_width = BIT_WIDTH_24, bits_per_sample = BITS_PER_SAMPLE_32, q_factor =
PCM_Q_FACTOR_31 and alignment = PCM_MSB_ALIGNED. -/
theorem payloadPcmCnvConfig_24_q31 (k : ApiConsts) (sz : StructSizes) (miid : Nat)
    (d : qal_media_config) (hb : d.bit_width = 24) :
    (payloadPcmCnvConfig k sz true miid (some d)).field Payload.bit_width =
        some (k.BIT_WIDTH_24 : Int) ∧
    (payloadPcmCnvConfig k sz true miid (some d)).field Payload.bits_per_sample =
        some k.BITS_PER_SAMPLE_32 ∧
    (payloadPcmCnvConfig k sz true miid (some d)).field Payload.q_factor =
        some k.PCM_Q_FACTOR_31 ∧
    (payloadPcmCnvConfig k sz true miid (some d)).field Payload.alignment =
        some k.PCM_MSB_ALIGNED := by
  simp [payloadPcmCnvConfig, EncodeResult.field, EncodeResult.block, Payload.bit_width,
    Payload.bits_per_sample, Payload.q_factor, Payload.alignment, hb]

/-- C7 as amended, at a stereo 24-bit configuration: q_factor is 31. -/
theorem payloadPcmCnvConfig_24_q31_witness :
    (payloadPcmCnvConfig sampleConsts sampleSizes true 1 (some ⟨48000, 24, 2⟩)).field
      Payload.q_factor = some 31 :=
  (payloadPcmCnvConfig_24_q31 sampleConsts sampleSizes 1 ⟨48000, 24, 2⟩ rfl).2.2.1

/-- C8: for every input bit width other than 16, 24 and 32 the PCM
output-format encoder hands no buffer to the caller, and once it holds its
buffer it returns with `*payload = NULL` and `*size = 0`. -/
theorem payloadPcmCnvConfig_rejects (k : ApiConsts) (sz : StructSizes) (allocOk : Bool)
    (miid : Nat) (d : qal_media_config)
    (h16 : d.bit_width ≠ 16) (h24 : d.bit_width ≠ 24) (h32 : d.bit_width ≠ 32) :
    (payloadPcmCnvConfig k sz allocOk miid (some d)).block = none ∧
    payloadPcmCnvConfig k sz true miid (some d) = .stored none 0 := by
  cases allocOk <;>
    simp [payloadPcmCnvConfig, EncodeResult.block, h16, h24, h32]

/-- C8 at an 8-bit stereo configuration: the outputs are NULL and 0. -/
theorem payloadPcmCnvConfig_rejects_witness :
    payloadPcmCnvConfig sampleConsts sampleSizes true 1 (some ⟨48000, 8, 2⟩) = .stored none 0 :=
  (payloadPcmCnvConfig_rejects sampleConsts sampleSizes true 1 ⟨48000, 8, 2⟩ (by decide)
    (by decide) (by decide)).2

/-- C9, the code at the failing input: for an 8-bit stereo configuration the
rate-adaptation encoder has no rejecting branch; it hands over a 40-byte block
whose bits_per_sample and q_factor are the zeros of the fresh buffer. -/
theorem payloadRATConfig_accepts_invalid_bit_width :
    payloadRATConfig sampleConsts sampleSizes true 1 (some ⟨48000, 8, 2⟩) =
      .stored
        (some ⟨⟨1, sampleConsts.PARAM_ID_RAT_MEDIA_FORMAT, 0, 20⟩,
          .rat 48000 0 0 sampleConsts.DATA_FORMAT_FIXED_POINT 2 [1, 2], 40⟩)
        40 := by
  decide

/-! ### Volume quantization -/

theorem float_literals_nearest :
    nearestBinary32 9328669 32 0.002172 ∧
    nearestBinary32 10007274 31 0.004660 ∧
    nearestBinary32 10737418 30 0.01 ∧
    nearestBinary32 15974057 30 0.014877 ∧
    nearestBinary32 12694850 29 0.023646 ∧
    nearestBinary32 10088878 28 0.037584 ∧
    nearestBinary32 15008763 28 0.055912 ∧
    nearestBinary32 11927795 27 0.088869 ∧
    nearestBinary32 9479395 26 0.141254 ∧
    nearestBinary32 12713976 26 0.189453 ∧
    nearestBinary32 8953665 25 0.266840 ∧
    nearestBinary32 12611031 25 0.375838 ∧
    nearestBinary32 8457076 24 0.504081 ∧
    nearestBinary32 11911605 24 0.709987 ∧
    nearestBinary32 15099494 24 0.9 ∧
    nearestBinary32 12884902 32 0.003 ∧
    nearestBinary32 15938355 24 0.95 := by
  unfold nearestBinary32 binary32
  refine ⟨?_, ?_, ?_, ?_, ?_, ?_, ?_, ?_, ?_, ?_, ?_, ?_, ?_, ?_, ?_, ?_, ?_⟩ <;>
    refine ⟨by norm_num, by norm_num, ?_, ?_⟩ <;> norm_num

theorem firstBoundLevel_volumeBounds (v : ℚ) :
    firstBoundLevel v volumeBounds =
      if v < 0.002172 then 15
      else if v < 0.004660 then 14
      else if v < 0.01 then 13
      else if v < 0.014877 then 12
      else if v < 0.023646 then 11
      else if v < 0.037584 then 10
      else if v < 0.055912 then 9
      else if v < 0.088869 then 8
      else if v < 0.141254 then 7
      else if v < 0.189453 then 6
      else if v < 0.266840 then 5
      else if v < 0.375838 then 4
      else if v < 0.504081 then 3
      else if v < 0.709987 then 2
      else if v < 0.9 then 1
      else 0 :=
  rfl

theorem firstBoundLevel_volumeBoundsFloat (v : ℚ) :
    firstBoundLevel v volumeBoundsFloat =
      if v < float_0_002172 then 15
      else if v < float_0_004660 then 14
      else if v < float_0_01 then 13
      else if v < float_0_014877 then 12
      else if v < float_0_023646 then 11
      else if v < float_0_037584 then 10
      else if v < float_0_055912 then 9
      else if v < float_0_088869 then 8
      else if v < float_0_141254 then 7
      else if v < float_0_189453 then 6
      else if v < float_0_266840 then 5
      else if v < float_0_375838 then 4
      else if v < float_0_504081 then 3
      else if v < float_0_709987 then 2
      else if v < float_0_9 then 1
      else 0 :=
  rfl

theorem firstBoundLevel_le_of_levels (v : ℚ) (l : List (ℚ × Nat))
    (h : ∀ p ∈ l, p.2 ≤ 15) : firstBoundLevel v l ≤ 15 := by
  induction l with
  | nil => simp [firstBoundLevel]
  | cons p rest ih =>
    obtain ⟨b, lv⟩ := p
    simp only [firstBoundLevel]
    split_ifs
    · exact h (b, lv) (List.mem_cons_self _ _)
    · exact ih (fun q hq => h q (List.mem_cons_of_mem _ hq))

theorem firstBoundLevel_le (v : ℚ) : firstBoundLevel v volumeBoundsFloat ≤ 15 := by
  apply firstBoundLevel_le_of_levels
  intro p hp
  simp only [volumeBoundsFloat, List.mem_cons, List.mem_singleton, List.not_mem_nil,
    or_false] at hp
  rcases hp with h | h | h | h | h | h | h | h | h | h | h | h | h | h | h <;>
    (subst h; show (_ : Nat) ≤ 15; omega)

theorem firstBoundLevel_congr (v : ℚ) (l1 l2 : List (ℚ × Nat))
    (hlevels : l1.map Prod.snd = l2.map Prod.snd)
    (hside : ∀ p ∈ l1.zip l2, (v < p.1.1 ↔ v < p.2.1)) :
    firstBoundLevel v l1 = firstBoundLevel v l2 := by
  induction l1 generalizing l2 with
  | nil =>
    cases l2 with
    | nil => rfl
    | cons q rest2 => simp at hlevels
  | cons p rest1 ih =>
    cases l2 with
    | nil => simp at hlevels
    | cons q rest2 =>
      obtain ⟨b1, lv1⟩ := p
      obtain ⟨b2, lv2⟩ := q
      simp only [List.map_cons, List.cons.injEq] at hlevels
      have hhead := hside ((b1, lv1), (b2, lv2)) (by simp)
      have htail : ∀ r ∈ rest1.zip rest2, (v < r.1.1 ↔ v < r.2.1) :=
        fun r hr => hside r (by simp [hr])
      simp only [firstBoundLevel]
      by_cases hb : v < b1
      · rw [if_pos hb, if_pos (hhead.mp hb)]
        exact hlevels.1
      · rw [if_neg hb, if_neg (fun h2 => hb (hhead.mpr h2))]
        exact ih rest2 hlevels.2 htail

theorem volumeCase_eq_firstBound (c : CalConsts) (v : ℚ) (ckv : KeyVector)
    (_hlo : 0 ≤ v) (hhi : v ≤ 1) :
    volumeCase c v ckv =
      ckv ++ [(c.VOLUME, levelValue c (firstBoundLevel v volumeBoundsFloat))] := by
  rw [firstBoundLevel_volumeBoundsFloat]
  unfold volumeCase
  by_cases hz : v = 0.0
  · rw [if_pos hz]
    have hlt : v < float_0_002172 := by rw [hz]; norm_num [float_0_002172, binary32]
    rw [if_pos hlt]; rfl
  · rw [if_neg hz]
    by_cases h0 : v < float_0_002172
    · rw [if_pos h0, if_pos h0]; rfl
    rw [if_neg h0, if_neg h0]
    by_cases h1 : v < float_0_004660
    · rw [if_pos h1, if_pos h1]; rfl
    rw [if_neg h1, if_neg h1]
    by_cases h2 : v < float_0_01
    · rw [if_pos h2, if_pos h2]; rfl
    rw [if_neg h2, if_neg h2]
    by_cases h3 : v < float_0_014877
    · rw [if_pos h3, if_pos h3]; rfl
    rw [if_neg h3, if_neg h3]
    by_cases h4 : v < float_0_023646
    · rw [if_pos h4, if_pos h4]; rfl
    rw [if_neg h4, if_neg h4]
    by_cases h5 : v < float_0_037584
    · rw [if_pos h5, if_pos h5]; rfl
    rw [if_neg h5, if_neg h5]
    by_cases h6 : v < float_0_055912
    · rw [if_pos h6, if_pos h6]; rfl
    rw [if_neg h6, if_neg h6]
    by_cases h7 : v < float_0_088869
    · rw [if_pos h7, if_pos h7]; rfl
    rw [if_neg h7, if_neg h7]
    by_cases h8 : v < float_0_141254
    · rw [if_pos h8, if_pos h8]; rfl
    rw [if_neg h8, if_neg h8]
    by_cases h9 : v < float_0_189453
    · rw [if_pos h9, if_pos h9]; rfl
    rw [if_neg h9, if_neg h9]
    by_cases h10 : v < float_0_266840
    · rw [if_pos h10, if_pos h10]; rfl
    rw [if_neg h10, if_neg h10]
    by_cases h11 : v < float_0_375838
    · rw [if_pos h11, if_pos h11]; rfl
    rw [if_neg h11, if_neg h11]
    by_cases h12 : v < float_0_504081
    · rw [if_pos h12, if_pos h12]; rfl
    rw [if_neg h12, if_neg h12]
    by_cases h13 : v < float_0_709987
    · rw [if_pos h13, if_pos h13]; rfl
    rw [if_neg h13, if_neg h13]
    by_cases h14 : v < float_0_9
    · rw [if_pos h14, if_pos h14]; rfl
    rw [if_neg h14, if_neg h14]
    have hle : v ≤ 1.0 := by norm_num; exact hhi
    rw [if_pos hle]; rfl

theorem float_bounds_le_top :
    float_0_002172 ≤ float_0_9 ∧
    float_0_004660 ≤ float_0_9 ∧
    float_0_01 ≤ float_0_9 ∧
    float_0_014877 ≤ float_0_9 ∧
    float_0_023646 ≤ float_0_9 ∧
    float_0_037584 ≤ float_0_9 ∧
    float_0_055912 ≤ float_0_9 ∧
    float_0_088869 ≤ float_0_9 ∧
    float_0_141254 ≤ float_0_9 ∧
    float_0_189453 ≤ float_0_9 ∧
    float_0_266840 ≤ float_0_9 ∧
    float_0_375838 ≤ float_0_9 ∧
    float_0_504081 ≤ float_0_9 ∧
    float_0_709987 ≤ float_0_9 ∧
    float_0_9 ≤ float_0_9 := by
  norm_num [binary32, float_0_002172, float_0_004660, float_0_01, float_0_014877, float_0_023646, float_0_037584, float_0_055912, float_0_088869, float_0_141254, float_0_189453, float_0_266840, float_0_375838, float_0_504081, float_0_709987, float_0_9, float_0_003, float_0_95]

theorem firstBoundLevel_top (v : ℚ) (h : float_0_9 ≤ v) :
    firstBoundLevel v volumeBoundsFloat = 0 := by
  obtain ⟨b0, b1, b2, b3, b4, b5, b6, b7, b8, b9, b10, b11, b12, b13, b14⟩ := float_bounds_le_top
  rw [firstBoundLevel_volumeBoundsFloat]
  rw [if_neg (not_lt.mpr (le_trans b0 h))]
  rw [if_neg (not_lt.mpr (le_trans b1 h))]
  rw [if_neg (not_lt.mpr (le_trans b2 h))]
  rw [if_neg (not_lt.mpr (le_trans b3 h))]
  rw [if_neg (not_lt.mpr (le_trans b4 h))]
  rw [if_neg (not_lt.mpr (le_trans b5 h))]
  rw [if_neg (not_lt.mpr (le_trans b6 h))]
  rw [if_neg (not_lt.mpr (le_trans b7 h))]
  rw [if_neg (not_lt.mpr (le_trans b8 h))]
  rw [if_neg (not_lt.mpr (le_trans b9 h))]
  rw [if_neg (not_lt.mpr (le_trans b10 h))]
  rw [if_neg (not_lt.mpr (le_trans b11 h))]
  rw [if_neg (not_lt.mpr (le_trans b12 h))]
  rw [if_neg (not_lt.mpr (le_trans b13 h))]
  rw [if_neg (not_lt.mpr (le_trans b14 h))]

theorem firstBoundLevel_at_zero (v : ℚ) (h : v = 0.0) :
    firstBoundLevel v volumeBoundsFloat = 15 := by
  rw [firstBoundLevel_volumeBoundsFloat]
  rw [if_pos (by rw [h]; norm_num [float_0_002172, binary32])]

theorem firstBoundLevel_at_3_thousandths (v : ℚ) (h : v = 0.003 ∨ v = float_0_003) :
    firstBoundLevel v volumeBoundsFloat = 14 := by
  rw [firstBoundLevel_volumeBoundsFloat]
  rcases h with h | h
  · rw [if_neg (by rw [h]; norm_num [float_0_002172, binary32])]
    rw [if_pos (by rw [h]; norm_num [float_0_004660, binary32])]
  · rw [if_neg (by rw [h]; norm_num [float_0_002172, float_0_003, binary32])]
    rw [if_pos (by rw [h]; norm_num [float_0_004660, float_0_003, binary32])]

theorem populateCalKeyVector_volumeCase (c : CalConsts) (rm : ResourceManager) (s : Stream)
    (ckv : KeyVector) (tag : Int)
    (hattr : s.getStreamAttributesStatus = 0) (hvol : s.getVolumeDataStatus = 0)
    (htag : castUint32 tag = c.TAG_STREAM_VOLUME) :
    populateCalKeyVector c rm true s ckv tag = (0, volumeCase c s.vol ckv) := by
  simp only [populateCalKeyVector, hattr, hvol, htag, ne_eq, not_true_eq_false,
    if_false, Bool.not_true, Bool.false_eq_true, if_true]

/-- C10 as stated fails: the volume 0.9f (15099494 / 2 ^ 24, a float in [0, 1]
that is strictly less than the decimal 0.9) has level 1 in the list of decimal
bounds, where the claim puts (VOLUME, LEVEL_1), but the code compares with the
float 0.9f, which the volume is not below, and appends (VOLUME, LEVEL_0). -/
theorem populateCalKeyVector_volume_at_float_bound :
    (0 ≤ float_0_9 ∧ float_0_9 ≤ 1 ∧ float_0_9 < 0.9) ∧
    firstBoundLevel float_0_9 volumeBounds = 1 ∧
    nearestBinary32 15099494 24 0.9 ∧
    populateCalKeyVector sampleCalConsts ⟨none⟩ true { sampleStream with vol := float_0_9 } []
        3221225473 = (0, [(sampleCalConsts.VOLUME, sampleCalConsts.LEVEL_0)]) ∧
    (sampleCalConsts.LEVEL_0 = 0 ∧ sampleCalConsts.LEVEL_1 = 1) := by
  refine ⟨by norm_num [float_0_9, binary32], ?_, float_literals_nearest.2.2.2.2.2.2.2.2.2.2.2.2.2.2.1,
    ?_, ⟨rfl, rfl⟩⟩
  · rw [firstBoundLevel_volumeBounds]
    norm_num [float_0_9, binary32]
  · rw [populateCalKeyVector_volumeCase sampleCalConsts ⟨none⟩ _ [] 3221225473 rfl rfl
      (by decide)]
    rw [volumeCase_eq_firstBound sampleCalConsts _ [] (by norm_num [float_0_9, binary32])
      (by norm_num [float_0_9, binary32])]
    rw [firstBoundLevel_top _ (le_refl _)]
    rfl

/-- C10 as amended: with tag TAG_STREAM_VOLUME and the stream-attribute and
volume queries succeeding, for every volume v in [0, 1] populateCalKeyVector
returns 0 and appends exactly the one pair (VOLUME, LEVEL_k), where k is the
level of the first upper bound of the list 0.002172f (15), 0.004660f (14), ...,
0.9f (1) that v is strictly less than and 0 when there is none, each bound
being the float nearest to the decimal written; k is at most 15, the pair is
(VOLUME, LEVEL_0) for 0.9f <= v <= 1, the volumes 0.0, 0.003 (and the float
0.003f) and 0.95 (and 0.95f) give the levels 15, 14 and 0, and a volume that
lies on the same side of every decimal bound as of its float gets the level of
the list of decimal bounds. -/
theorem populateCalKeyVector_volume_level (c : CalConsts) (rm : ResourceManager) (s : Stream)
    (ckv : KeyVector) (tag : Int)
    (hattr : s.getStreamAttributesStatus = 0) (hvol : s.getVolumeDataStatus = 0)
    (htag : castUint32 tag = c.TAG_STREAM_VOLUME) (hlo : 0 ≤ s.vol) (hhi : s.vol ≤ 1) :
    populateCalKeyVector c rm true s ckv tag =
      (0, ckv ++ [(c.VOLUME, levelValue c (firstBoundLevel s.vol volumeBoundsFloat))]) ∧
    firstBoundLevel s.vol volumeBoundsFloat ≤ 15 ∧
    (float_0_9 ≤ s.vol →
      populateCalKeyVector c rm true s ckv tag = (0, ckv ++ [(c.VOLUME, c.LEVEL_0)])) ∧
    (s.vol = 0.0 → populateCalKeyVector c rm true s ckv tag = (0, ckv ++ [(c.VOLUME, c.LEVEL_15)])) ∧
    (s.vol = 0.003 ∨ s.vol = float_0_003 →
      populateCalKeyVector c rm true s ckv tag = (0, ckv ++ [(c.VOLUME, c.LEVEL_14)])) ∧
    (s.vol = 0.95 ∨ s.vol = float_0_95 →
      populateCalKeyVector c rm true s ckv tag = (0, ckv ++ [(c.VOLUME, c.LEVEL_0)])) ∧
    ((∀ p ∈ volumeBoundsFloat.zip volumeBounds, (s.vol < p.1.1 ↔ s.vol < p.2.1)) →
      populateCalKeyVector c rm true s ckv tag =
        (0, ckv ++ [(c.VOLUME, levelValue c (firstBoundLevel s.vol volumeBounds))])) := by
  have hcode : populateCalKeyVector c rm true s ckv tag =
      (0, ckv ++ [(c.VOLUME, levelValue c (firstBoundLevel s.vol volumeBoundsFloat))]) := by
    rw [populateCalKeyVector_volumeCase c rm s ckv tag hattr hvol htag,
      volumeCase_eq_firstBound c s.vol ckv hlo hhi]
  refine ⟨hcode, firstBoundLevel_le _, ?_, ?_, ?_, ?_, ?_⟩
  · intro h
    rw [hcode, firstBoundLevel_top _ h]; rfl
  · intro h
    rw [hcode, firstBoundLevel_at_zero _ h]; rfl
  · intro h
    rw [hcode, firstBoundLevel_at_3_thousandths _ h]; rfl
  · intro h
    have htop : float_0_9 ≤ s.vol := by
      rcases h with h | h <;> rw [h] <;> norm_num [float_0_9, float_0_95, binary32]
    rw [hcode, firstBoundLevel_top _ htop]; rfl
  · intro h
    rw [hcode, firstBoundLevel_congr s.vol volumeBoundsFloat volumeBounds rfl h]

/-- C10 as amended, at the sample stream, whose volume is 1/2: the call returns
0 with the single pair (VOLUME, LEVEL_3), since 0.375838f <= 1/2 < 0.504081f. -/
theorem populateCalKeyVector_volume_level_witness :
    (sampleStream.getStreamAttributesStatus = 0 ∧ sampleStream.getVolumeDataStatus = 0 ∧
      0 ≤ sampleStream.vol ∧ sampleStream.vol ≤ 1) ∧
    populateCalKeyVector sampleCalConsts ⟨none⟩ true sampleStream [] 3221225473 =
      (0, [(sampleCalConsts.VOLUME, sampleCalConsts.LEVEL_3)]) := by
  have h := (populateCalKeyVector_volume_level sampleCalConsts ⟨none⟩ sampleStream [] 3221225473
    rfl rfl (by decide) (by norm_num [sampleStream]) (by norm_num [sampleStream])).1
  refine ⟨⟨rfl, rfl, by norm_num [sampleStream], by norm_num [sampleStream]⟩, ?_⟩
  rw [h, firstBoundLevel_volumeBoundsFloat]
  norm_num [sampleStream, levelValue, binary32, float_0_002172, float_0_004660, float_0_01, float_0_014877, float_0_023646, float_0_037584, float_0_055912, float_0_088869, float_0_141254, float_0_189453, float_0_266840, float_0_375838, float_0_504081, float_0_709987, float_0_9, float_0_003, float_0_95]

/-! ### Volume quantization is monotonic -/

theorem firstBoundLevel_le_of_forall (v : ℚ) (m : Nat) (l : List (ℚ × Nat))
    (h : ∀ p ∈ l, p.2 ≤ m) : firstBoundLevel v l ≤ m := by
  induction l with
  | nil => simp [firstBoundLevel]
  | cons p rest ih =>
    obtain ⟨b, lv⟩ := p
    simp only [firstBoundLevel]
    split_ifs
    · exact h (b, lv) (List.mem_cons_self _ _)
    · exact ih (fun q hq => h q (List.mem_cons_of_mem _ hq))

theorem firstBoundLevel_antitone (l : List (ℚ × Nat))
    (hl : l.Pairwise (fun p q => q.2 ≤ p.2)) (v1 v2 : ℚ) (h : v1 ≤ v2) :
    firstBoundLevel v2 l ≤ firstBoundLevel v1 l := by
  induction l with
  | nil => simp [firstBoundLevel]
  | cons p rest ih =>
    obtain ⟨b, lv⟩ := p
    rw [List.pairwise_cons] at hl
    simp only [firstBoundLevel]
    by_cases h2 : v2 < b
    · have h1 : v1 < b := lt_of_le_of_lt h h2
      rw [if_pos h1, if_pos h2]
    · rw [if_neg h2]
      by_cases h1 : v1 < b
      · rw [if_pos h1]
        exact firstBoundLevel_le_of_forall v2 lv rest (fun q hq => hl.1 q hq)
      · rw [if_neg h1]
        exact ih hl.2

theorem volumeBoundsFloat_levels_descend :
    volumeBoundsFloat.Pairwise (fun p q => q.2 ≤ p.2) := by
  simp [volumeBoundsFloat]

/-- C11: with tag TAG_STREAM_VOLUME and the queries succeeding, for all volumes
v1 <= v2 in [0, 1] the call appends (VOLUME, LEVEL_k1) for v1 and (VOLUME,
LEVEL_k2) for v2 with k2 <= k1, the indices being those of the first float
bound of the chain each volume is strictly less than; and when the sixteen
level values are pairwise distinct, any indices up to 15 that name the two
appended values are ordered the same way. -/
theorem volume_level_monotone (c : CalConsts) (rm : ResourceManager) (s1 s2 : Stream)
    (ckv : KeyVector) (tag : Int)
    (hattr1 : s1.getStreamAttributesStatus = 0) (hvol1 : s1.getVolumeDataStatus = 0)
    (hattr2 : s2.getStreamAttributesStatus = 0) (hvol2 : s2.getVolumeDataStatus = 0)
    (htag : castUint32 tag = c.TAG_STREAM_VOLUME)
    (h0 : 0 ≤ s1.vol) (h12 : s1.vol ≤ s2.vol) (h1 : s2.vol ≤ 1) :
    populateCalKeyVector c rm true s1 ckv tag =
      (0, ckv ++ [(c.VOLUME, levelValue c (firstBoundLevel s1.vol volumeBoundsFloat))]) ∧
    populateCalKeyVector c rm true s2 ckv tag =
      (0, ckv ++ [(c.VOLUME, levelValue c (firstBoundLevel s2.vol volumeBoundsFloat))]) ∧
    firstBoundLevel s2.vol volumeBoundsFloat ≤ firstBoundLevel s1.vol volumeBoundsFloat ∧
    ((∀ i j : Nat, i ≤ 15 → j ≤ 15 → levelValue c i = levelValue c j → i = j) →
      ∀ k1 k2 : Nat, k1 ≤ 15 → k2 ≤ 15 →
        populateCalKeyVector c rm true s1 ckv tag = (0, ckv ++ [(c.VOLUME, levelValue c k1)]) →
        populateCalKeyVector c rm true s2 ckv tag = (0, ckv ++ [(c.VOLUME, levelValue c k2)]) →
        k2 ≤ k1) := by
  have e1 : populateCalKeyVector c rm true s1 ckv tag =
      (0, ckv ++ [(c.VOLUME, levelValue c (firstBoundLevel s1.vol volumeBoundsFloat))]) := by
    rw [populateCalKeyVector_volumeCase c rm s1 ckv tag hattr1 hvol1 htag,
      volumeCase_eq_firstBound c s1.vol ckv h0 (le_trans h12 h1)]
  have e2 : populateCalKeyVector c rm true s2 ckv tag =
      (0, ckv ++ [(c.VOLUME, levelValue c (firstBoundLevel s2.vol volumeBoundsFloat))]) := by
    rw [populateCalKeyVector_volumeCase c rm s2 ckv tag hattr2 hvol2 htag,
      volumeCase_eq_firstBound c s2.vol ckv (le_trans h0 h12) h1]
  have hmono := firstBoundLevel_antitone volumeBoundsFloat volumeBoundsFloat_levels_descend
    s1.vol s2.vol h12
  refine ⟨e1, e2, hmono, ?_⟩
  intro hinj k1 k2 hk1 hk2 r1 r2
  rw [e1] at r1
  rw [e2] at r2
  simp only [Prod.mk.injEq, true_and, List.append_cancel_left_eq, List.cons.injEq,
    and_true] at r1 r2
  have a1 := hinj _ _ (firstBoundLevel_le _) hk1 r1
  have a2 := hinj _ _ (firstBoundLevel_le _) hk2 r2
  omega

/-- C11 at the volumes 1/2 and 0.9f, both floats: the code appends
(VOLUME, LEVEL_3) for the quieter one and (VOLUME, LEVEL_0) for the louder
one, and the level index of the louder one is the lower. -/
theorem volume_level_monotone_witness :
    (0 ≤ sampleStream.vol ∧ sampleStream.vol ≤ float_0_9 ∧ float_0_9 ≤ 1) ∧
    populateCalKeyVector sampleCalConsts ⟨none⟩ true sampleStream [] 3221225473 =
      (0, [(sampleCalConsts.VOLUME, sampleCalConsts.LEVEL_3)]) ∧
    populateCalKeyVector sampleCalConsts ⟨none⟩ true { sampleStream with vol := float_0_9 } []
      3221225473 = (0, [(sampleCalConsts.VOLUME, sampleCalConsts.LEVEL_0)]) ∧
    firstBoundLevel float_0_9 volumeBoundsFloat ≤ firstBoundLevel (1 / 2) volumeBoundsFloat := by
  have h := volume_level_monotone sampleCalConsts ⟨none⟩ sampleStream
    { sampleStream with vol := float_0_9 } [] 3221225473 rfl rfl rfl rfl (by decide)
    (by norm_num [sampleStream]) (by norm_num [sampleStream, float_0_9, binary32])
    (by norm_num [float_0_9, binary32])
  refine ⟨by norm_num [sampleStream, float_0_9, binary32], ?_, ?_, h.2.2.1⟩
  · rw [h.1, firstBoundLevel_volumeBoundsFloat]
    norm_num [sampleStream, levelValue, binary32, float_0_002172, float_0_004660, float_0_01, float_0_014877, float_0_023646, float_0_037584, float_0_055912, float_0_088869, float_0_141254, float_0_189453, float_0_266840, float_0_375838, float_0_504081, float_0_709987, float_0_9, float_0_003, float_0_95]
  · rw [h.2.1, firstBoundLevel_top _ (le_refl _)]
    rfl

/-! ### Channel roles of the media-format-converter block -/

/-- C12: in payloadMFCConfig with channel count 2 and no explicit channel map
the encoded channel-role order is [R, L] when rotation_type is
QAL_SPEAKER_ROTATION_RL and [L, R] for every other rotation_type. -/
theorem payloadMFCConfig_stereo_rotation (k : ApiConsts) (sz : StructSizes) (miid : Nat)
    (d : sessionToPayloadParam) (h2 : d.numChannel = 2) (hmap : d.ch_info = none) :
    (d.rotation_type = k.QAL_SPEAKER_ROTATION_RL →
      (payloadMFCConfig k sz true miid (some d)).field Payload.channel_map =
        some [k.PCM_CHANNEL_R, k.PCM_CHANNEL_L]) ∧
    (d.rotation_type ≠ k.QAL_SPEAKER_ROTATION_RL →
      (payloadMFCConfig k sz true miid (some d)).field Payload.channel_map =
        some [k.PCM_CHANNEL_L, k.PCM_CHANNEL_R]) := by
  constructor
  · intro hr
    simp [payloadMFCConfig, EncodeResult.field, EncodeResult.block, Payload.channel_map,
      populateChannelMap, h2, hmap, hr, List.replicate]
  · intro hr
    have hr2 : ¬ k.QAL_SPEAKER_ROTATION_RL = d.rotation_type := fun e => hr e.symm
    simp [payloadMFCConfig, EncodeResult.field, EncodeResult.block, Payload.channel_map,
      populateChannelMap, h2, hmap, hr2, List.replicate]

/-- C12 at a stereo request with the rotation active: the order is [R, L]. -/
theorem payloadMFCConfig_stereo_rotation_witness :
    (payloadMFCConfig sampleConsts sampleSizes true 1
        (some ⟨48000, 16, 2, none, sampleConsts.QAL_SPEAKER_ROTATION_RL⟩)).field
      Payload.channel_map = some [sampleConsts.PCM_CHANNEL_R, sampleConsts.PCM_CHANNEL_L] :=
  (payloadMFCConfig_stereo_rotation sampleConsts sampleSizes 1
    ⟨48000, 16, 2, none, sampleConsts.QAL_SPEAKER_ROTATION_RL⟩ rfl rfl).1 rfl

theorem copyElements_eq_take (src : List Nat) (n : Nat) (h : n ≤ src.length) :
    copyElements src n = src.take n := by
  unfold copyElements
  apply List.ext_getElem
  · simp [h]
  · intro i h1 h2
    simp only [List.length_map, List.length_range] at h1
    have hi : i < src.length := lt_of_lt_of_le h1 h
    simp [List.getD_eq_getElem?_getD, List.getElem?_eq_getElem hi]

/-- C13 as stated fails: with an explicit channel map [C, C], channel count 2
and the rotation QAL_SPEAKER_ROTATION_RL the encoded entries are [R, L], not
the supplied map. -/
theorem payloadMFCConfig_rotation_overrides_explicit_map :
    (payloadMFCConfig sampleConsts sampleSizes true 1
        (some ⟨48000, 16, 2, some [3, 3], sampleConsts.QAL_SPEAKER_ROTATION_RL⟩)).field
      Payload.channel_map = some [2, 1] ∧
    (payloadMFCConfig sampleConsts sampleSizes true 1
        (some ⟨48000, 16, 2, some [3, 3], sampleConsts.QAL_SPEAKER_ROTATION_RL⟩)).field
      Payload.channel_map ≠ some [3, 3] := by
  decide

/-- C13 as amended: with an explicit channel map of at least n entries the n
encoded entries are ch_map[0..n-1] as 16-bit values, the default table unused,
for every channel count n and rotation setting except channel count 2 with
QAL_SPEAKER_ROTATION_RL, where the encoded entries are [R, L] whatever the map
holds. -/
theorem payloadMFCConfig_explicit_map (k : ApiConsts) (sz : StructSizes) (miid : Nat)
    (d : sessionToPayloadParam) (ch_map : List Nat) (hmap : d.ch_info = some ch_map)
    (hlen : d.numChannel ≤ ch_map.length) :
    (¬ (d.numChannel = 2 ∧ d.rotation_type = k.QAL_SPEAKER_ROTATION_RL) →
      (payloadMFCConfig k sz true miid (some d)).field Payload.channel_map =
        some ((ch_map.take d.numChannel).map (fun c => c % 65536))) ∧
    (d.numChannel = 2 ∧ d.rotation_type = k.QAL_SPEAKER_ROTATION_RL →
      (payloadMFCConfig k sz true miid (some d)).field Payload.channel_map =
        some [k.PCM_CHANNEL_R, k.PCM_CHANNEL_L]) := by
  constructor
  · intro hno
    have hno2 : ¬ (2 = d.numChannel ∧ k.QAL_SPEAKER_ROTATION_RL = d.rotation_type) :=
      fun e => hno ⟨e.1.symm, e.2.symm⟩
    simp [payloadMFCConfig, EncodeResult.field, EncodeResult.block, Payload.channel_map,
      hmap, hno2, copyElements_eq_take ch_map d.numChannel hlen]
  · intro hrot
    obtain ⟨h2, hr⟩ := hrot
    rw [h2] at hlen
    obtain ⟨a, b, rest, rfl⟩ : ∃ a b rest, ch_map = a :: b :: rest := by
      rcases ch_map with _ | ⟨a, _ | ⟨b, rest⟩⟩
      · simp at hlen
      · simp at hlen
      · exact ⟨a, b, rest, rfl⟩
    simp [payloadMFCConfig, EncodeResult.field, EncodeResult.block, Payload.channel_map,
      hmap, h2, hr, copyElements, List.range, List.range.loop]

/-- C13 as amended, at three channels with the explicit map [C, L, R]: the
encoded entries are the map itself. -/
theorem payloadMFCConfig_explicit_map_witness :
    (payloadMFCConfig sampleConsts sampleSizes true 1
        (some ⟨48000, 16, 3, some [3, 1, 2], 0⟩)).field Payload.channel_map =
      some [3, 1, 2] :=
  (payloadMFCConfig_explicit_map sampleConsts sampleSizes 1 ⟨48000, 16, 3, some [3, 1, 2], 0⟩
    [3, 1, 2] rfl (by decide)).1 (by decide)

/-! ### Stream key-vector -/

/-- C14: for a low-latency stream, populateStreamKV called with an empty
key-vector returns 0 and yields exactly [(STREAMRX, PCM_LL_PLAYBACK), (INSTANCE,
INSTANCE_1)] when the direction is output, [(STREAMTX, RAW_RECORD)] when it is
input, and [(STREAMRX, PCM_RX_LOOPBACK)] when it is output|input. -/
theorem populateStreamKV_low_latency (sk : StreamKeys) (s : Stream)
    (hattr : s.getStreamAttributesStatus = 0)
    (htype : s.sattr.type = .QAL_STREAM_LOW_LATENCY) :
    (s.sattr.direction = .QAL_AUDIO_OUTPUT →
      populateStreamKV sk true s [] =
        (0, [(sk.STREAMRX, sk.PCM_LL_PLAYBACK), (sk.INSTANCE, sk.INSTANCE_1)])) ∧
    (s.sattr.direction = .QAL_AUDIO_INPUT →
      populateStreamKV sk true s [] = (0, [(sk.STREAMTX, sk.RAW_RECORD)])) ∧
    (s.sattr.direction = .QAL_AUDIO_OUTPUT_INPUT →
      populateStreamKV sk true s [] = (0, [(sk.STREAMRX, sk.PCM_RX_LOOPBACK)])) := by
  refine ⟨?_, ?_, ?_⟩ <;> intro hdir <;>
    simp [populateStreamKV, hattr, htype, hdir]

/-- C14 at the sample stream, which is low-latency output. -/
theorem populateStreamKV_low_latency_witness :
    populateStreamKV sampleStreamKeys true sampleStream [] =
      (0, [(sampleStreamKeys.STREAMRX, sampleStreamKeys.PCM_LL_PLAYBACK),
        (sampleStreamKeys.INSTANCE, sampleStreamKeys.INSTANCE_1)]) :=
  (populateStreamKV_low_latency sampleStreamKeys sampleStream rfl rfl).1 rfl

/-- C16 as stated fails: a generic stream, and a compressed stream whose
direction is input, each have no routing key-pair and yet the call returns 0
with nothing appended. -/
theorem populateStreamKV_success_without_key :
    populateStreamKV sampleStreamKeys true
        { sampleStream with
          sattr := ⟨.QAL_STREAM_GENERIC, .QAL_AUDIO_OUTPUT, .QAL_STREAM_LOOPBACK_PCM, 0⟩ } [] =
      (0, []) ∧
    populateStreamKV sampleStreamKeys true
        { sampleStream with
          sattr := ⟨.QAL_STREAM_COMPRESSED, .QAL_AUDIO_INPUT, .QAL_STREAM_LOOPBACK_PCM, 0⟩ } [] =
      (0, []) := by
  decide

/-- C16 as amended: populateStreamKV returns the non-zero status -EINVAL, with
the key-vector as it was, for every stream type its switch has no case for and
for every direction without a key of a low-latency, ultra-low-latency, proxy,
deep-buffer or PCM-offload stream; a generic stream returns 0 with an empty
contribution. -/
theorem populateStreamKV_unsupported (sk : StreamKeys) (s : Stream) (keyVector : KeyVector)
    (hattr : s.getStreamAttributesStatus = 0) :
    ((s.sattr.type = .QAL_STREAM_VOICE_CALL ∨ s.sattr.type = .QAL_STREAM_LOOPBACK ∨
        ∃ code, s.sattr.type = .QAL_STREAM_OTHER code) →
      populateStreamKV sk true s keyVector = (-EINVAL, keyVector)) ∧
    (s.sattr.type = .QAL_STREAM_LOW_LATENCY →
      (∃ code, s.sattr.direction = .QAL_AUDIO_DIR_OTHER code) →
      populateStreamKV sk true s keyVector = (-EINVAL, keyVector)) ∧
    ((s.sattr.type = .QAL_STREAM_ULTRA_LOW_LATENCY ∨ s.sattr.type = .QAL_STREAM_PROXY ∨
        s.sattr.type = .QAL_STREAM_DEEP_BUFFER) →
      s.sattr.direction ≠ .QAL_AUDIO_OUTPUT → s.sattr.direction ≠ .QAL_AUDIO_INPUT →
      populateStreamKV sk true s keyVector = (-EINVAL, keyVector)) ∧
    (s.sattr.type = .QAL_STREAM_PCM_OFFLOAD → s.sattr.direction ≠ .QAL_AUDIO_OUTPUT →
      populateStreamKV sk true s keyVector = (-EINVAL, keyVector)) ∧
    (s.sattr.type = .QAL_STREAM_GENERIC → populateStreamKV sk true s keyVector = (0, keyVector)) ∧
    -EINVAL ≠ 0 := by
  refine ⟨?_, ?_, ?_, ?_, ?_, by decide⟩
  · rintro (h | h | ⟨code, h⟩) <;> simp [populateStreamKV, hattr, h]
  · rintro h ⟨code, hd⟩
    simp [populateStreamKV, hattr, h, hd]
  · rintro (h | h | h) ho hi <;> simp [populateStreamKV, hattr, h, ho, hi]
  · intro h ho
    simp [populateStreamKV, hattr, h, ho]
  · intro h
    simp [populateStreamKV, hattr, h]

/-- C16 as amended, at a deep-buffer stream with both directions set: the call
fails with -EINVAL and an unchanged vector. -/
theorem populateStreamKV_unsupported_witness :
    populateStreamKV sampleStreamKeys true
        { sampleStream with
          sattr := ⟨.QAL_STREAM_DEEP_BUFFER, .QAL_AUDIO_OUTPUT_INPUT,
            .QAL_STREAM_LOOPBACK_PCM, 0⟩ } [] =
      (-EINVAL, []) :=
  (populateStreamKV_unsupported sampleStreamKeys
    { sampleStream with
      sattr := ⟨.QAL_STREAM_DEEP_BUFFER, .QAL_AUDIO_OUTPUT_INPUT,
        .QAL_STREAM_LOOPBACK_PCM, 0⟩ } [] rfl).2.2.1 (Or.inr (Or.inr rfl)) (by decide)
    (by decide)

/-- C17, the code at the failing input: for a voice-UI stream with instance id
0 and one stream modifier the call returns -EINVAL after it has pushed
(STREAMTX, VOICE_UI) and the modifier, so the caller's vector is no longer the
empty one it passed in. -/
theorem populateStreamKV_voice_ui_leaves_pairs :
    populateStreamKV sampleStreamKeys true
        { sampleStream with
          sattr := ⟨.QAL_STREAM_VOICE_UI, .QAL_AUDIO_INPUT, .QAL_STREAM_LOOPBACK_PCM, 0⟩
          getStreamModifiers := [(7, 8)]
          getInstanceId := 0 } [] =
      (-EINVAL, [(sampleStreamKeys.STREAMTX, sampleStreamKeys.VOICE_UI), (7, 8)]) := by
  decide

/-! ### Device key-vector -/

/-- C18: for every device id the switch does not name, and for
QAL_DEVICE_OUT_BLUETOOTH_A2DP, the single-device populateDeviceKV leaves the
key-vector as it was and returns 0; and it returns 0 for every device id. -/
theorem populateDeviceKV_unknown_or_a2dp (dk : DeviceKeys) (keyVector : KeyVector) :
    (∀ code : Int, populateDeviceKV dk (.QAL_DEVICE_OTHER code) keyVector = (0, keyVector)) ∧
    populateDeviceKV dk .QAL_DEVICE_OUT_BLUETOOTH_A2DP keyVector = (0, keyVector) ∧
    (∀ beDevId : qal_device_id_t, (populateDeviceKV dk beDevId keyVector).1 = 0) := by
  refine ⟨fun _ => rfl, rfl, ?_⟩
  intro beDevId
  cases beDevId <;> rfl

/-- C19: for the wired headset output, and likewise the wired headphone
output, populateDeviceKV called with an empty key-vector yields exactly
[(DEVICERX, HEADPHONES)] and returns 0. -/
theorem populateDeviceKV_wired_headset (dk : DeviceKeys) :
    populateDeviceKV dk .QAL_DEVICE_OUT_WIRED_HEADSET [] = (0, [(dk.DEVICERX, dk.HEADPHONES)]) ∧
    populateDeviceKV dk .QAL_DEVICE_OUT_WIRED_HEADPHONE [] =
      (0, [(dk.DEVICERX, dk.HEADPHONES)]) :=
  ⟨rfl, rfl⟩

/-- C20 as stated fails: QAL_DEVICE_OUT_BLUETOOTH_A2DP has a case of its own in
the switch, is neither of the two SCO devices, and appends no pair at all. -/
theorem populateDeviceKV_a2dp_appends_none :
    qal_device_id_t.recognised .QAL_DEVICE_OUT_BLUETOOTH_A2DP = true ∧
    populateDeviceKV sampleDeviceKeys .QAL_DEVICE_OUT_BLUETOOTH_A2DP [] = (0, []) ∧
    (populateDeviceKV sampleDeviceKeys .QAL_DEVICE_OUT_BLUETOOTH_A2DP []).2.length ≠ 1 := by
  decide

/-- C20 as amended: the two Bluetooth SCO devices append the device pair and
then the BT-profile pair, [(DEVICERX, BT_RX), (BT_PROFILE, SCO)] for the output
and [(DEVICETX, BT_TX), (BT_PROFILE, SCO)] for the input headset; every other
device id the switch names appends exactly one pair, except
QAL_DEVICE_OUT_BLUETOOTH_A2DP, which appends none. -/
theorem populateDeviceKV_pair_counts (dk : DeviceKeys) (keyVector : KeyVector) :
    populateDeviceKV dk .QAL_DEVICE_OUT_BLUETOOTH_SCO keyVector =
      (0, keyVector ++ [(dk.DEVICERX, dk.BT_RX), (dk.BT_PROFILE, dk.SCO)]) ∧
    populateDeviceKV dk .QAL_DEVICE_IN_BLUETOOTH_SCO_HEADSET keyVector =
      (0, keyVector ++ [(dk.DEVICETX, dk.BT_TX), (dk.BT_PROFILE, dk.SCO)]) ∧
    (∀ beDevId : qal_device_id_t, beDevId.recognised = true →
      beDevId ≠ .QAL_DEVICE_OUT_BLUETOOTH_SCO →
      beDevId ≠ .QAL_DEVICE_IN_BLUETOOTH_SCO_HEADSET →
      beDevId ≠ .QAL_DEVICE_OUT_BLUETOOTH_A2DP →
      ∃ pair : Int × Int, populateDeviceKV dk beDevId keyVector = (0, keyVector ++ [pair])) ∧
    populateDeviceKV dk .QAL_DEVICE_OUT_BLUETOOTH_A2DP keyVector = (0, keyVector) := by
  refine ⟨rfl, rfl, ?_, rfl⟩
  intro beDevId hrec h1 h2 h3
  cases beDevId <;>
    first
      | exact absurd rfl h1
      | exact absurd rfl h2
      | exact absurd rfl h3
      | (simp [qal_device_id_t.recognised] at hrec; done)
      | exact ⟨_, rfl⟩

/-- C20 as amended, at the speaker output: exactly the one pair (DEVICERX,
SPEAKER) is appended. -/
theorem populateDeviceKV_pair_counts_witness :
    ∃ pair : Int × Int,
      populateDeviceKV sampleDeviceKeys .QAL_DEVICE_OUT_SPEAKER [] = (0, [] ++ [pair]) :=
  (populateDeviceKV_pair_counts sampleDeviceKeys []).2.2.1 .QAL_DEVICE_OUT_SPEAKER rfl
    (by decide) (by decide) (by decide)

/-! ### Tag key-vector -/

/-- C21: for every sample-rate tag (MFC_SR_8K ... MFC_SR_384K), channel tag
(CHS_1 ... CHS_4) and bit-width tag (BW_16, BW_24, BW_32), populateTagKeyVector
returns 0, appends the single pair the specification lists for the tag and
sets the target selector to TAG_STREAM_MFC_SR when the stream direction is
input and to TAG_DEVICE_MFC_SR for every other direction; MFC_SR_48K on an
input stream gives [(SAMPLINGRATE, SAMPLINGRATE_48K)] with TAG_STREAM_MFC_SR. -/
theorem populateTagKeyVector_mfc_tags (tk : TagKeys) (s : Stream) (tkv : KeyVector)
    (tag : TagId) (gsltag : Nat) (hattr : s.getStreamAttributesStatus = 0)
    (htag : tag ∈ [TagId.MFC_SR_8K, .MFC_SR_16K, .MFC_SR_32K, .MFC_SR_44K, .MFC_SR_48K,
      .MFC_SR_96K, .MFC_SR_192K, .MFC_SR_384K, .CHS_1, .CHS_2, .CHS_3, .CHS_4, .BW_16, .BW_24,
      .BW_32]) :
    (∃ pair : Int × Int, mfcTagPair tk tag = some pair ∧
      populateTagKeyVector tk s tkv tag gsltag =
        (0, tkv ++ [pair],
          if s.sattr.direction = .QAL_AUDIO_INPUT then tk.TAG_STREAM_MFC_SR
          else tk.TAG_DEVICE_MFC_SR)) ∧
    (s.sattr.direction = .QAL_AUDIO_INPUT →
      (populateTagKeyVector tk s tkv tag gsltag).2.2 = tk.TAG_STREAM_MFC_SR) ∧
    (s.sattr.direction ≠ .QAL_AUDIO_INPUT →
      (populateTagKeyVector tk s tkv tag gsltag).2.2 = tk.TAG_DEVICE_MFC_SR) ∧
    (tag = .MFC_SR_48K → s.sattr.direction = .QAL_AUDIO_INPUT →
      populateTagKeyVector tk s [] tag gsltag =
        (0, [(tk.SAMPLINGRATE, tk.SAMPLINGRATE_48K)], tk.TAG_STREAM_MFC_SR)) := by
  simp only [List.mem_cons, List.mem_singleton, List.not_mem_nil, or_false] at htag
  rcases htag with h | h | h | h | h | h | h | h | h | h | h | h | h | h | h <;>
    subst h <;>
    refine ⟨⟨_, rfl, by simp [populateTagKeyVector, hattr]⟩, ?_, ?_, ?_⟩ <;>
    intro hd <;>
    simp_all [populateTagKeyVector]

/-- C21 at MFC_SR_48K on an input-direction stream. -/
theorem populateTagKeyVector_mfc_tags_witness :
    populateTagKeyVector sampleTagKeys
        { sampleStream with
          sattr := ⟨.QAL_STREAM_DEEP_BUFFER, .QAL_AUDIO_INPUT, .QAL_STREAM_LOOPBACK_PCM, 0⟩ }
        [] .MFC_SR_48K 0 =
      (0, [(sampleTagKeys.SAMPLINGRATE, sampleTagKeys.SAMPLINGRATE_48K)],
        sampleTagKeys.TAG_STREAM_MFC_SR) :=
  (populateTagKeyVector_mfc_tags sampleTagKeys
    { sampleStream with
      sattr := ⟨.QAL_STREAM_DEEP_BUFFER, .QAL_AUDIO_INPUT, .QAL_STREAM_LOOPBACK_PCM, 0⟩ }
    [] .MFC_SR_48K 0 rfl (by decide)).2.2.2 rfl rfl

/-- C22, the code at the failing input: OP_MODE is a case label of the switch,
and the call appends two pairs for it, its own and the one of the
INCALL_RECORD_UPLINK case it runs on into, and leaves the selector of that
case. -/
theorem populateTagKeyVector_op_mode_two_pairs :
    TagId.recognised .OP_MODE = true ∧
    populateTagKeyVector sampleTagKeys sampleStream [] .OP_MODE 0 =
      (0,
        [((sampleTagKeys.TAG_MODULE_OP_MODE : Int), sampleTagKeys.NORMAL),
          (sampleTagKeys.TAG_KEY_MUX_DEMUX_CONFIG,
            sampleTagKeys.TAG_VALUE_MUX_DEMUX_CONFIG_UPLINK)],
        sampleTagKeys.TAG_STREAM_MUX_DEMUX) ∧
    (populateTagKeyVector sampleTagKeys sampleStream [] .OP_MODE 0).2.1.length = 2 := by
  decide

/-- C23: for every tag id the switch has no case for, with the
stream-attribute query succeeding, populateTagKeyVector returns 0, appends no
pair and leaves the target selector as it was. -/
theorem populateTagKeyVector_unrecognised (tk : TagKeys) (s : Stream) (tkv : KeyVector)
    (tag : TagId) (gsltag : Nat) (hattr : s.getStreamAttributesStatus = 0)
    (htag : tag.recognised = false) :
    populateTagKeyVector tk s tkv tag gsltag = (0, tkv, gsltag) := by
  cases tag <;> simp [TagId.recognised] at htag
  simp [populateTagKeyVector, hattr]

/-- C23 at tag value 12345 with selector 9 on entry. -/
theorem populateTagKeyVector_unrecognised_witness :
    populateTagKeyVector sampleTagKeys sampleStream [(1, 2)] (.TAG_OTHER 12345) 9 =
      (0, [(1, 2)], 9) :=
  populateTagKeyVector_unrecognised sampleTagKeys sampleStream [(1, 2)] (.TAG_OTHER 12345) 9
    rfl rfl

/-! ### Calibration key-vector: speaker protection and channel count -/

theorem spkrProtLoop_first_speaker (c : CalConsts) (pre post : List Device) (d : Device)
    (ckv : KeyVector)
    (hpre : ∀ e ∈ pre, e.getDeviceAttributesStatus = 0 ∧ e.id ≠ .QAL_DEVICE_OUT_SPEAKER)
    (hd : d.getDeviceAttributesStatus = 0) (hid : d.id = .QAL_DEVICE_OUT_SPEAKER) :
    spkrProtLoop c (pre ++ d :: post) ckv =
      (0, ckv ++ [(c.SPK_PRO_CH_MAP, if d.channels > 1 then c.LEFT_RIGHT else c.RIGHT_MONO)]) := by
  induction pre with
  | nil =>
    simp only [List.nil_append, spkrProtLoop, hd, hid, ne_eq, not_true_eq_false, if_false,
      if_true]
    split_ifs <;> rfl
  | cons e rest ih =>
    have he := hpre e (List.mem_cons_self _ _)
    simp only [List.cons_append, spkrProtLoop, he.1, he.2, ne_eq, not_true_eq_false, if_false]
    exact ih (fun x hx => hpre x (List.mem_cons_of_mem _ hx))

/-- C24: in populateCalKeyVector with the collaborator queries succeeding and
the four tag constants pairwise distinct: with tag SPKR_PROT_ENABLED, when the
first associated device whose id is QAL_DEVICE_OUT_SPEAKER is d, exactly one
pair is appended, (SPK_PRO_CH_MAP, LEFT_RIGHT) if the channel count of d is
above 1 and (SPK_PRO_CH_MAP, RIGHT_MONO) otherwise, whatever devices follow d;
with tag SPKR_PROT_DISABLED exactly (SPK_PRO_CH_MAP, SP_DISABLED) is appended
whatever the associated devices are. -/
theorem populateCalKeyVector_speaker_protection (c : CalConsts) (rm : ResourceManager)
    (s : Stream) (ckv : KeyVector) (tag : Int)
    (hattr : s.getStreamAttributesStatus = 0) (hvol : s.getVolumeDataStatus = 0)
    (hdistinct : [c.TAG_STREAM_VOLUME, c.TAG_MODULE_CHANNELS, c.SPKR_PROT_ENABLED,
      c.SPKR_PROT_DISABLED].Nodup) :
    (castUint32 tag = c.SPKR_PROT_ENABLED → s.getAssociatedDevicesStatus = 0 →
      ∀ (pre post : List Device) (d : Device), s.associatedDevices = pre ++ d :: post →
        (∀ e ∈ pre, e.getDeviceAttributesStatus = 0 ∧ e.id ≠ .QAL_DEVICE_OUT_SPEAKER) →
        d.getDeviceAttributesStatus = 0 → d.id = .QAL_DEVICE_OUT_SPEAKER →
        populateCalKeyVector c rm true s ckv tag =
          (0, ckv ++
            [(c.SPK_PRO_CH_MAP, if d.channels > 1 then c.LEFT_RIGHT else c.RIGHT_MONO)])) ∧
    (castUint32 tag = c.SPKR_PROT_DISABLED →
      populateCalKeyVector c rm true s ckv tag =
        (0, ckv ++ [(c.SPK_PRO_CH_MAP, c.SP_DISABLED)])) := by
  simp only [List.nodup_cons, List.mem_cons, List.mem_singleton, List.not_mem_nil, or_false,
    not_or, List.nodup_nil, and_true, not_false_eq_true] at hdistinct
  obtain ⟨⟨h12, h13, h14⟩, ⟨h23, h24⟩, h34⟩ := hdistinct
  constructor
  · intro htag hassoc pre post d hdev hpre hd hid
    have e1 : ¬ c.SPKR_PROT_ENABLED = c.TAG_STREAM_VOLUME := fun e => h13 e.symm
    have e2 : ¬ c.SPKR_PROT_ENABLED = c.TAG_MODULE_CHANNELS := fun e => h23 e.symm
    simp only [populateCalKeyVector, hattr, hvol, htag, hassoc, e1, e2, ne_eq,
      not_true_eq_false, if_false, Bool.not_true, Bool.false_eq_true, if_true, hdev]
    exact spkrProtLoop_first_speaker c pre post d ckv hpre hd hid
  · intro htag
    have e1 : ¬ c.SPKR_PROT_DISABLED = c.TAG_STREAM_VOLUME := fun e => h14 e.symm
    have e2 : ¬ c.SPKR_PROT_DISABLED = c.TAG_MODULE_CHANNELS := fun e => h24 e.symm
    have e3 : ¬ c.SPKR_PROT_DISABLED = c.SPKR_PROT_ENABLED := fun e => h34 e.symm
    simp only [populateCalKeyVector, hattr, hvol, htag, e1, e2, e3, ne_eq,
      not_true_eq_false, if_false, Bool.not_true, Bool.false_eq_true, if_true]

/-- C24 at a stream whose devices are a handset, a stereo speaker and a mono
speaker: only the first speaker counts, and the pair is (SPK_PRO_CH_MAP,
LEFT_RIGHT). -/
theorem populateCalKeyVector_speaker_protection_witness :
    populateCalKeyVector sampleCalConsts ⟨none⟩ true
        { sampleStream with
          associatedDevices :=
            [⟨0, .QAL_DEVICE_OUT_HANDSET, 1⟩, ⟨0, .QAL_DEVICE_OUT_SPEAKER, 2⟩,
              ⟨0, .QAL_DEVICE_OUT_SPEAKER, 1⟩] }
        [] 3221225475 =
      (0, [(sampleCalConsts.SPK_PRO_CH_MAP, sampleCalConsts.LEFT_RIGHT)]) :=
  (populateCalKeyVector_speaker_protection sampleCalConsts ⟨none⟩
    { sampleStream with
      associatedDevices :=
        [⟨0, .QAL_DEVICE_OUT_HANDSET, 1⟩, ⟨0, .QAL_DEVICE_OUT_SPEAKER, 2⟩,
          ⟨0, .QAL_DEVICE_OUT_SPEAKER, 1⟩] }
    [] 3221225475 rfl rfl (by decide)).1 (by decide) rfl
    [⟨0, .QAL_DEVICE_OUT_HANDSET, 1⟩] [⟨0, .QAL_DEVICE_OUT_SPEAKER, 1⟩]
    ⟨0, .QAL_DEVICE_OUT_SPEAKER, 2⟩ rfl (by decide) rfl rfl

/-- C25: with tag TAG_MODULE_CHANNELS (the stream-attribute and volume queries
succeeding) populateCalKeyVector returns 0 with nothing appended unless the
stream is voice-UI and its first stream modifier has value VUI_STREAM_CFG_SVA;
in that case it returns -EINVAL with nothing appended when the capture profile
is missing or reports 0 channels, and otherwise returns 0 having appended
exactly (CHANNELS, c) for the profile's channel count c. -/
theorem populateCalKeyVector_module_channels (c : CalConsts) (rm : ResourceManager)
    (s : Stream) (ckv : KeyVector) (tag : Int)
    (hattr : s.getStreamAttributesStatus = 0) (hvol : s.getVolumeDataStatus = 0)
    (htag : castUint32 tag = c.TAG_MODULE_CHANNELS)
    (hne : c.TAG_MODULE_CHANNELS ≠ c.TAG_STREAM_VOLUME) :
    (s.sattr.type ≠ .QAL_STREAM_VOICE_UI → populateCalKeyVector c rm true s ckv tag = (0, ckv)) ∧
    (s.getStreamModifiers = [] → populateCalKeyVector c rm true s ckv tag = (0, ckv)) ∧
    (∀ (kv0 : Int × Int) (rest : KeyVector), s.getStreamModifiers = kv0 :: rest →
      kv0.2 ≠ c.VUI_STREAM_CFG_SVA → populateCalKeyVector c rm true s ckv tag = (0, ckv)) ∧
    (∀ (kv0 : Int × Int) (rest : KeyVector), s.sattr.type = .QAL_STREAM_VOICE_UI →
      s.getStreamModifiers = kv0 :: rest → kv0.2 = c.VUI_STREAM_CFG_SVA →
      (rm.GetSVACaptureProfile = none →
        populateCalKeyVector c rm true s ckv tag = (-EINVAL, ckv)) ∧
      (rm.GetSVACaptureProfile = some 0 →
        populateCalKeyVector c rm true s ckv tag = (-EINVAL, ckv)) ∧
      (∀ channels : Nat, rm.GetSVACaptureProfile = some channels → channels ≠ 0 →
        populateCalKeyVector c rm true s ckv tag =
          (0, ckv ++ [(c.CHANNELS, (channels : Int))]))) := by
  have hcode : populateCalKeyVector c rm true s ckv tag = channelsCase c rm s ckv := by
    simp only [populateCalKeyVector, hattr, hvol, htag, hne, ne_eq, not_true_eq_false,
      if_false, Bool.not_true, Bool.false_eq_true, if_true]
  rw [hcode]
  refine ⟨?_, ?_, ?_, ?_⟩
  · intro ht
    simp [channelsCase, ht]
  · intro hm
    simp only [channelsCase, hm]
    split_ifs <;> rfl
  · intro kv0 rest hm hv
    simp only [channelsCase, hm, hv, ne_eq, not_false_eq_true, if_true]
    split_ifs <;> rfl
  · intro kv0 rest ht hm hv
    refine ⟨?_, ?_, ?_⟩
    · intro hp
      simp [channelsCase, ht, hm, hv, hp]
    · intro hp
      simp [channelsCase, ht, hm, hv, hp]
    · intro channels hp hc
      simp [channelsCase, ht, hm, hv, hp, hc]

/-- C25 at a voice-UI stream in the SVA configuration with a capture profile
of 2 channels: (CHANNELS, 2) is appended. -/
theorem populateCalKeyVector_module_channels_witness :
    populateCalKeyVector sampleCalConsts ⟨some 2⟩ true
        { sampleStream with
          sattr := ⟨.QAL_STREAM_VOICE_UI, .QAL_AUDIO_INPUT, .QAL_STREAM_LOOPBACK_PCM, 0⟩
          getStreamModifiers := [(9, sampleCalConsts.VUI_STREAM_CFG_SVA)] }
        [] 3221225474 =
      (0, [(sampleCalConsts.CHANNELS, 2)]) :=
  ((populateCalKeyVector_module_channels sampleCalConsts ⟨some 2⟩
    { sampleStream with
      sattr := ⟨.QAL_STREAM_VOICE_UI, .QAL_AUDIO_INPUT, .QAL_STREAM_LOOPBACK_PCM, 0⟩
      getStreamModifiers := [(9, sampleCalConsts.VUI_STREAM_CFG_SVA)] }
    [] 3221225474 rfl rfl (by decide) (by decide)).2.2.2
      (9, sampleCalConsts.VUI_STREAM_CFG_SVA) [] rfl rfl rfl).2.2 2 rfl (by decide)

/-! ### Device post-processing key-vector -/

theorem devicePPLoop_output (pk : DevicePPKeys) (s : Stream)
    (rxBeDevId txBeDevId : qal_device_id_t) (kvpair : KeyVector)
    (htype : s.sattr.type = .QAL_STREAM_LOW_LATENCY ∨ s.sattr.type = .QAL_STREAM_COMPRESSED ∨
      s.sattr.type = .QAL_STREAM_DEEP_BUFFER ∨ s.sattr.type = .QAL_STREAM_PCM_OFFLOAD)
    (hdir : s.sattr.direction = .QAL_AUDIO_OUTPUT) (devices : List Device)
    (hdev : ∀ d ∈ devices, d.getDeviceAttributesStatus = 0) (rx tx : KeyVector) :
    devicePPLoop pk s rxBeDevId txBeDevId kvpair devices rx tx =
      .ok (rx ++ devices.map (fun d =>
        if d.id = .QAL_DEVICE_OUT_PROXY then (pk.DEVICEPP_RX, pk.DEVICEPP_RX_DEFAULT)
        else (pk.DEVICEPP_RX, pk.DEVICEPP_RX_AUDIO_MBDRC)), tx) := by
  induction devices generalizing rx with
  | nil => simp [devicePPLoop]
  | cons d rest ih =>
    have hd := hdev d (List.mem_cons_self _ _)
    have hrest : ∀ e ∈ rest, e.getDeviceAttributesStatus = 0 :=
      fun e he => hdev e (List.mem_cons_of_mem _ he)
    by_cases hp : d.id = .QAL_DEVICE_OUT_PROXY <;>
      rcases htype with h | h | h | h <;>
      simp [devicePPLoop, devicePPSwitch, hd, h, hdir, hp, ih hrest]

theorem devicePPLoop_kvpair (pk : DevicePPKeys) (s : Stream)
    (rxBeDevId txBeDevId : qal_device_id_t) (kvpair : KeyVector)
    (htype : ((s.sattr.type = .QAL_STREAM_LOW_LATENCY ∨ s.sattr.type = .QAL_STREAM_COMPRESSED ∨
        s.sattr.type = .QAL_STREAM_DEEP_BUFFER ∨ s.sattr.type = .QAL_STREAM_PCM_OFFLOAD) ∧
        s.sattr.direction = .QAL_AUDIO_INPUT) ∨ s.sattr.type = .QAL_STREAM_VOIP_TX)
    (devices : List Device)
    (hdev : ∀ d ∈ devices, d.getDeviceAttributesStatus = 0) (rx tx : KeyVector) :
    devicePPLoop pk s rxBeDevId txBeDevId kvpair devices rx tx =
      .ok (rx, tx ++ (devices.map (fun _ => kvpair)).flatten) := by
  induction devices generalizing tx with
  | nil => simp [devicePPLoop]
  | cons d rest ih =>
    have hd := hdev d (List.mem_cons_self _ _)
    have hrest : ∀ e ∈ rest, e.getDeviceAttributesStatus = 0 :=
      fun e he => hdev e (List.mem_cons_of_mem _ he)
    rcases htype with ⟨h | h | h | h, hdir⟩ | h
    · simp [devicePPLoop, devicePPSwitch, hd, h, hdir, ih hrest]
    · simp [devicePPLoop, devicePPSwitch, hd, h, hdir, ih hrest]
    · simp [devicePPLoop, devicePPSwitch, hd, h, hdir, ih hrest]
    · simp [devicePPLoop, devicePPSwitch, hd, h, hdir, ih hrest]
    · simp [devicePPLoop, devicePPSwitch, hd, h, ih hrest]

/-- C26 as stated fails: for a low-latency input stream with two associated
devices the caller's pairs [(8, 9), (10, 11)] are on the Tx vector twice, once
for each device, and with no associated device they are not appended at all;
in both cases the device pair of txBeDevId follows. -/
theorem populateDevicePPKV_kvpair_per_device :
    populateDevicePPKV sampleDevicePPKeys sampleDeviceKeys true
        { sampleStream with
          sattr := ⟨.QAL_STREAM_LOW_LATENCY, .QAL_AUDIO_INPUT, .QAL_STREAM_LOOPBACK_PCM, 0⟩
          associatedDevices :=
            [⟨0, .QAL_DEVICE_IN_SPEAKER_MIC, 2⟩, ⟨0, .QAL_DEVICE_IN_HANDSET_MIC, 1⟩] }
        (.QAL_DEVICE_OTHER 0) [] .QAL_DEVICE_IN_SPEAKER_MIC [] [(8, 9), (10, 11)] =
      (0, [], [(8, 9), (10, 11), (8, 9), (10, 11),
        (sampleDeviceKeys.DEVICETX, sampleDeviceKeys.SPEAKER_MIC)]) ∧
    populateDevicePPKV sampleDevicePPKeys sampleDeviceKeys true
        { sampleStream with
          sattr := ⟨.QAL_STREAM_LOW_LATENCY, .QAL_AUDIO_INPUT, .QAL_STREAM_LOOPBACK_PCM, 0⟩
          associatedDevices := [] }
        (.QAL_DEVICE_OTHER 0) [] .QAL_DEVICE_IN_SPEAKER_MIC [] [(8, 9), (10, 11)] =
      (0, [], [(sampleDeviceKeys.DEVICETX, sampleDeviceKeys.SPEAKER_MIC)]) := by
  decide

/-- C26 as amended: in populateDevicePPKV with every query succeeding, for an
output-direction low-latency, compressed, deep-buffer or PCM-offload stream
each associated device contributes one pair to the Rx key-vector, in
association order, (DEVICEPP_RX, DEVICEPP_RX_DEFAULT) when its id is
QAL_DEVICE_OUT_PROXY and (DEVICEPP_RX, DEVICEPP_RX_AUDIO_MBDRC) otherwise; for
an input-direction stream of those types, and for VoIP-Tx, the caller-supplied
pairs are appended to the Tx key-vector in their given order once for every
associated device (not at all without one, repeated with several).  The device
key-vectors of the two target ids follow. -/
theorem populateDevicePPKV_contributions (pk : DevicePPKeys) (dk : DeviceKeys) (s : Stream)
    (rxBeDevId txBeDevId : qal_device_id_t) (keyVectorRx keyVectorTx kvpair : KeyVector)
    (hattr : s.getStreamAttributesStatus = 0) (hassoc : s.getAssociatedDevicesStatus = 0)
    (hdev : ∀ d ∈ s.associatedDevices, d.getDeviceAttributesStatus = 0) :
    ((s.sattr.type = .QAL_STREAM_LOW_LATENCY ∨ s.sattr.type = .QAL_STREAM_COMPRESSED ∨
        s.sattr.type = .QAL_STREAM_DEEP_BUFFER ∨ s.sattr.type = .QAL_STREAM_PCM_OFFLOAD) →
      s.sattr.direction = .QAL_AUDIO_OUTPUT →
      populateDevicePPKV pk dk true s rxBeDevId keyVectorRx txBeDevId keyVectorTx kvpair =
        (0,
          (populateDeviceKV dk rxBeDevId
            (keyVectorRx ++ s.associatedDevices.map (fun d =>
              if d.id = .QAL_DEVICE_OUT_PROXY then (pk.DEVICEPP_RX, pk.DEVICEPP_RX_DEFAULT)
              else (pk.DEVICEPP_RX, pk.DEVICEPP_RX_AUDIO_MBDRC)))).2,
          (populateDeviceKV dk txBeDevId keyVectorTx).2)) ∧
    ((((s.sattr.type = .QAL_STREAM_LOW_LATENCY ∨ s.sattr.type = .QAL_STREAM_COMPRESSED ∨
        s.sattr.type = .QAL_STREAM_DEEP_BUFFER ∨ s.sattr.type = .QAL_STREAM_PCM_OFFLOAD) ∧
        s.sattr.direction = .QAL_AUDIO_INPUT) ∨ s.sattr.type = .QAL_STREAM_VOIP_TX) →
      populateDevicePPKV pk dk true s rxBeDevId keyVectorRx txBeDevId keyVectorTx kvpair =
        (0, (populateDeviceKV dk rxBeDevId keyVectorRx).2,
          (populateDeviceKV dk txBeDevId
            (keyVectorTx ++ (s.associatedDevices.map (fun _ => kvpair)).flatten)).2)) := by
  constructor
  · intro htype hdir
    simp only [populateDevicePPKV, hattr, hassoc, ne_eq, not_true_eq_false, if_false,
      Bool.not_true, Bool.false_eq_true,
      devicePPLoop_output pk s rxBeDevId txBeDevId kvpair htype hdir s.associatedDevices hdev]
  · intro htype
    simp only [populateDevicePPKV, hattr, hassoc, ne_eq, not_true_eq_false, if_false,
      Bool.not_true, Bool.false_eq_true,
      devicePPLoop_kvpair pk s rxBeDevId txBeDevId kvpair htype s.associatedDevices hdev]

/-- C26 as amended, at a low-latency output stream with a proxy and a speaker
associated (Rx gets the default pair for the proxy, the MBDRC pair for the
speaker, then the speaker device key) and at a VoIP-Tx stream with two
associated devices (Tx gets the caller's two pairs twice, then the device
key of the speaker mic). -/
theorem populateDevicePPKV_contributions_witness :
    populateDevicePPKV sampleDevicePPKeys sampleDeviceKeys true
        { sampleStream with
          associatedDevices :=
            [⟨0, .QAL_DEVICE_OUT_PROXY, 2⟩, ⟨0, .QAL_DEVICE_OUT_SPEAKER, 2⟩] }
        .QAL_DEVICE_OUT_SPEAKER [] (.QAL_DEVICE_OTHER 0) [] [(1, 2)] =
      (0,
        [(sampleDevicePPKeys.DEVICEPP_RX, sampleDevicePPKeys.DEVICEPP_RX_DEFAULT),
          (sampleDevicePPKeys.DEVICEPP_RX, sampleDevicePPKeys.DEVICEPP_RX_AUDIO_MBDRC),
          (sampleDeviceKeys.DEVICERX, sampleDeviceKeys.SPEAKER)],
        []) ∧
    populateDevicePPKV sampleDevicePPKeys sampleDeviceKeys true
        { sampleStream with
          sattr := ⟨.QAL_STREAM_VOIP_TX, .QAL_AUDIO_INPUT, .QAL_STREAM_LOOPBACK_PCM, 0⟩
          associatedDevices :=
            [⟨0, .QAL_DEVICE_IN_SPEAKER_MIC, 2⟩, ⟨0, .QAL_DEVICE_IN_HANDSET_MIC, 1⟩] }
        (.QAL_DEVICE_OTHER 0) [(3, 4)] .QAL_DEVICE_IN_SPEAKER_MIC [(5, 6)]
        [(8, 9), (10, 11)] =
      (0, [(3, 4)],
        [(5, 6), (8, 9), (10, 11), (8, 9), (10, 11),
          (sampleDeviceKeys.DEVICETX, sampleDeviceKeys.SPEAKER_MIC)]) :=
  ⟨(populateDevicePPKV_contributions sampleDevicePPKeys sampleDeviceKeys
      { sampleStream with
        associatedDevices :=
          [⟨0, .QAL_DEVICE_OUT_PROXY, 2⟩, ⟨0, .QAL_DEVICE_OUT_SPEAKER, 2⟩] }
      .QAL_DEVICE_OUT_SPEAKER (.QAL_DEVICE_OTHER 0) [] [] [(1, 2)] rfl rfl (by decide)).1
      (Or.inl rfl) rfl,
    (populateDevicePPKV_contributions sampleDevicePPKeys sampleDeviceKeys
      { sampleStream with
        sattr := ⟨.QAL_STREAM_VOIP_TX, .QAL_AUDIO_INPUT, .QAL_STREAM_LOOPBACK_PCM, 0⟩
        associatedDevices :=
          [⟨0, .QAL_DEVICE_IN_SPEAKER_MIC, 2⟩, ⟨0, .QAL_DEVICE_IN_HANDSET_MIC, 1⟩] }
      (.QAL_DEVICE_OTHER 0) .QAL_DEVICE_IN_SPEAKER_MIC [(3, 4)] [(5, 6)] [(8, 9), (10, 11)]
      rfl rfl (by decide)).2 (Or.inr rfl)⟩

/-! ### The voice-mode table -/

theorem updateVSIDtoKV_keys (table modepair : List (Int × Int)) :
    (updateVSIDtoKV table modepair).map Prod.fst = table.map Prod.fst := by
  unfold updateVSIDtoKV
  induction modepair generalizing table with
  | nil => rfl
  | cons mp rest ih =>
    rw [List.foldl_cons, ih]
    rw [List.map_map]
    apply List.map_congr_left
    intro row _
    simp only [Function.comp]
    split_ifs <;> rfl

/-- C27 as stated fails: a voice-call resolution whose vsid_info carries the
mode pair (VOICEMMODE1, 5) leaves the table with 5 in its first row, and the
resolution with an empty mode-pair list gives the pair (77, 0) on the initial
table and (77, 5) on the table that call left. -/
theorem populateStreamKV_RxTx_writes_table :
    (populateStreamKV_RxTx sampleStreamKeys sampleVoiceKeys true
        { sampleStream with
          sattr := ⟨.QAL_STREAM_VOICE_CALL, .QAL_AUDIO_OUTPUT_INPUT, .QAL_STREAM_LOOPBACK_PCM,
            6101⟩ }
        (VSIDtoKV_initial sampleVoiceKeys) [] [] ⟨77, [(6101, 5)]⟩).2.2.2 =
      [(6101, 5), (6102, 0), (6103, 0), (6104, 0)] ∧
    VSIDtoKV_initial sampleVoiceKeys = [(6101, 0), (6102, 0), (6103, 0), (6104, 0)] ∧
    (populateStreamKV_RxTx sampleStreamKeys sampleVoiceKeys true
        { sampleStream with
          sattr := ⟨.QAL_STREAM_VOICE_CALL, .QAL_AUDIO_OUTPUT_INPUT, .QAL_STREAM_LOOPBACK_PCM,
            6101⟩ }
        (VSIDtoKV_initial sampleVoiceKeys) [] [] ⟨77, []⟩).2.1 =
      [(sampleStreamKeys.STREAMRX, sampleVoiceKeys.VOICE_CALL_RX), (77, 0)] ∧
    (populateStreamKV_RxTx sampleStreamKeys sampleVoiceKeys true
        { sampleStream with
          sattr := ⟨.QAL_STREAM_VOICE_CALL, .QAL_AUDIO_OUTPUT_INPUT, .QAL_STREAM_LOOPBACK_PCM,
            6101⟩ }
        [(6101, 5), (6102, 0), (6103, 0), (6104, 0)] [] [] ⟨77, []⟩).2.1 =
      [(sampleStreamKeys.STREAMRX, sampleVoiceKeys.VOICE_CALL_RX), (77, 5)] := by
  decide

theorem castInt32_of_range (v : Int) (hlo : -2147483648 ≤ v) (hhi : v < 2147483648) :
    castInt32 v = v := by
  unfold castInt32
  split_ifs <;> omega

theorem castUint32_of_range (v : Int) (hlo : 0 ≤ v) (hhi : v < 4294967296) :
    (castUint32 v : Int) = v := by
  unfold castUint32
  omega

theorem lastMatchingEntry_key (modepair : List (Int × Int)) (row : Int × Int) :
    (lastMatchingEntry modepair row).1 = row.1 := by
  unfold lastMatchingEntry
  split <;> rfl

theorem lastMatchingEntry_append (modepair : List (Int × Int)) (mp row : Int × Int) :
    lastMatchingEntry (modepair ++ [mp]) row =
      if (castUint32 mp.1 : Int) = row.1 then (row.1, (castUint32 mp.2 : Int))
      else lastMatchingEntry modepair row := by
  unfold lastMatchingEntry
  rw [List.reverse_append, List.reverse_singleton, List.singleton_append, List.find?_cons]
  by_cases h : (castUint32 mp.1 : Int) = row.1
  · simp [h]
  · simp [h]

theorem updateVSIDtoKV_append (table modepair : List (Int × Int)) (mp : Int × Int) :
    updateVSIDtoKV table (modepair ++ [mp]) =
      (updateVSIDtoKV table modepair).map
        (fun row =>
          if (castUint32 mp.1 : Int) = row.1 then (row.1, (castUint32 mp.2 : Int))
          else row) := by
  unfold updateVSIDtoKV
  rw [List.foldl_append]
  rfl

theorem updateVSIDtoKV_eq_lastMatching (table modepair : List (Int × Int)) :
    updateVSIDtoKV table modepair = table.map (lastMatchingEntry modepair) := by
  induction modepair using List.reverseRecOn with
  | nil =>
    have hid : lastMatchingEntry [] = id := by
      funext row
      rfl
    rw [hid, List.map_id]
    rfl
  | append_singleton mps mp ih =>
    rw [updateVSIDtoKV_append, ih, List.map_map]
    apply List.map_congr_left
    intro row _
    simp only [Function.comp, lastMatchingEntry_key, lastMatchingEntry_append]

theorem populateStreamKV_RxTx_voice_call_run (sk : StreamKeys) (vk : VoiceKeys) (s : Stream)
    (table keyVectorRx keyVectorTx : KeyVector) (vsidinfo : vsid_info)
    (htype : s.sattr.type = .QAL_STREAM_VOICE_CALL)
    (hattr : s.getStreamAttributesStatus = 0) :
    populateStreamKV_RxTx sk vk true s table keyVectorRx keyVectorTx vsidinfo =
      (0,
        keyVectorRx ++ [(sk.STREAMRX, vk.VOICE_CALL_RX)] ++
          ((updateVSIDtoKV table vsidinfo.modepair).filter
            (fun row => (castUint32 s.sattr.VSID : Int) = row.1)).map
            (fun row => (castInt32 vsidinfo.vsid, castInt32 row.2)),
        keyVectorTx ++ [(sk.STREAMTX, vk.VOICE_CALL_TX)] ++
          ((updateVSIDtoKV table vsidinfo.modepair).filter
            (fun row => (castUint32 s.sattr.VSID : Int) = row.1)).map
            (fun row => (castInt32 vsidinfo.vsid, castInt32 row.2)),
        updateVSIDtoKV table vsidinfo.modepair) := by
  simp only [populateStreamKV_RxTx, htype, hattr, ne_eq, not_true_eq_false, if_false,
    Bool.not_true, Bool.false_eq_true]

/-- C27 as amended: the Rx/Tx populateStreamKV leaves the table VSIDtoKV as it
was for every stream that is not a voice-call stream.  For a voice-call stream
(allocation and attribute query succeeding) it first writes the table: every
row whose key is the key of an entry of vsidinfo.modepair gets the value of
the last such entry (keys and values as 32-bit unsigned values), and the pairs
appended to the Rx and Tx vectors are then read from the updated table; in
every case the rows keep their number, order and keys.  A later voice-call
resolution starts from the table the earlier one left, so it reads the values
written by the earlier one unless its own modepair overwrites them. -/
theorem populateStreamKV_RxTx_table (sk : StreamKeys) (vk : VoiceKeys) (allocOk : Bool)
    (s : Stream) (VSIDtoKV : List (Int × Int)) (keyVectorRx keyVectorTx : KeyVector)
    (vsidinfo : vsid_info) :
    (s.sattr.type ≠ .QAL_STREAM_VOICE_CALL →
      (populateStreamKV_RxTx sk vk allocOk s VSIDtoKV keyVectorRx keyVectorTx vsidinfo).2.2.2 =
        VSIDtoKV) ∧
    (s.sattr.type = .QAL_STREAM_VOICE_CALL → allocOk = true →
      s.getStreamAttributesStatus = 0 →
      populateStreamKV_RxTx sk vk allocOk s VSIDtoKV keyVectorRx keyVectorTx vsidinfo =
          (0,
            keyVectorRx ++ [(sk.STREAMRX, vk.VOICE_CALL_RX)] ++
              ((VSIDtoKV.map (lastMatchingEntry vsidinfo.modepair)).filter
                (fun row => (castUint32 s.sattr.VSID : Int) = row.1)).map
                (fun row => (castInt32 vsidinfo.vsid, castInt32 row.2)),
            keyVectorTx ++ [(sk.STREAMTX, vk.VOICE_CALL_TX)] ++
              ((VSIDtoKV.map (lastMatchingEntry vsidinfo.modepair)).filter
                (fun row => (castUint32 s.sattr.VSID : Int) = row.1)).map
                (fun row => (castInt32 vsidinfo.vsid, castInt32 row.2)),
            VSIDtoKV.map (lastMatchingEntry vsidinfo.modepair)) ∧
        VSIDtoKV.map (lastMatchingEntry vsidinfo.modepair) =
          updateVSIDtoKV VSIDtoKV vsidinfo.modepair) ∧
    ((populateStreamKV_RxTx sk vk allocOk s VSIDtoKV keyVectorRx keyVectorTx
        vsidinfo).2.2.2.map Prod.fst = VSIDtoKV.map Prod.fst ∧
      (populateStreamKV_RxTx sk vk allocOk s VSIDtoKV keyVectorRx keyVectorTx
        vsidinfo).2.2.2.length = VSIDtoKV.length) ∧
    (∀ (s2 : Stream) (keyVectorRx2 keyVectorTx2 : KeyVector) (vsidinfo2 : vsid_info),
      s.sattr.type = .QAL_STREAM_VOICE_CALL → allocOk = true →
      s.getStreamAttributesStatus = 0 →
      s2.sattr.type = .QAL_STREAM_VOICE_CALL → s2.getStreamAttributesStatus = 0 →
      populateStreamKV_RxTx sk vk true s2
          (populateStreamKV_RxTx sk vk allocOk s VSIDtoKV keyVectorRx keyVectorTx
            vsidinfo).2.2.2
          keyVectorRx2 keyVectorTx2 vsidinfo2 =
        (0,
          keyVectorRx2 ++ [(sk.STREAMRX, vk.VOICE_CALL_RX)] ++
            (((VSIDtoKV.map (lastMatchingEntry vsidinfo.modepair)).map
                (lastMatchingEntry vsidinfo2.modepair)).filter
              (fun row => (castUint32 s2.sattr.VSID : Int) = row.1)).map
              (fun row => (castInt32 vsidinfo2.vsid, castInt32 row.2)),
          keyVectorTx2 ++ [(sk.STREAMTX, vk.VOICE_CALL_TX)] ++
            (((VSIDtoKV.map (lastMatchingEntry vsidinfo.modepair)).map
                (lastMatchingEntry vsidinfo2.modepair)).filter
              (fun row => (castUint32 s2.sattr.VSID : Int) = row.1)).map
              (fun row => (castInt32 vsidinfo2.vsid, castInt32 row.2)),
          (VSIDtoKV.map (lastMatchingEntry vsidinfo.modepair)).map
            (lastMatchingEntry vsidinfo2.modepair))) := by
  refine ⟨?_, ?_, ⟨?_, ?_⟩, ?_⟩
  · intro ht
    cases hty : s.sattr.type <;>
      first
        | exact absurd hty ht
        | (simp only [populateStreamKV_RxTx, hty]; split_ifs <;> rfl)
  · intro ht ha hs
    subst ha
    rw [populateStreamKV_RxTx_voice_call_run sk vk s VSIDtoKV keyVectorRx keyVectorTx vsidinfo
      ht hs, updateVSIDtoKV_eq_lastMatching]
    exact ⟨rfl, rfl⟩
  · cases hty : s.sattr.type <;>
      (simp only [populateStreamKV_RxTx, hty]
       split_ifs <;> first | rfl | exact updateVSIDtoKV_keys _ _)
  · cases hty : s.sattr.type <;>
      (simp only [populateStreamKV_RxTx, hty]
       split_ifs <;> first
         | rfl
         | (rw [updateVSIDtoKV_eq_lastMatching]; exact List.length_map _ _))
  · intro s2 rx2 tx2 v2 ht ha hs ht2 hs2
    subst ha
    rw [populateStreamKV_RxTx_voice_call_run sk vk s VSIDtoKV keyVectorRx keyVectorTx vsidinfo
      ht hs]
    rw [populateStreamKV_RxTx_voice_call_run sk vk s2 _ rx2 tx2 v2 ht2 hs2]
    simp only [updateVSIDtoKV_eq_lastMatching]

/-- C27 as amended, at two voice-call resolutions in a row on the initial
table: the first, with the mode pair (VOICEMMODE1, 5), writes 5 into the first
row and appends (77, 5); the second, with no mode pair, starts from that table
and appends (78, 5) again. -/
theorem populateStreamKV_RxTx_table_witness :
    populateStreamKV_RxTx sampleStreamKeys sampleVoiceKeys true
        { sampleStream with
          sattr := ⟨.QAL_STREAM_VOICE_CALL, .QAL_AUDIO_OUTPUT_INPUT, .QAL_STREAM_LOOPBACK_PCM,
            6101⟩ }
        (VSIDtoKV_initial sampleVoiceKeys) [(3, 4)] [(5, 6)] ⟨77, [(6101, 5)]⟩ =
      (0, [(3, 4), (1001, 6003), (77, 5)], [(5, 6), (1002, 6004), (77, 5)],
        [(6101, 5), (6102, 0), (6103, 0), (6104, 0)]) ∧
    populateStreamKV_RxTx sampleStreamKeys sampleVoiceKeys true
        { sampleStream with
          sattr := ⟨.QAL_STREAM_VOICE_CALL, .QAL_AUDIO_OUTPUT_INPUT, .QAL_STREAM_LOOPBACK_PCM,
            6101⟩ }
        (populateStreamKV_RxTx sampleStreamKeys sampleVoiceKeys true
          { sampleStream with
            sattr := ⟨.QAL_STREAM_VOICE_CALL, .QAL_AUDIO_OUTPUT_INPUT, .QAL_STREAM_LOOPBACK_PCM,
              6101⟩ }
          (VSIDtoKV_initial sampleVoiceKeys) [(3, 4)] [(5, 6)] ⟨77, [(6101, 5)]⟩).2.2.2
        [] [] ⟨78, []⟩ =
      (0, [(1001, 6003), (78, 5)], [(1002, 6004), (78, 5)],
        [(6101, 5), (6102, 0), (6103, 0), (6104, 0)]) :=
  ⟨((populateStreamKV_RxTx_table sampleStreamKeys sampleVoiceKeys true
      { sampleStream with
        sattr := ⟨.QAL_STREAM_VOICE_CALL, .QAL_AUDIO_OUTPUT_INPUT, .QAL_STREAM_LOOPBACK_PCM,
          6101⟩ }
      (VSIDtoKV_initial sampleVoiceKeys) [(3, 4)] [(5, 6)] ⟨77, [(6101, 5)]⟩).2.1
      rfl rfl rfl).1,
    (populateStreamKV_RxTx_table sampleStreamKeys sampleVoiceKeys true
      { sampleStream with
        sattr := ⟨.QAL_STREAM_VOICE_CALL, .QAL_AUDIO_OUTPUT_INPUT, .QAL_STREAM_LOOPBACK_PCM,
          6101⟩ }
      (VSIDtoKV_initial sampleVoiceKeys) [(3, 4)] [(5, 6)] ⟨77, [(6101, 5)]⟩).2.2.2
      { sampleStream with
        sattr := ⟨.QAL_STREAM_VOICE_CALL, .QAL_AUDIO_OUTPUT_INPUT, .QAL_STREAM_LOOPBACK_PCM,
          6101⟩ }
      [] [] ⟨78, []⟩ rfl rfl rfl rfl rfl⟩

/-! ### The voice-call case of the Rx/Tx stream key-vector -/

/-- C37 as stated fails: with the mode pair (VOICEMMODE1, 4294967295) the first
row of the table gets the value 4294967295, and the pair appended to the Rx
and Tx vectors for that row is (77, -1), not (77, 4294967295). -/
theorem populateStreamKV_RxTx_value_narrowed :
    populateStreamKV_RxTx sampleStreamKeys sampleVoiceKeys true
        { sampleStream with
          sattr := ⟨.QAL_STREAM_VOICE_CALL, .QAL_AUDIO_OUTPUT_INPUT, .QAL_STREAM_LOOPBACK_PCM,
            6101⟩ }
        (VSIDtoKV_initial sampleVoiceKeys) [] [] ⟨77, [(6101, 4294967295)]⟩ =
      (0, [(1001, 6003), (77, -1)], [(1002, 6004), (77, -1)],
        [(6101, 4294967295), (6102, 0), (6103, 0), (6104, 0)]) := by
  decide

/-- C37 as amended: for a voice-call stream (attribute query succeeding) the
Rx/Tx populateStreamKV returns 0; the table after the call is the table before
it with the value of every row whose key is the key of an entry of
vsidinfo.modepair replaced by the value of the last such entry (keys and
values as 32-bit unsigned values), the length and the keys of the table
unchanged (so the keys VOICEMMODE1, VOICEMMODE2, VOICELBMMODE1, VOICELBMMODE2
stay in that order); the Rx vector gains (STREAMRX, VOICE_CALL_RX) and the Tx
vector (STREAMTX, VOICE_CALL_TX), each followed, for every row of the updated
table whose key is the VSID of the stream, by the pair of vsidinfo.vsid and the
row value, both converted to int, so that a row value of 2^31 or more is
appended as that value minus 2^32; when vsidinfo.vsid is in the int range and
every row value is below 2^31 the pair is (vsidinfo.vsid, row value) itself; a
VSID that is no key of the table adds no further pair. -/
theorem populateStreamKV_RxTx_voice_call (sk : StreamKeys) (vk : VoiceKeys) (s : Stream)
    (table keyVectorRx keyVectorTx : KeyVector) (vsidinfo : vsid_info)
    (htype : s.sattr.type = .QAL_STREAM_VOICE_CALL)
    (hattr : s.getStreamAttributesStatus = 0) :
    populateStreamKV_RxTx sk vk true s table keyVectorRx keyVectorTx vsidinfo =
        (0,
          keyVectorRx ++ [(sk.STREAMRX, vk.VOICE_CALL_RX)] ++
            ((table.map (lastMatchingEntry vsidinfo.modepair)).filter
              (fun row => (castUint32 s.sattr.VSID : Int) = row.1)).map
              (fun row => (castInt32 vsidinfo.vsid, castInt32 row.2)),
          keyVectorTx ++ [(sk.STREAMTX, vk.VOICE_CALL_TX)] ++
            ((table.map (lastMatchingEntry vsidinfo.modepair)).filter
              (fun row => (castUint32 s.sattr.VSID : Int) = row.1)).map
              (fun row => (castInt32 vsidinfo.vsid, castInt32 row.2)),
          table.map (lastMatchingEntry vsidinfo.modepair)) ∧
      (table.map (lastMatchingEntry vsidinfo.modepair)).length = table.length ∧
      (table.map (lastMatchingEntry vsidinfo.modepair)).map Prod.fst = table.map Prod.fst ∧
      (table.map Prod.fst =
          [vk.VOICEMMODE1, vk.VOICEMMODE2, vk.VOICELBMMODE1, vk.VOICELBMMODE2] →
        (populateStreamKV_RxTx sk vk true s table keyVectorRx keyVectorTx
            vsidinfo).2.2.2.map Prod.fst =
          [vk.VOICEMMODE1, vk.VOICEMMODE2, vk.VOICELBMMODE1, vk.VOICELBMMODE2]) ∧
      (∀ v : Int, 2147483648 ≤ v → v < 4294967296 → castInt32 v = v - 4294967296) ∧
      (-2147483648 ≤ vsidinfo.vsid → vsidinfo.vsid < 2147483648 →
        (∀ row ∈ table.map (lastMatchingEntry vsidinfo.modepair),
          0 ≤ row.2 ∧ row.2 < 2147483648) →
        populateStreamKV_RxTx sk vk true s table keyVectorRx keyVectorTx vsidinfo =
          (0,
            keyVectorRx ++ [(sk.STREAMRX, vk.VOICE_CALL_RX)] ++
              ((table.map (lastMatchingEntry vsidinfo.modepair)).filter
                (fun row => (castUint32 s.sattr.VSID : Int) = row.1)).map
                (fun row => (vsidinfo.vsid, row.2)),
            keyVectorTx ++ [(sk.STREAMTX, vk.VOICE_CALL_TX)] ++
              ((table.map (lastMatchingEntry vsidinfo.modepair)).filter
                (fun row => (castUint32 s.sattr.VSID : Int) = row.1)).map
                (fun row => (vsidinfo.vsid, row.2)),
            table.map (lastMatchingEntry vsidinfo.modepair))) ∧
      ((castUint32 s.sattr.VSID : Int) ∉ table.map Prod.fst →
        populateStreamKV_RxTx sk vk true s table keyVectorRx keyVectorTx vsidinfo =
          (0, keyVectorRx ++ [(sk.STREAMRX, vk.VOICE_CALL_RX)],
            keyVectorTx ++ [(sk.STREAMTX, vk.VOICE_CALL_TX)],
            table.map (lastMatchingEntry vsidinfo.modepair))) := by
  have hkeys : (table.map (lastMatchingEntry vsidinfo.modepair)).map Prod.fst =
      table.map Prod.fst := by
    rw [List.map_map]
    apply List.map_congr_left
    intro row _
    exact lastMatchingEntry_key _ _
  have hrun := populateStreamKV_RxTx_voice_call_run sk vk s table keyVectorRx keyVectorTx
    vsidinfo htype hattr
  rw [updateVSIDtoKV_eq_lastMatching] at hrun
  refine ⟨hrun, List.length_map _ _, hkeys, ?_, ?_, ?_, ?_⟩
  · intro h
    rw [hrun]
    exact hkeys.trans h
  · intro v h1 h2
    unfold castInt32
    split_ifs <;> omega
  · intro hv1 hv2 hrows
    rw [hrun, castInt32_of_range _ hv1 hv2]
    have hmap : ((table.map (lastMatchingEntry vsidinfo.modepair)).filter
          (fun row => (castUint32 s.sattr.VSID : Int) = row.1)).map
          (fun row => (vsidinfo.vsid, castInt32 row.2)) =
        ((table.map (lastMatchingEntry vsidinfo.modepair)).filter
          (fun row => (castUint32 s.sattr.VSID : Int) = row.1)).map
          (fun row => (vsidinfo.vsid, row.2)) := by
      apply List.map_congr_left
      intro row hrow
      have hr := hrows row (List.mem_of_mem_filter hrow)
      rw [castInt32_of_range _ (by omega) hr.2]
    rw [hmap]
  · intro h
    rw [hrun]
    have hnone : (table.map (lastMatchingEntry vsidinfo.modepair)).filter
        (fun row => (castUint32 s.sattr.VSID : Int) = row.1) = [] := by
      rw [List.filter_eq_nil_iff]
      intro row hrow hEq
      apply h
      rw [← hkeys]
      exact List.mem_map.mpr ⟨row, hrow, (of_decide_eq_true hEq).symm⟩
    rw [hnone]
    simp

/-- C37 as amended, at a voice-call stream with VSID VOICEMMODE2 on the initial
table and the mode pairs (VOICEMMODE2, 5), (VOICEMMODE1, 8), (VOICEMMODE2, 9):
the last pair for VOICEMMODE2 wins and (77, 9) is appended to both vectors. -/
theorem populateStreamKV_RxTx_voice_call_witness :
    populateStreamKV_RxTx sampleStreamKeys sampleVoiceKeys true
        { sampleStream with
          sattr := ⟨.QAL_STREAM_VOICE_CALL, .QAL_AUDIO_OUTPUT_INPUT, .QAL_STREAM_LOOPBACK_PCM,
            6102⟩ }
        (VSIDtoKV_initial sampleVoiceKeys) [(3, 4)] [(5, 6)]
        ⟨77, [(6102, 5), (6101, 8), (6102, 9)]⟩ =
      (0, [(3, 4), (1001, 6003), (77, 9)], [(5, 6), (1002, 6004), (77, 9)],
        [(6101, 8), (6102, 9), (6103, 0), (6104, 0)]) :=
  (populateStreamKV_RxTx_voice_call sampleStreamKeys sampleVoiceKeys
    { sampleStream with
      sattr := ⟨.QAL_STREAM_VOICE_CALL, .QAL_AUDIO_OUTPUT_INPUT, .QAL_STREAM_LOOPBACK_PCM,
        6102⟩ }
    (VSIDtoKV_initial sampleVoiceKeys) [(3, 4)] [(5, 6)]
    ⟨77, [(6102, 5), (6101, 8), (6102, 9)]⟩ rfl rfl).1

/-! ### Round trips through the bytes of a block -/

theorem storeLE_length (w v : Nat) : (storeLE w v).length = w := by
  induction w generalizing v with
  | zero => rfl
  | succ w ih => simp [storeLE, ih]

theorem loadLE_storeLE (w v : Nat) : loadLE (storeLE w v) = v % 256 ^ w := by
  induction w generalizing v with
  | zero => simp [storeLE, loadLE, Nat.mod_one]
  | succ w ih =>
    simp only [storeLE, loadLE, ih]
    rw [pow_succ, Nat.mul_comm (256 ^ w) 256, Nat.mod_mul]

theorem readLE_at (pre post : List Nat) (w v off : Nat) (h : pre.length = off) :
    readLE (pre ++ storeLE w v ++ post) off w = v % 256 ^ w := by
  unfold readLE
  rw [List.append_assoc, ← h, List.drop_left,
    List.take_left' (storeLE_length w v), loadLE_storeLE]

theorem signedOf_twosComplement_32 (v : Int) (h1 : -2147483648 ≤ v) (h2 : v < 2147483648) :
    signedOf 32 ((twosComplement 32 v) % 256 ^ 4) = v := by
  unfold signedOf twosComplement
  norm_num
  split_ifs <;> omega

theorem signedOf_twosComplement_16 (v : Int) (h1 : -32768 ≤ v) (h2 : v < 32768) :
    signedOf 16 ((twosComplement 16 v) % 256 ^ 2) = v := by
  unfold signedOf twosComplement
  norm_num
  split_ifs <;> omega

theorem populateChannelMap_length (k : ApiConsts) (pcmChannel : List Nat) (numChannel : Nat) :
    (populateChannelMap k pcmChannel numChannel).length = pcmChannel.length := by
  unfold populateChannelMap
  split_ifs <;> simp

theorem flatten_storeLE_length (w : Nat) (cm : List Nat) :
    ((cm.map (storeLE w)).flatten).length = w * cm.length := by
  induction cm with
  | nil => simp
  | cons c cm ih => simp [storeLE_length, ih, Nat.mul_succ, Nat.add_comm]

theorem readHeader_headerBytes (h : apm_module_param_data_t) (rest : List Nat) :
    readHeader (headerBytes h ++ rest) =
      ⟨h.module_instance_id % 256 ^ 4, h.param_id % 256 ^ 4, h.error_code % 256 ^ 4,
        h.param_size % 256 ^ 4⟩ := by
  unfold readHeader headerBytes
  have e0 := readLE_at [] (storeLE 4 h.param_id ++ storeLE 4 h.error_code ++
    storeLE 4 h.param_size ++ rest) 4 h.module_instance_id 0 rfl
  have e1 := readLE_at (storeLE 4 h.module_instance_id) (storeLE 4 h.error_code ++
    storeLE 4 h.param_size ++ rest) 4 h.param_id 4 (storeLE_length _ _)
  have e2 := readLE_at (storeLE 4 h.module_instance_id ++ storeLE 4 h.param_id)
    (storeLE 4 h.param_size ++ rest) 4 h.error_code 8 (by simp [storeLE_length])
  have e3 := readLE_at (storeLE 4 h.module_instance_id ++ storeLE 4 h.param_id ++
    storeLE 4 h.error_code) rest 4 h.param_size 12 (by simp [storeLE_length])
  simp only [List.append_assoc, List.nil_append] at e0 e1 e2 e3 ⊢
  rw [e0, e1, e2, e3]

theorem headerBytes_length (h : apm_module_param_data_t) : (headerBytes h).length = 16 := by
  simp [headerBytes, storeLE_length]

theorem mfc_layout (h : apm_module_param_data_t) (a b c : Nat) (rest : List Nat) :
    readLE (headerBytes h ++ (storeLE 4 a ++ (storeLE 2 b ++ (storeLE 2 c ++ rest)))) 16 4 =
        a % 256 ^ 4 ∧
      readLE (headerBytes h ++ (storeLE 4 a ++ (storeLE 2 b ++ (storeLE 2 c ++ rest)))) 20 2 =
        b % 256 ^ 2 ∧
      readLE (headerBytes h ++ (storeLE 4 a ++ (storeLE 2 b ++ (storeLE 2 c ++ rest)))) 22 2 =
        c % 256 ^ 2 := by
  have e0 := readLE_at (headerBytes h) (storeLE 2 b ++ (storeLE 2 c ++ rest)) 4 a 16
    (headerBytes_length h)
  have e1 := readLE_at (headerBytes h ++ storeLE 4 a) (storeLE 2 c ++ rest) 2 b 20
    (by simp [headerBytes_length, storeLE_length])
  have e2 := readLE_at (headerBytes h ++ storeLE 4 a ++ storeLE 2 b) rest 2 c 22
    (by simp [headerBytes_length, storeLE_length])
  simp only [List.append_assoc] at e0 e1 e2
  exact ⟨e0, e1, e2⟩

/-- Claim C28: the buffer built by payloadMFCConfig, read back as four 32-bit
header fields followed by a 32-bit sampling rate, a 16-bit bit width and a 16-bit
channel count, returns the module instance id, PARAM_ID_MFC_OUTPUT_MEDIA_FORMAT,
error code 0, and the input sample rate, bit width and channel count; the buffer
is as long as the stored size. -/
theorem payloadMFCConfig_round_trip (k : ApiConsts) (sz : StructSizes) (miid : Nat)
    (d : sessionToPayloadParam)
    (hsz : sz.param_id_mfc_output_media_fmt_t = 8)
    (hmiid : miid < 4294967296)
    (hsr : -2147483648 ≤ d.sampleRate ∧ d.sampleRate < 2147483648)
    (hbw : -32768 ≤ d.bitWidth ∧ d.bitWidth < 32768)
    (hn : d.numChannel < 32768) :
    ∃ blk n buf, payloadMFCConfig k sz true miid (some d) = .stored (some blk) n ∧
      blk.bytes = some buf ∧
      buf.length = n ∧
      readHeader buf =
        ⟨miid, PARAM_ID_MFC_OUTPUT_MEDIA_FORMAT, 0, 8 + 2 * d.numChannel⟩ ∧
      signedOf 32 (readLE buf 16 4) = d.sampleRate ∧
      signedOf 16 (readLE buf 20 2) = d.bitWidth ∧
      signedOf 16 (readLE buf 22 2) = (d.numChannel : Int) := by
  obtain ⟨cm, hcm, hrun⟩ : ∃ cm : List Nat, cm.length = d.numChannel ∧
      payloadMFCConfig k sz true miid (some d) =
        .stored (some ⟨⟨miid, PARAM_ID_MFC_OUTPUT_MEDIA_FORMAT, 0,
            16 + 8 + 2 * d.numChannel - 16⟩,
          .mfc d.sampleRate d.bitWidth d.numChannel cm,
          16 + 8 + 2 * d.numChannel + QAL_PADDING_8BYTE_ALIGN (16 + 8 + 2 * d.numChannel)⟩)
          (16 + 8 + 2 * d.numChannel + QAL_PADDING_8BYTE_ALIGN (16 + 8 + 2 * d.numChannel)) := by
    refine ⟨(if 2 = d.numChannel ∧ k.QAL_SPEAKER_ROTATION_RL = d.rotation_type then
        ((match d.ch_info with
          | some ch_map => (copyElements ch_map d.numChannel).map (fun c => c % 65536)
          | none => populateChannelMap k (List.replicate d.numChannel 0)
              (d.numChannel % 256)).set 0 k.PCM_CHANNEL_R).set 1 k.PCM_CHANNEL_L
      else
        (match d.ch_info with
          | some ch_map => (copyElements ch_map d.numChannel).map (fun c => c % 65536)
          | none => populateChannelMap k (List.replicate d.numChannel 0)
              (d.numChannel % 256))), ?_, ?_⟩
    · split_ifs <;> cases d.ch_info <;>
        simp [populateChannelMap_length, copyElements]
    · simp only [payloadMFCConfig, hsz, sizeof_apm_module_param_data_t]
      rfl
  refine ⟨_, _, _, hrun, rfl, ?_, ?_, ?_, ?_, ?_⟩ <;> beta_reduce
  · simp only [List.length_append, List.length_replicate, headerBytes_length, storeLE_length,
      flatten_storeLE_length, hcm]
    omega
  · rw [List.append_assoc, readHeader_headerBytes]
    simp only [PARAM_ID_MFC_OUTPUT_MEDIA_FORMAT]
    norm_num
    refine ⟨hmiid, ?_⟩
    omega
  · simp only [List.append_assoc]
    rw [(mfc_layout _ _ _ _ _).1]
    exact signedOf_twosComplement_32 _ hsr.1 hsr.2
  · simp only [List.append_assoc]
    rw [(mfc_layout _ _ _ _ _).2.1]
    exact signedOf_twosComplement_16 _ hbw.1 hbw.2
  · simp only [List.append_assoc]
    rw [(mfc_layout _ _ _ _ _).2.2]
    exact signedOf_twosComplement_16 _ (by omega) (by omega)

theorem payloadMFCConfig_round_trip_witness :
    ((8 : Nat) = 8 ∧ (7 : Nat) < 4294967296 ∧ (-2147483648 : Int) ≤ 48000 ∧
      (48000 : Int) < 2147483648 ∧ (-32768 : Int) ≤ 16 ∧ (16 : Int) < 32768 ∧
      (2 : Nat) < 32768) ∧
    ∃ blk n buf,
      payloadMFCConfig sampleConsts sampleSizes true 7 (some ⟨48000, 16, 2, none, 0⟩) =
        .stored (some blk) n ∧
      blk.bytes = some buf ∧
      buf.length = n ∧
      readHeader buf = ⟨7, PARAM_ID_MFC_OUTPUT_MEDIA_FORMAT, 0, 8 + 2 * 2⟩ ∧
      signedOf 32 (readLE buf 16 4) = 48000 ∧
      signedOf 16 (readLE buf 20 2) = 16 ∧
      signedOf 16 (readLE buf 22 2) = 2 :=
  ⟨by decide,
    payloadMFCConfig_round_trip sampleConsts sampleSizes 7 ⟨48000, 16, 2, none, 0⟩ rfl
      (by decide) ⟨by decide, by decide⟩ ⟨by decide, by decide⟩ (by decide)⟩

/-- Claim C29: for a byte sequence of length L, payloadCustomParam with a
successful allocation returns 0 and a buffer whose length is 16 + L rounded up
to a multiple of 8, whose header reads back as the given module instance id,
the given parameter id, error code 0 and param_size L, whose bytes 16 .. 16+L-1
are the caller's bytes, and whose remaining bytes are zero. -/
theorem payloadCustomParam_round_trip (bytes : List Nat) (miid pid : Nat)
    (hmiid : miid < 4294967296) (hpid : pid < 4294967296)
    (hL : bytes.length + 23 < 4294967296) :
    ∃ blk n buf,
      payloadCustomParam true bytes bytes.length miid pid = (0, .stored (some blk) n) ∧
      blk.bytes = some buf ∧
      (n % 8 = 0 ∧ 16 + bytes.length ≤ n ∧ n < 16 + bytes.length + 8) ∧
      buf.length = n ∧
      readHeader buf = ⟨miid, pid, 0, bytes.length⟩ ∧
      (buf.drop 16).take bytes.length = bytes ∧
      buf.drop (16 + bytes.length) = List.replicate (n - (16 + bytes.length)) 0 := by
  have hbody : (if bytes.length ≠ 0 then bytes.take bytes.length
      else List.replicate bytes.length 0) = bytes := by
    by_cases h : bytes.length = 0
    · rw [if_neg (not_not.mpr h), h, List.length_eq_zero.mp h]
      rfl
    · rw [if_pos h, List.take_length]
  have hrun : payloadCustomParam true bytes bytes.length miid pid =
      (0, .stored (some ⟨⟨miid, pid, 0, bytes.length⟩, .raw bytes,
        QAL_ALIGN_8BYTE (16 + bytes.length)⟩) (QAL_ALIGN_8BYTE (16 + bytes.length))) := by
    simp only [payloadCustomParam, sizeof_apm_module_param_data_t, hbody]
    rfl
  have hA := align_eq (16 + bytes.length)
  refine ⟨_, _, _, hrun, rfl, ⟨align_mod_eight _, ?_, ?_⟩, ?_, ?_, ?_, ?_⟩ <;> beta_reduce
  · omega
  · omega
  · simp only [List.length_append, List.length_replicate, headerBytes_length]
    omega
  · rw [List.append_assoc, readHeader_headerBytes]
    norm_num
    exact ⟨hmiid, hpid, by omega⟩
  · rw [List.append_assoc, List.drop_left' (headerBytes_length _), List.take_left]
  · have hlen : (headerBytes ⟨miid, pid, 0, bytes.length⟩ ++ bytes).length =
        16 + bytes.length := by
      simp [headerBytes_length]
    rw [List.drop_left' hlen]

theorem payloadCustomParam_round_trip_witness :
    ((5 : Nat) < 4294967296 ∧ (9 : Nat) < 4294967296 ∧
      [1, 2, 3].length + 23 < 4294967296) ∧
    ∃ blk n buf,
      payloadCustomParam true [1, 2, 3] [1, 2, 3].length 5 9 = (0, .stored (some blk) n) ∧
      blk.bytes = some buf ∧
      (n % 8 = 0 ∧ 16 + [1, 2, 3].length ≤ n ∧ n < 16 + [1, 2, 3].length + 8) ∧
      buf.length = n ∧
      readHeader buf = ⟨5, 9, 0, [1, 2, 3].length⟩ ∧
      (buf.drop 16).take [1, 2, 3].length = [1, 2, 3] ∧
      buf.drop (16 + [1, 2, 3].length) = List.replicate (n - (16 + [1, 2, 3].length)) 0 :=
  ⟨by decide, payloadCustomParam_round_trip [1, 2, 3] 5 9 (by decide) (by decide) (by decide)⟩

/-- Claim C30 fails in the code: called with a null configuration argument
while the outputs hold a stale buffer of 24 bytes, each of the nine encoders
returns at its null check and the outputs still hold that buffer and size 24,
not a null pointer and size zero. -/
theorem null_argument_keeps_stale_outputs :
    (payloadSVASoundModel sampleConsts true 1 none).applyTo
        (some ⟨⟨1, 2, 0, 8⟩, .raw [1, 2, 3, 4, 5, 6, 7, 8], 24⟩, 24) =
      (some ⟨⟨1, 2, 0, 8⟩, .raw [1, 2, 3, 4, 5, 6, 7, 8], 24⟩, 24) ∧
    (payloadSVAWakeUpConfig sampleConsts sampleSizes true 1 none).applyTo
        (some ⟨⟨1, 2, 0, 8⟩, .raw [1, 2, 3, 4, 5, 6, 7, 8], 24⟩, 24) =
      (some ⟨⟨1, 2, 0, 8⟩, .raw [1, 2, 3, 4, 5, 6, 7, 8], 24⟩, 24) ∧
    (payloadSVAWakeUpBufferConfig sampleConsts sampleSizes true 1 none).applyTo
        (some ⟨⟨1, 2, 0, 8⟩, .raw [1, 2, 3, 4, 5, 6, 7, 8], 24⟩, 24) =
      (some ⟨⟨1, 2, 0, 8⟩, .raw [1, 2, 3, 4, 5, 6, 7, 8], 24⟩, 24) ∧
    (payloadSVAStreamSetupDuration sampleConsts sampleSizes true 1 none).applyTo
        (some ⟨⟨1, 2, 0, 8⟩, .raw [1, 2, 3, 4, 5, 6, 7, 8], 24⟩, 24) =
      (some ⟨⟨1, 2, 0, 8⟩, .raw [1, 2, 3, 4, 5, 6, 7, 8], 24⟩, 24) ∧
    (payloadSVAEventConfig sampleConsts sampleSizes true 1 none).applyTo
        (some ⟨⟨1, 2, 0, 8⟩, .raw [1, 2, 3, 4, 5, 6, 7, 8], 24⟩, 24) =
      (some ⟨⟨1, 2, 0, 8⟩, .raw [1, 2, 3, 4, 5, 6, 7, 8], 24⟩, 24) ∧
    (payloadRATConfig sampleConsts sampleSizes true 1 none).applyTo
        (some ⟨⟨1, 2, 0, 8⟩, .raw [1, 2, 3, 4, 5, 6, 7, 8], 24⟩, 24) =
      (some ⟨⟨1, 2, 0, 8⟩, .raw [1, 2, 3, 4, 5, 6, 7, 8], 24⟩, 24) ∧
    (payloadPcmCnvConfig sampleConsts sampleSizes true 1 none).applyTo
        (some ⟨⟨1, 2, 0, 8⟩, .raw [1, 2, 3, 4, 5, 6, 7, 8], 24⟩, 24) =
      (some ⟨⟨1, 2, 0, 8⟩, .raw [1, 2, 3, 4, 5, 6, 7, 8], 24⟩, 24) ∧
    (payloadCopPackConfig sampleConsts sampleSizes true 1 none).applyTo
        (some ⟨⟨1, 2, 0, 8⟩, .raw [1, 2, 3, 4, 5, 6, 7, 8], 24⟩, 24) =
      (some ⟨⟨1, 2, 0, 8⟩, .raw [1, 2, 3, 4, 5, 6, 7, 8], 24⟩, 24) ∧
    (payloadSPConfig sampleConsts sampleSizes true 1 none).applyTo
        (some ⟨⟨1, 2, 0, 8⟩, .raw [1, 2, 3, 4, 5, 6, 7, 8], 24⟩, 24) =
      (some ⟨⟨1, 2, 0, 8⟩, .raw [1, 2, 3, 4, 5, 6, 7, 8], 24⟩, 24) :=
  ⟨rfl, rfl, rfl, rfl, rfl, rfl, rfl, rfl, rfl⟩

/-! ### Speaker-protection calibration block -/

theorem range_map_getD_eq_take {α β : Type} (l : List α) (n : Nat) (d : α) (f : α → β)
    (h : n ≤ l.length) :
    (List.range n).map (fun i => f (l.getD i d)) = (l.take n).map f := by
  apply List.ext_getElem
  · simp [h]
  · intro i h1 h2
    simp only [List.length_map, List.length_range] at h1
    have hi : i < l.length := lt_of_lt_of_le h1 h
    simp [List.getD_eq_getElem?_getD, List.getElem?_eq_getElem hi]

/-- C31 as stated fails: with a speaker count of zero and a successful
allocation payloadSPConfig stores a block of 24 bytes, the header followed by
num_speakers = 0 and no pair, and the stored size 24. -/
theorem payloadSPConfig_zero_speakers_block :
    payloadSPConfig sampleConsts sampleSizes true 1 (some ⟨0, []⟩) =
      .stored (some ⟨⟨1, sampleConsts.PARAM_ID_SP_TH_VI_R0T0_CFG, 0,
        sampleSizes.param_id_sp_th_vi_r0t0_cfg_t⟩, .sp 0 [], 24⟩) 24 := by
  decide

/-- C31 as amended: payloadSPConfig does not test the speaker count; for every
speaker count k, zero included, with the input holding at least k entries and
the allocation succeeding, it stores a block whose payload holds
num_speakers = k followed by the first k (resistance, temperature) pairs of
the input in order, with param_size the fixed prefix plus k entries. -/
theorem payloadSPConfig_any_count (k : ApiConsts) (sz : StructSizes) (miid : Nat)
    (d : param_id_sp_th_vi_r0t0_cfg_t) (h : d.num_speakers ≤ d.vi_r0t0_cfg.length) :
    payloadSPConfig k sz true miid (some d) =
      .stored
        (some ⟨⟨miid, k.PARAM_ID_SP_TH_VI_R0T0_CFG, 0,
            sz.param_id_sp_th_vi_r0t0_cfg_t + sz.vi_r0t0_cfg_t * d.num_speakers⟩,
          .sp d.num_speakers
            ((d.vi_r0t0_cfg.take d.num_speakers).map
              (fun e => (e.r0_cali_q24, e.t0_cali_q6))),
          16 + sz.param_id_sp_th_vi_r0t0_cfg_t + sz.vi_r0t0_cfg_t * d.num_speakers +
            QAL_PADDING_8BYTE_ALIGN
              (16 + sz.param_id_sp_th_vi_r0t0_cfg_t + sz.vi_r0t0_cfg_t * d.num_speakers)⟩)
        (16 + sz.param_id_sp_th_vi_r0t0_cfg_t + sz.vi_r0t0_cfg_t * d.num_speakers +
          QAL_PADDING_8BYTE_ALIGN
            (16 + sz.param_id_sp_th_vi_r0t0_cfg_t + sz.vi_r0t0_cfg_t * d.num_speakers)) := by
  have hr := range_map_getD_eq_take d.vi_r0t0_cfg d.num_speakers ⟨0, 0⟩
    (fun e => (e.r0_cali_q24, e.t0_cali_q6)) h
  have hsize : 16 + sz.param_id_sp_th_vi_r0t0_cfg_t + sz.vi_r0t0_cfg_t * d.num_speakers - 16 =
      sz.param_id_sp_th_vi_r0t0_cfg_t + sz.vi_r0t0_cfg_t * d.num_speakers := by omega
  simp only [payloadSPConfig, sizeof_apm_module_param_data_t, Bool.not_true,
    Bool.false_eq_true, if_false, hr, hsize]

theorem payloadSPConfig_any_count_witness :
    (2 : Nat) ≤ [(⟨10, 20⟩ : vi_r0t0_cfg_t), ⟨30, 40⟩].length ∧
    payloadSPConfig sampleConsts sampleSizes true 1 (some ⟨2, [⟨10, 20⟩, ⟨30, 40⟩]⟩) =
      .stored
        (some ⟨⟨1, sampleConsts.PARAM_ID_SP_TH_VI_R0T0_CFG, 0,
            sampleSizes.param_id_sp_th_vi_r0t0_cfg_t + sampleSizes.vi_r0t0_cfg_t * 2⟩,
          .sp 2 [(10, 20), (30, 40)],
          16 + sampleSizes.param_id_sp_th_vi_r0t0_cfg_t + sampleSizes.vi_r0t0_cfg_t * 2 +
            QAL_PADDING_8BYTE_ALIGN
              (16 + sampleSizes.param_id_sp_th_vi_r0t0_cfg_t + sampleSizes.vi_r0t0_cfg_t * 2)⟩)
        (16 + sampleSizes.param_id_sp_th_vi_r0t0_cfg_t + sampleSizes.vi_r0t0_cfg_t * 2 +
          QAL_PADDING_8BYTE_ALIGN
            (16 + sampleSizes.param_id_sp_th_vi_r0t0_cfg_t + sampleSizes.vi_r0t0_cfg_t * 2)) :=
  ⟨by decide, payloadSPConfig_any_count sampleConsts sampleSizes 1 ⟨2, [⟨10, 20⟩, ⟨30, 40⟩]⟩
    (by decide)⟩

/-! ### The mono-switch control block -/

/-- C32: payloadTWSConfig (allocation succeeding) stores exactly one of two
shapes: for codecFormat CODEC_TYPE_APTX_DUAL_MONO the parameter id
PARAM_ID_APTX_CLASSIC_SWITCH_ENC_PCM_INPUT with the field transition_direction,
for every other codec format PARAM_ID_APTX_ADAPTIVE_ENC_SWITCH_TO_MONO with the
field switch_between_mono_and_stereo; the field is 1 when isTwsMonoModeOn is
true and 2 when it is false, and param_size is the size of the selected
payload struct. -/
theorem payloadTWSConfig_shapes (k : ApiConsts) (sz : StructSizes) (miid : Nat)
    (isTwsMonoModeOn : Bool) (codecFormat : Nat) :
    (codecFormat = k.CODEC_TYPE_APTX_DUAL_MONO →
      payloadTWSConfig k sz true miid isTwsMonoModeOn codecFormat =
        .stored
          (some ⟨⟨miid, k.PARAM_ID_APTX_CLASSIC_SWITCH_ENC_PCM_INPUT, 0,
              sz.param_id_aptx_classic_switch_enc_pcm_input_payload_t⟩,
            .aptxClassic (if isTwsMonoModeOn = true then 1 else 2),
            QAL_ALIGN_8BYTE (16 + sz.param_id_aptx_classic_switch_enc_pcm_input_payload_t)⟩)
          (QAL_ALIGN_8BYTE (16 + sz.param_id_aptx_classic_switch_enc_pcm_input_payload_t))) ∧
    (codecFormat ≠ k.CODEC_TYPE_APTX_DUAL_MONO →
      payloadTWSConfig k sz true miid isTwsMonoModeOn codecFormat =
        .stored
          (some ⟨⟨miid, k.PARAM_ID_APTX_ADAPTIVE_ENC_SWITCH_TO_MONO, 0,
              sz.param_id_aptx_adaptive_enc_switch_to_mono_t⟩,
            .aptxAdaptive (if isTwsMonoModeOn = true then 1 else 2),
            QAL_ALIGN_8BYTE (16 + sz.param_id_aptx_adaptive_enc_switch_to_mono_t)⟩)
          (QAL_ALIGN_8BYTE (16 + sz.param_id_aptx_adaptive_enc_switch_to_mono_t))) ∧
    ((payloadTWSConfig k sz true miid true codecFormat).field
        (fun p => match p with
          | .aptxClassic v => some v
          | .aptxAdaptive v => some v
          | _ => none) = some 1) ∧
    ((payloadTWSConfig k sz true miid false codecFormat).field
        (fun p => match p with
          | .aptxClassic v => some v
          | .aptxAdaptive v => some v
          | _ => none) = some 2) := by
  refine ⟨?_, ?_, ?_, ?_⟩
  · intro h
    simp only [payloadTWSConfig, h, sizeof_apm_module_param_data_t, Bool.not_true,
      Bool.false_eq_true, if_false, if_true]
  · intro h
    simp only [payloadTWSConfig, h, sizeof_apm_module_param_data_t, Bool.not_true,
      Bool.false_eq_true, if_false]
  · by_cases h : codecFormat = k.CODEC_TYPE_APTX_DUAL_MONO <;>
      simp [payloadTWSConfig, h, EncodeResult.field, EncodeResult.block]
  · by_cases h : codecFormat = k.CODEC_TYPE_APTX_DUAL_MONO <;>
      simp [payloadTWSConfig, h, EncodeResult.field, EncodeResult.block]

theorem payloadTWSConfig_shapes_witness :
    payloadTWSConfig sampleConsts sampleSizes true 3 true 1 =
        .stored (some ⟨⟨3, 109, 0, 4⟩, .aptxClassic 1, QAL_ALIGN_8BYTE (16 + 4)⟩)
          (QAL_ALIGN_8BYTE (16 + 4)) ∧
      payloadTWSConfig sampleConsts sampleSizes true 3 false 0 =
        .stored (some ⟨⟨3, 110, 0, 4⟩, .aptxAdaptive 2, QAL_ALIGN_8BYTE (16 + 4)⟩)
          (QAL_ALIGN_8BYTE (16 + 4)) :=
  ⟨(payloadTWSConfig_shapes sampleConsts sampleSizes 3 true 1).1 rfl,
    (payloadTWSConfig_shapes sampleConsts sampleSizes 3 false 0).2.1 (by decide)⟩

/-! ### A failing stream-attribute query -/

/-- C33: when the stream-attribute query fails with status e, not 0, each
resolver that makes the query (both populateStreamKV overloads,
populateStreamPPKV, the Rx/Tx populateDeviceKV, populateDevicePPKV,
populateDevicePPCkv, populateCalKeyVector, populateTagKeyVector) returns e and
gives back every key-vector, the voice-mode table and the target selector as
they were passed in. -/
theorem attribute_query_failure_propagates (sk : StreamKeys) (vk : VoiceKeys)
    (pp : StreamPPKeys) (dk : DeviceKeys) (stk : SidetoneKeys) (pk : DevicePPKeys)
    (c : CalConsts) (tk : TagKeys) (rm : ResourceManager) (s : Stream) (e : Int)
    (keyVector keyVectorRx keyVectorTx kvpair table : KeyVector) (vsidinfo : vsid_info)
    (rxBeDevId txBeDevId : qal_device_id_t) (sidetoneMode : sidetone_mode_t)
    (calAllocOk : Bool) (calTag : Int) (tag : TagId) (gsltag : Nat)
    (hquery : s.getStreamAttributesStatus = e) (he : e ≠ 0) :
    populateStreamKV sk true s keyVector = (e, keyVector) ∧
    populateStreamKV_RxTx sk vk true s table keyVectorRx keyVectorTx vsidinfo =
      (e, keyVectorRx, keyVectorTx, table) ∧
    populateStreamPPKV pp true s keyVectorRx keyVectorTx = (e, keyVectorRx, keyVectorTx) ∧
    populateDeviceKV_RxTx dk stk s rxBeDevId keyVectorRx txBeDevId keyVectorTx sidetoneMode =
      (e, keyVectorRx, keyVectorTx) ∧
    populateDevicePPKV pk dk true s rxBeDevId keyVectorRx txBeDevId keyVectorTx kvpair =
      (e, keyVectorRx, keyVectorTx) ∧
    populateDevicePPCkv c true s keyVector = (e, keyVector) ∧
    populateCalKeyVector c rm calAllocOk s keyVector calTag = (e, keyVector) ∧
    populateTagKeyVector tk s keyVector tag gsltag = (e, keyVector, gsltag) := by
  subst hquery
  refine ⟨?_, ?_, ?_, ?_, ?_, ?_, ?_, ?_⟩
  · simp only [populateStreamKV, Bool.not_true, Bool.false_eq_true, if_false]
    rw [if_pos he]
  · simp only [populateStreamKV_RxTx, Bool.not_true, Bool.false_eq_true, if_false]
    rw [if_pos he]
  · simp only [populateStreamPPKV, Bool.not_true, Bool.false_eq_true, if_false]
    rw [if_pos he]
  · simp only [populateDeviceKV_RxTx]
    rw [if_pos he]
  · simp only [populateDevicePPKV, Bool.not_true, Bool.false_eq_true, if_false]
    rw [if_pos he]
  · simp only [populateDevicePPCkv, Bool.not_true, Bool.false_eq_true, if_false]
    rw [if_pos he]
  · simp only [populateCalKeyVector]
    rw [if_pos he]
  · simp only [populateTagKeyVector]
    rw [if_pos he]

theorem attribute_query_failure_propagates_witness :
    (({ sampleStream with getStreamAttributesStatus := -19 } : Stream).getStreamAttributesStatus
        = -19 ∧ (-19 : Int) ≠ 0) ∧
    (populateStreamKV sampleStreamKeys true
        { sampleStream with getStreamAttributesStatus := -19 } [(1, 2)] = (-19, [(1, 2)]) ∧
    populateStreamKV_RxTx sampleStreamKeys sampleVoiceKeys true
        { sampleStream with getStreamAttributesStatus := -19 } [(6101, 0)] [(3, 4)] [(5, 6)]
        ⟨77, [(6101, 5)]⟩ = (-19, [(3, 4)], [(5, 6)], [(6101, 0)]) ∧
    populateStreamPPKV sampleStreamPPKeys true
        { sampleStream with getStreamAttributesStatus := -19 } [(3, 4)] [(5, 6)] =
      (-19, [(3, 4)], [(5, 6)]) ∧
    populateDeviceKV_RxTx sampleDeviceKeys sampleSidetoneKeys
        { sampleStream with getStreamAttributesStatus := -19 } .QAL_DEVICE_OUT_SPEAKER [(3, 4)]
        .QAL_DEVICE_IN_HANDSET_MIC [(5, 6)] .SIDETONE_SW = (-19, [(3, 4)], [(5, 6)]) ∧
    populateDevicePPKV sampleDevicePPKeys sampleDeviceKeys true
        { sampleStream with getStreamAttributesStatus := -19 } .QAL_DEVICE_OUT_SPEAKER [(3, 4)]
        .QAL_DEVICE_IN_HANDSET_MIC [(5, 6)] [(8, 9)] = (-19, [(3, 4)], [(5, 6)]) ∧
    populateDevicePPCkv sampleCalConsts true
        { sampleStream with getStreamAttributesStatus := -19 } [(1, 2)] = (-19, [(1, 2)]) ∧
    populateCalKeyVector sampleCalConsts ⟨none⟩ true
        { sampleStream with getStreamAttributesStatus := -19 } [(1, 2)] 3221225473 =
      (-19, [(1, 2)]) ∧
    populateTagKeyVector sampleTagKeys
        { sampleStream with getStreamAttributesStatus := -19 } [(1, 2)] .MUTE_TAG 9 =
      (-19, [(1, 2)], 9)) :=
  ⟨⟨rfl, by decide⟩,
    attribute_query_failure_propagates sampleStreamKeys sampleVoiceKeys sampleStreamPPKeys
      sampleDeviceKeys sampleSidetoneKeys sampleDevicePPKeys sampleCalConsts sampleTagKeys ⟨none⟩
      { sampleStream with getStreamAttributesStatus := -19 } (-19) [(1, 2)] [(3, 4)] [(5, 6)]
      [(8, 9)] [(6101, 0)] ⟨77, [(6101, 5)]⟩ .QAL_DEVICE_OUT_SPEAKER .QAL_DEVICE_IN_HANDSET_MIC
      .SIDETONE_SW true 3221225473 .MUTE_TAG 9 rfl (by decide)⟩

/-! ### Resolvers only append -/

theorem populateStreamKV_appends (sk : StreamKeys) (allocOk : Bool) (s : Stream)
    (keyVector : KeyVector) : keyVector <+: (populateStreamKV sk allocOk s keyVector).2 := by
  unfold populateStreamKV
  by_cases ha : (!allocOk) = true
  · rw [if_pos ha]
  rw [if_neg ha]
  by_cases hq : s.getStreamAttributesStatus ≠ 0
  · rw [if_pos hq]
  rw [if_neg hq]
  split <;> (try dsimp only) <;> (try split_ifs) <;> simp [List.append_assoc]

theorem populateStreamKV_RxTx_appends (sk : StreamKeys) (vk : VoiceKeys) (allocOk : Bool)
    (s : Stream) (table keyVectorRx keyVectorTx : KeyVector) (vsidinfo : vsid_info) :
    keyVectorRx <+:
        (populateStreamKV_RxTx sk vk allocOk s table keyVectorRx keyVectorTx vsidinfo).2.1 ∧
      keyVectorTx <+:
        (populateStreamKV_RxTx sk vk allocOk s table keyVectorRx keyVectorTx vsidinfo).2.2.1 := by
  unfold populateStreamKV_RxTx
  by_cases ha : (!allocOk) = true
  · rw [if_pos ha]
    exact ⟨List.prefix_rfl, List.prefix_rfl⟩
  rw [if_neg ha]
  by_cases hq : s.getStreamAttributesStatus ≠ 0
  · rw [if_pos hq]
    exact ⟨List.prefix_rfl, List.prefix_rfl⟩
  rw [if_neg hq]
  split <;> (try dsimp only) <;> (try split_ifs) <;> simp [List.append_assoc]

theorem populateStreamPPKV_appends (pp : StreamPPKeys) (allocOk : Bool) (s : Stream)
    (keyVectorRx keyVectorTx : KeyVector) :
    keyVectorRx <+: (populateStreamPPKV pp allocOk s keyVectorRx keyVectorTx).2.1 ∧
      keyVectorTx <+: (populateStreamPPKV pp allocOk s keyVectorRx keyVectorTx).2.2 := by
  unfold populateStreamPPKV
  by_cases ha : (!allocOk) = true
  · rw [if_pos ha]
    exact ⟨List.prefix_rfl, List.prefix_rfl⟩
  rw [if_neg ha]
  by_cases hq : s.getStreamAttributesStatus ≠ 0
  · rw [if_pos hq]
    exact ⟨List.prefix_rfl, List.prefix_rfl⟩
  rw [if_neg hq]
  split <;> simp

theorem populateDeviceKV_appends (dk : DeviceKeys) (beDevId : qal_device_id_t)
    (keyVector : KeyVector) : keyVector <+: (populateDeviceKV dk beDevId keyVector).2 := by
  cases beDevId <;> simp [populateDeviceKV]

theorem populateDeviceKV_RxTx_appends (dk : DeviceKeys) (stk : SidetoneKeys) (s : Stream)
    (rxBeDevId txBeDevId : qal_device_id_t) (keyVectorRx keyVectorTx : KeyVector)
    (sidetoneMode : sidetone_mode_t) :
    keyVectorRx <+: (populateDeviceKV_RxTx dk stk s rxBeDevId keyVectorRx txBeDevId keyVectorTx
        sidetoneMode).2.1 ∧
      keyVectorTx <+: (populateDeviceKV_RxTx dk stk s rxBeDevId keyVectorRx txBeDevId keyVectorTx
        sidetoneMode).2.2 := by
  have hrx := populateDeviceKV_appends dk rxBeDevId keyVectorRx
  have htx := populateDeviceKV_appends dk txBeDevId keyVectorTx
  unfold populateDeviceKV_RxTx
  split_ifs
  · exact ⟨List.prefix_rfl, List.prefix_rfl⟩
  · exact ⟨hrx, htx.trans (List.prefix_append _ _)⟩
  · exact ⟨hrx, htx⟩

theorem devicePPSwitch_appends (pk : DevicePPKeys) (s : Stream) (dAttr : Device)
    (rxBeDevId txBeDevId : qal_device_id_t) (kvpair keyVectorRx keyVectorTx : KeyVector) :
    match devicePPSwitch pk s dAttr rxBeDevId txBeDevId kvpair keyVectorRx keyVectorTx with
    | none => True
    | some r => keyVectorRx <+: r.1 ∧ keyVectorTx <+: r.2 := by
  unfold devicePPSwitch
  cases s.sattr.type <;> (try dsimp only) <;> (try split_ifs) <;> simp

theorem devicePPLoop_appends (pk : DevicePPKeys) (s : Stream)
    (rxBeDevId txBeDevId : qal_device_id_t) (kvpair : KeyVector) (devices : List Device)
    (keyVectorRx keyVectorTx : KeyVector) :
    match devicePPLoop pk s rxBeDevId txBeDevId kvpair devices keyVectorRx keyVectorTx with
    | .error r => keyVectorRx <+: r.2.1 ∧ keyVectorTx <+: r.2.2
    | .ok r => keyVectorRx <+: r.1 ∧ keyVectorTx <+: r.2 := by
  induction devices generalizing keyVectorRx keyVectorTx with
  | nil => exact ⟨List.prefix_rfl, List.prefix_rfl⟩
  | cons d rest ih =>
    unfold devicePPLoop
    split_ifs with hd
    · exact ⟨List.prefix_rfl, List.prefix_rfl⟩
    · cases hsw : devicePPSwitch pk s d rxBeDevId txBeDevId kvpair keyVectorRx keyVectorTx with
      | none => exact ⟨List.prefix_rfl, List.prefix_rfl⟩
      | some r =>
        obtain ⟨rx1, tx1⟩ := r
        have hstep := devicePPSwitch_appends pk s d rxBeDevId txBeDevId kvpair keyVectorRx
          keyVectorTx
        rw [hsw] at hstep
        have hrest := ih rx1 tx1
        simp only []
        cases hl : devicePPLoop pk s rxBeDevId txBeDevId kvpair rest rx1 tx1 with
        | error r2 =>
          rw [hl] at hrest
          exact ⟨hstep.1.trans hrest.1, hstep.2.trans hrest.2⟩
        | ok r2 =>
          rw [hl] at hrest
          exact ⟨hstep.1.trans hrest.1, hstep.2.trans hrest.2⟩

theorem populateDevicePPKV_appends (pk : DevicePPKeys) (dk : DeviceKeys) (allocOk : Bool)
    (s : Stream) (rxBeDevId txBeDevId : qal_device_id_t)
    (keyVectorRx keyVectorTx kvpair : KeyVector) :
    keyVectorRx <+: (populateDevicePPKV pk dk allocOk s rxBeDevId keyVectorRx txBeDevId
        keyVectorTx kvpair).2.1 ∧
      keyVectorTx <+: (populateDevicePPKV pk dk allocOk s rxBeDevId keyVectorRx txBeDevId
        keyVectorTx kvpair).2.2 := by
  have hloop := devicePPLoop_appends pk s rxBeDevId txBeDevId kvpair s.associatedDevices
    keyVectorRx keyVectorTx
  unfold populateDevicePPKV
  split_ifs
  · exact ⟨List.prefix_rfl, List.prefix_rfl⟩
  · exact ⟨List.prefix_rfl, List.prefix_rfl⟩
  · exact ⟨List.prefix_rfl, List.prefix_rfl⟩
  · cases hl : devicePPLoop pk s rxBeDevId txBeDevId kvpair s.associatedDevices keyVectorRx
        keyVectorTx with
    | error r =>
      rw [hl] at hloop
      exact hloop
    | ok r =>
      rw [hl] at hloop
      obtain ⟨rx1, tx1⟩ := r
      exact ⟨hloop.1.trans (populateDeviceKV_appends dk rxBeDevId rx1),
        hloop.2.trans (populateDeviceKV_appends dk txBeDevId tx1)⟩

theorem devicePPCkvLoop_appends (c : CalConsts) (s : Stream) (devices : List Device)
    (keyVector : KeyVector) : keyVector <+: (devicePPCkvLoop c s devices keyVector).2 := by
  induction devices generalizing keyVector with
  | nil => exact List.prefix_rfl
  | cons d rest ih =>
    unfold devicePPCkvLoop
    split_ifs
    · exact List.prefix_rfl
    · split
      · exact (List.prefix_append _ _).trans (ih _)
      · exact List.prefix_rfl

theorem populateDevicePPCkv_appends (c : CalConsts) (allocOk : Bool) (s : Stream)
    (keyVector : KeyVector) : keyVector <+: (populateDevicePPCkv c allocOk s keyVector).2 := by
  unfold populateDevicePPCkv
  split_ifs
  · exact List.prefix_rfl
  · exact List.prefix_rfl
  · exact List.prefix_rfl
  · exact devicePPCkvLoop_appends c s _ _

theorem prefix_ite (p : Prop) [Decidable p] (l a b : KeyVector) (ha : l <+: a)
    (hb : l <+: b) : l <+: if p then a else b := by
  split_ifs
  · exact ha
  · exact hb

theorem volumeCase_appends (c : CalConsts) (voldB : ℚ) (ckv : KeyVector) :
    ckv <+: volumeCase c voldB ckv := by
  unfold volumeCase
  repeat' (first | exact List.prefix_append _ _ | exact List.prefix_rfl | apply prefix_ite)

theorem channelsCase_appends (c : CalConsts) (rm : ResourceManager) (s : Stream)
    (ckv : KeyVector) : ckv <+: (channelsCase c rm s ckv).2 := by
  unfold channelsCase
  by_cases h : s.sattr.type = .QAL_STREAM_VOICE_UI
  · rw [if_pos h]
    cases s.getStreamModifiers with
    | nil => exact List.prefix_rfl
    | cons kv0 rest =>
      dsimp only
      by_cases h2 : kv0.2 ≠ c.VUI_STREAM_CFG_SVA
      · rw [if_pos h2]
      · rw [if_neg h2]
        cases rm.GetSVACaptureProfile with
        | none => exact List.prefix_rfl
        | some channels =>
          dsimp only
          split_ifs
          · exact List.prefix_rfl
          · exact List.prefix_append _ _
  · rw [if_neg h]

theorem spkrProtLoop_appends (c : CalConsts) (devices : List Device) (ckv : KeyVector) :
    ckv <+: (spkrProtLoop c devices ckv).2 := by
  induction devices with
  | nil => exact List.prefix_rfl
  | cons d rest ih =>
    unfold spkrProtLoop
    split_ifs
    · exact List.prefix_rfl
    · exact List.prefix_append _ _
    · exact List.prefix_append _ _
    · exact ih

theorem populateCalKeyVector_appends (c : CalConsts) (rm : ResourceManager) (allocOk : Bool)
    (s : Stream) (ckv : KeyVector) (tag : Int) :
    ckv <+: (populateCalKeyVector c rm allocOk s ckv tag).2 := by
  unfold populateCalKeyVector
  split_ifs
  · exact List.prefix_rfl
  · exact List.prefix_rfl
  · exact List.prefix_rfl
  · exact volumeCase_appends c _ _
  · exact channelsCase_appends c rm s ckv
  · exact List.prefix_rfl
  · exact spkrProtLoop_appends c _ _
  · exact List.prefix_append _ _
  · exact List.prefix_rfl

theorem populateTagKeyVector_appends (tk : TagKeys) (s : Stream) (tkv : KeyVector) (tag : TagId)
    (gsltag : Nat) : tkv <+: (populateTagKeyVector tk s tkv tag gsltag).2.1 := by
  unfold populateTagKeyVector
  by_cases hq : s.getStreamAttributesStatus ≠ 0
  · rw [if_pos hq]
  · rw [if_neg hq]
    cases tag <;> simp [List.append_assoc]

/-- C34: every key-vector resolver only appends: for both populateStreamKV
overloads, populateStreamPPKV, both populateDeviceKV overloads,
populateDevicePPKV, populateStreamCkv, populateDevicePPCkv,
populateCalKeyVector and populateTagKeyVector, for every input and every
outcome, each key-vector passed in is a prefix of the same key-vector after
the call. -/
theorem resolvers_only_append (sk : StreamKeys) (vk : VoiceKeys) (pp : StreamPPKeys)
    (dk : DeviceKeys) (stk : SidetoneKeys) (pk : DevicePPKeys) (c : CalConsts) (tk : TagKeys)
    (rm : ResourceManager) (allocOk : Bool) (s : Stream)
    (keyVector keyVectorRx keyVectorTx kvpair table : KeyVector) (vsidinfo : vsid_info)
    (beDevId rxBeDevId txBeDevId : qal_device_id_t) (sidetoneMode : sidetone_mode_t)
    (calTag : Int) (tag : TagId) (gsltag : Nat) :
    keyVector <+: (populateStreamKV sk allocOk s keyVector).2 ∧
    (keyVectorRx <+:
        (populateStreamKV_RxTx sk vk allocOk s table keyVectorRx keyVectorTx vsidinfo).2.1 ∧
      keyVectorTx <+:
        (populateStreamKV_RxTx sk vk allocOk s table keyVectorRx keyVectorTx vsidinfo).2.2.1) ∧
    (keyVectorRx <+: (populateStreamPPKV pp allocOk s keyVectorRx keyVectorTx).2.1 ∧
      keyVectorTx <+: (populateStreamPPKV pp allocOk s keyVectorRx keyVectorTx).2.2) ∧
    keyVector <+: (populateDeviceKV dk beDevId keyVector).2 ∧
    (keyVectorRx <+: (populateDeviceKV_RxTx dk stk s rxBeDevId keyVectorRx txBeDevId keyVectorTx
        sidetoneMode).2.1 ∧
      keyVectorTx <+: (populateDeviceKV_RxTx dk stk s rxBeDevId keyVectorRx txBeDevId keyVectorTx
        sidetoneMode).2.2) ∧
    (keyVectorRx <+: (populateDevicePPKV pk dk allocOk s rxBeDevId keyVectorRx txBeDevId
        keyVectorTx kvpair).2.1 ∧
      keyVectorTx <+: (populateDevicePPKV pk dk allocOk s rxBeDevId keyVectorRx txBeDevId
        keyVectorTx kvpair).2.2) ∧
    keyVector <+: (populateStreamCkv c keyVector).2 ∧
    keyVector <+: (populateDevicePPCkv c allocOk s keyVector).2 ∧
    keyVector <+: (populateCalKeyVector c rm allocOk s keyVector calTag).2 ∧
    keyVector <+: (populateTagKeyVector tk s keyVector tag gsltag).2.1 :=
  ⟨populateStreamKV_appends sk allocOk s keyVector,
    populateStreamKV_RxTx_appends sk vk allocOk s table keyVectorRx keyVectorTx vsidinfo,
    populateStreamPPKV_appends pp allocOk s keyVectorRx keyVectorTx,
    populateDeviceKV_appends dk beDevId keyVector,
    populateDeviceKV_RxTx_appends dk stk s rxBeDevId txBeDevId keyVectorRx keyVectorTx
      sidetoneMode,
    populateDevicePPKV_appends pk dk allocOk s rxBeDevId txBeDevId keyVectorRx keyVectorTx kvpair,
    List.prefix_append _ _,
    populateDevicePPCkv_appends c allocOk s keyVector,
    populateCalKeyVector_appends c rm allocOk s keyVector calTag,
    populateTagKeyVector_appends tk s keyVector tag gsltag⟩

/-! ### Stream types populateDevicePPKV has no case for -/

theorem devicePPSwitch_unsupported (pk : DevicePPKeys) (s : Stream) (dAttr : Device)
    (rxBeDevId txBeDevId : qal_device_id_t) (kvpair keyVectorRx keyVectorTx : KeyVector)
    (htype : s.sattr.type ∉ [qal_stream_type_t.QAL_STREAM_VOICE_CALL, .QAL_STREAM_LOW_LATENCY,
      .QAL_STREAM_COMPRESSED, .QAL_STREAM_DEEP_BUFFER, .QAL_STREAM_PCM_OFFLOAD,
      .QAL_STREAM_VOIP_RX, .QAL_STREAM_VOIP_TX, .QAL_STREAM_LOOPBACK, .QAL_STREAM_VOICE_UI]) :
    devicePPSwitch pk s dAttr rxBeDevId txBeDevId kvpair keyVectorRx keyVectorTx = none := by
  unfold devicePPSwitch
  cases hty : s.sattr.type <;> simp [hty] at htype <;> rfl

/-- C35, the code at the failing input: for an ultra-low-latency stream with
one associated device (a speaker whose attribute query succeeds)
populateDevicePPKV returns the status 0 and appends nothing, the device
key-pairs of the two target ids included. -/
theorem populateDevicePPKV_unsupported_returns_zero :
    populateDevicePPKV sampleDevicePPKeys sampleDeviceKeys true
        { sampleStream with
          sattr := ⟨.QAL_STREAM_ULTRA_LOW_LATENCY, .QAL_AUDIO_OUTPUT, .QAL_STREAM_LOOPBACK_PCM,
            0⟩
          associatedDevices := [⟨0, .QAL_DEVICE_OUT_SPEAKER, 2⟩] }
        .QAL_DEVICE_OUT_SPEAKER [] .QAL_DEVICE_IN_HANDSET_MIC [] [(8, 9)] =
      (0, [], []) := by
  decide

theorem populateDevicePPKV_unsupported_type (pk : DevicePPKeys) (dk : DeviceKeys) (s : Stream)
    (rxBeDevId txBeDevId : qal_device_id_t) (keyVectorRx keyVectorTx kvpair : KeyVector)
    (d : Device) (rest : List Device)
    (hattr : s.getStreamAttributesStatus = 0) (hassoc : s.getAssociatedDevicesStatus = 0)
    (hdevices : s.associatedDevices = d :: rest)
    (htype : s.sattr.type ∉ [qal_stream_type_t.QAL_STREAM_VOICE_CALL, .QAL_STREAM_LOW_LATENCY,
      .QAL_STREAM_COMPRESSED, .QAL_STREAM_DEEP_BUFFER, .QAL_STREAM_PCM_OFFLOAD,
      .QAL_STREAM_VOIP_RX, .QAL_STREAM_VOIP_TX, .QAL_STREAM_LOOPBACK, .QAL_STREAM_VOICE_UI]) :
    populateDevicePPKV pk dk true s rxBeDevId keyVectorRx txBeDevId keyVectorTx kvpair =
      (d.getDeviceAttributesStatus, keyVectorRx, keyVectorTx) := by
  have hsw := devicePPSwitch_unsupported pk s d rxBeDevId txBeDevId kvpair keyVectorRx
    keyVectorTx htype
  simp only [populateDevicePPKV, hattr, hassoc, hdevices, devicePPLoop, hsw, ne_eq,
    not_true_eq_false, if_false, Bool.not_true, Bool.false_eq_true]
  by_cases hd : d.getDeviceAttributesStatus = 0
  · simp [hd]
  · simp [hd]

/-! ### The OP_MODE tag -/

/-- C36: for tag OP_MODE with an empty tag key-vector (attribute query
succeeding) populateTagKeyVector returns 0 with the vector
[(TAG_MODULE_OP_MODE, NORMAL), (TAG_KEY_MUX_DEMUX_CONFIG,
TAG_VALUE_MUX_DEMUX_CONFIG_UPLINK)] and the selector TAG_STREAM_MUX_DEMUX,
whereas tag INCALL_RECORD_UPLINK gives only the second pair with the same
selector. -/
theorem populateTagKeyVector_op_mode_falls_through (tk : TagKeys) (s : Stream) (gsltag : Nat)
    (hattr : s.getStreamAttributesStatus = 0) :
    populateTagKeyVector tk s [] .OP_MODE gsltag =
        (0,
          [((tk.TAG_MODULE_OP_MODE : Int), tk.NORMAL),
            (tk.TAG_KEY_MUX_DEMUX_CONFIG, tk.TAG_VALUE_MUX_DEMUX_CONFIG_UPLINK)],
          tk.TAG_STREAM_MUX_DEMUX) ∧
      populateTagKeyVector tk s [] .INCALL_RECORD_UPLINK gsltag =
        (0, [(tk.TAG_KEY_MUX_DEMUX_CONFIG, tk.TAG_VALUE_MUX_DEMUX_CONFIG_UPLINK)],
          tk.TAG_STREAM_MUX_DEMUX) := by
  constructor <;> simp [populateTagKeyVector, hattr]

theorem populateTagKeyVector_op_mode_falls_through_witness :
    sampleStream.getStreamAttributesStatus = 0 ∧
    populateTagKeyVector sampleTagKeys sampleStream [] .OP_MODE 4007 =
        (0, [(4007, sampleTagKeys.NORMAL),
            (sampleTagKeys.TAG_KEY_MUX_DEMUX_CONFIG,
              sampleTagKeys.TAG_VALUE_MUX_DEMUX_CONFIG_UPLINK)], 4008) ∧
      populateTagKeyVector sampleTagKeys sampleStream [] .INCALL_RECORD_UPLINK 4007 =
        (0, [(sampleTagKeys.TAG_KEY_MUX_DEMUX_CONFIG,
            sampleTagKeys.TAG_VALUE_MUX_DEMUX_CONFIG_UPLINK)], 4008) :=
  ⟨rfl, populateTagKeyVector_op_mode_falls_through sampleTagKeys sampleStream 4007 rfl⟩

/-! ### The Rx/Tx device key-vector -/

/-- C38: with the stream-attribute query succeeding the Rx/Tx populateDeviceKV
returns 0, appends to the Rx vector exactly the single-device contribution of
rxBeDevId and to the Tx vector exactly the single-device contribution of
txBeDevId, followed on the Tx vector by (SW_SIDETONE, SW_SIDETONE_ON) if and
only if the stream type is voice-call and sidetoneMode is SIDETONE_SW. -/
theorem populateDeviceKV_RxTx_contributions (dk : DeviceKeys) (stk : SidetoneKeys) (s : Stream)
    (rxBeDevId txBeDevId : qal_device_id_t) (keyVectorRx keyVectorTx : KeyVector)
    (sidetoneMode : sidetone_mode_t) (hattr : s.getStreamAttributesStatus = 0) :
    populateDeviceKV_RxTx dk stk s rxBeDevId keyVectorRx txBeDevId keyVectorTx sidetoneMode =
        (0, (populateDeviceKV dk rxBeDevId keyVectorRx).2,
          (populateDeviceKV dk txBeDevId keyVectorTx).2 ++
            if s.sattr.type = .QAL_STREAM_VOICE_CALL ∧ sidetoneMode = .SIDETONE_SW then
              [(stk.SW_SIDETONE, stk.SW_SIDETONE_ON)]
            else []) ∧
      ((s.sattr.type = .QAL_STREAM_VOICE_CALL ∧ sidetoneMode = .SIDETONE_SW) →
        (populateDeviceKV_RxTx dk stk s rxBeDevId keyVectorRx txBeDevId keyVectorTx
            sidetoneMode).2.2 =
          (populateDeviceKV dk txBeDevId keyVectorTx).2 ++
            [(stk.SW_SIDETONE, stk.SW_SIDETONE_ON)]) ∧
      (¬ (s.sattr.type = .QAL_STREAM_VOICE_CALL ∧ sidetoneMode = .SIDETONE_SW) →
        (populateDeviceKV_RxTx dk stk s rxBeDevId keyVectorRx txBeDevId keyVectorTx
            sidetoneMode).2.2 =
          (populateDeviceKV dk txBeDevId keyVectorTx).2) := by
  refine ⟨?_, ?_, ?_⟩
  · by_cases h : s.sattr.type = .QAL_STREAM_VOICE_CALL ∧ sidetoneMode = .SIDETONE_SW
    · simp only [populateDeviceKV_RxTx, hattr, ne_eq, not_true_eq_false, if_false]
      rw [if_pos h, if_pos h]
    · simp only [populateDeviceKV_RxTx, hattr, ne_eq, not_true_eq_false, if_false]
      rw [if_neg h, if_neg h, List.append_nil]
  · intro h
    simp only [populateDeviceKV_RxTx, hattr, ne_eq, not_true_eq_false, if_false]
    rw [if_pos h]
  · intro h
    simp only [populateDeviceKV_RxTx, hattr, ne_eq, not_true_eq_false, if_false]
    rw [if_neg h]

theorem populateDeviceKV_RxTx_contributions_witness :
    populateDeviceKV_RxTx sampleDeviceKeys sampleSidetoneKeys
        { sampleStream with
          sattr := ⟨.QAL_STREAM_VOICE_CALL, .QAL_AUDIO_OUTPUT_INPUT, .QAL_STREAM_LOOPBACK_PCM,
            6101⟩ }
        .QAL_DEVICE_OUT_BLUETOOTH_SCO [(3, 4)] .QAL_DEVICE_IN_HANDSET_MIC [(5, 6)]
        .SIDETONE_SW =
      (0, [(3, 4), (2001, 2104), (2003, 2101)], [(5, 6), (2002, 2112), (8001, 8101)]) :=
  (populateDeviceKV_RxTx_contributions sampleDeviceKeys sampleSidetoneKeys
    { sampleStream with
      sattr := ⟨.QAL_STREAM_VOICE_CALL, .QAL_AUDIO_OUTPUT_INPUT, .QAL_STREAM_LOOPBACK_PCM,
        6101⟩ }
    .QAL_DEVICE_OUT_BLUETOOTH_SCO .QAL_DEVICE_IN_HANDSET_MIC [(3, 4)] [(5, 6)] .SIDETONE_SW
    rfl).1

/-! ### Volumes outside the normalized range -/

theorem volumeCase_above_one (c : CalConsts) (v : ℚ) (ckv : KeyVector) (hv : 1 < v) :
    volumeCase c v ckv = ckv := by
  have htop : float_0_9 ≤ 1 := by norm_num [float_0_9, binary32]
  have hn : ∀ t : ℚ, t ≤ float_0_9 → ¬ v < t :=
    fun t ht h => absurd (lt_of_lt_of_le h (le_trans ht htop)) (not_lt.mpr hv.le)
  obtain ⟨b0, b1, b2, b3, b4, b5, b6, b7, b8, b9, b10, b11, b12, b13, b14⟩ := float_bounds_le_top
  have hz : ¬ v = 0.0 := by
    intro h
    rw [h] at hv
    norm_num at hv
  have hle : ¬ v ≤ 1.0 := by
    intro h
    have h1 : (1.0 : ℚ) = 1 := by norm_num
    rw [h1] at h
    exact absurd hv (not_lt.mpr h)
  unfold volumeCase
  rw [if_neg hz, if_neg (hn _ b0),
    if_neg (hn _ b1),
    if_neg (hn _ b2),
    if_neg (hn _ b3),
    if_neg (hn _ b4),
    if_neg (hn _ b5),
    if_neg (hn _ b6),
    if_neg (hn _ b7),
    if_neg (hn _ b8),
    if_neg (hn _ b9),
    if_neg (hn _ b10),
    if_neg (hn _ b11),
    if_neg (hn _ b12),
    if_neg (hn _ b13),
    if_neg (hn _ b14),
    if_neg hle]

theorem volumeCase_negative (c : CalConsts) (v : ℚ) (ckv : KeyVector) (hv : v < 0) :
    volumeCase c v ckv = ckv ++ [(c.VOLUME, c.LEVEL_15)] := by
  have hz : ¬ v = 0.0 := by
    intro h
    rw [h] at hv
    norm_num at hv
  have hlt : v < float_0_002172 := lt_trans hv (by norm_num [float_0_002172, binary32])
  unfold volumeCase
  rw [if_neg hz, if_pos hlt]

/-- C39: outside the normalized range the TAG_STREAM_VOLUME rule of
populateCalKeyVector (queries succeeding) is not total: for every volume above
1.0 it appends no pair and still returns 0, and for every negative volume it
appends (VOLUME, LEVEL_15). -/
theorem populateCalKeyVector_volume_outside_range (c : CalConsts) (rm : ResourceManager)
    (s : Stream) (ckv : KeyVector) (tag : Int)
    (hattr : s.getStreamAttributesStatus = 0) (hvol : s.getVolumeDataStatus = 0)
    (htag : castUint32 tag = c.TAG_STREAM_VOLUME) :
    (1 < s.vol → populateCalKeyVector c rm true s ckv tag = (0, ckv)) ∧
      (s.vol < 0 →
        populateCalKeyVector c rm true s ckv tag = (0, ckv ++ [(c.VOLUME, c.LEVEL_15)])) := by
  have hrun := populateCalKeyVector_volumeCase c rm s ckv tag hattr hvol htag
  constructor
  · intro hv
    rw [hrun, volumeCase_above_one c s.vol ckv hv]
  · intro hv
    rw [hrun, volumeCase_negative c s.vol ckv hv]

theorem populateCalKeyVector_volume_outside_range_witness :
    populateCalKeyVector sampleCalConsts ⟨none⟩ true { sampleStream with vol := 3 / 2 }
        [(1, 2)] 3221225473 = (0, [(1, 2)]) ∧
      populateCalKeyVector sampleCalConsts ⟨none⟩ true { sampleStream with vol := -1 / 4 }
        [(1, 2)] 3221225473 = (0, [(1, 2), (500, 15)]) :=
  ⟨(populateCalKeyVector_volume_outside_range sampleCalConsts ⟨none⟩
      { sampleStream with vol := 3 / 2 } [(1, 2)] 3221225473 rfl rfl (by decide)).1
      (by norm_num),
    (populateCalKeyVector_volume_outside_range sampleCalConsts ⟨none⟩
      { sampleStream with vol := -1 / 4 } [(1, 2)] 3221225473 rfl rfl (by decide)).2
      (by norm_num)⟩

/-! ### Which associated devices contribute to the device post-processing key-vector -/

theorem devicePPLoop_voice_call (pk : DevicePPKeys) (s : Stream)
    (rxBeDevId txBeDevId : qal_device_id_t) (kvpair : KeyVector)
    (htype : s.sattr.type = .QAL_STREAM_VOICE_CALL) (devices : List Device)
    (hdev : ∀ d ∈ devices, d.getDeviceAttributesStatus = 0) (rx tx : KeyVector) :
    devicePPLoop pk s rxBeDevId txBeDevId kvpair devices rx tx =
      .ok (rx ++ (devices.filter (fun d => decide (d.id = rxBeDevId))).map
          (fun _ => (pk.DEVICEPP_RX, pk.DEVICEPP_RX_VOICE_DEFAULT)),
        tx ++ ((devices.filter (fun d => decide (d.id = txBeDevId))).map
          (fun _ => kvpair)).flatten) := by
  induction devices generalizing rx tx with
  | nil => simp [devicePPLoop]
  | cons d rest ih =>
    have hd := hdev d (List.mem_cons_self _ _)
    have hrest : ∀ e ∈ rest, e.getDeviceAttributesStatus = 0 :=
      fun e he => hdev e (List.mem_cons_of_mem _ he)
    have hstep : devicePPLoop pk s rxBeDevId txBeDevId kvpair (d :: rest) rx tx =
        devicePPLoop pk s rxBeDevId txBeDevId kvpair rest
          (if d.id = rxBeDevId then rx ++ [(pk.DEVICEPP_RX, pk.DEVICEPP_RX_VOICE_DEFAULT)]
            else rx)
          (if d.id = txBeDevId then tx ++ kvpair else tx) := by
      simp [devicePPLoop, devicePPSwitch, hd, htype]
    have hrx : (if d.id = rxBeDevId then rx ++ [(pk.DEVICEPP_RX, pk.DEVICEPP_RX_VOICE_DEFAULT)]
          else rx) ++
          (rest.filter (fun e => decide (e.id = rxBeDevId))).map
            (fun _ => (pk.DEVICEPP_RX, pk.DEVICEPP_RX_VOICE_DEFAULT)) =
        rx ++ ((d :: rest).filter (fun e => decide (e.id = rxBeDevId))).map
          (fun _ => (pk.DEVICEPP_RX, pk.DEVICEPP_RX_VOICE_DEFAULT)) := by
      by_cases hr : d.id = rxBeDevId <;> simp [List.filter_cons, hr]
    have htx : (if d.id = txBeDevId then tx ++ kvpair else tx) ++
          ((rest.filter (fun e => decide (e.id = txBeDevId))).map (fun _ => kvpair)).flatten =
        tx ++ (((d :: rest).filter (fun e => decide (e.id = txBeDevId))).map
          (fun _ => kvpair)).flatten := by
      by_cases ht : d.id = txBeDevId <;> simp [List.filter_cons, ht]
    rw [hstep, ih hrest, hrx, htx]

/-- C40: with every query succeeding, for an output-direction low-latency,
compressed, deep-buffer or PCM-offload stream with m associated devices
populateDevicePPKV appends to the Rx vector exactly m pairs with key
DEVICEPP_RX, one per associated device in association order whatever the
ids rxBeDevId and txBeDevId are, followed by the single-device contribution of
rxBeDevId, and appends to the Tx vector only the single-device contribution of
txBeDevId; for a voice-call stream (DEVICEPP_RX, DEVICEPP_RX_VOICE_DEFAULT) is
appended only for the associated devices whose id is rxBeDevId and the
auxiliary pairs only for those whose id is txBeDevId. -/
theorem populateDevicePPKV_device_matching (pk : DevicePPKeys) (dk : DeviceKeys) (s : Stream)
    (rxBeDevId txBeDevId : qal_device_id_t) (keyVectorRx keyVectorTx kvpair : KeyVector)
    (hattr : s.getStreamAttributesStatus = 0) (hassoc : s.getAssociatedDevicesStatus = 0)
    (hdev : ∀ d ∈ s.associatedDevices, d.getDeviceAttributesStatus = 0) :
    ((s.sattr.type = .QAL_STREAM_LOW_LATENCY ∨ s.sattr.type = .QAL_STREAM_COMPRESSED ∨
        s.sattr.type = .QAL_STREAM_DEEP_BUFFER ∨ s.sattr.type = .QAL_STREAM_PCM_OFFLOAD) →
      s.sattr.direction = .QAL_AUDIO_OUTPUT →
      ∃ values : List Int, values.length = s.associatedDevices.length ∧
        populateDevicePPKV pk dk true s rxBeDevId keyVectorRx txBeDevId keyVectorTx kvpair =
          (0,
            (populateDeviceKV dk rxBeDevId
              (keyVectorRx ++ values.map (fun v => (pk.DEVICEPP_RX, v)))).2,
            (populateDeviceKV dk txBeDevId keyVectorTx).2)) ∧
    (s.sattr.type = .QAL_STREAM_VOICE_CALL →
      populateDevicePPKV pk dk true s rxBeDevId keyVectorRx txBeDevId keyVectorTx kvpair =
        (0,
          (populateDeviceKV dk rxBeDevId
            (keyVectorRx ++
              (s.associatedDevices.filter (fun d => decide (d.id = rxBeDevId))).map
                (fun _ => (pk.DEVICEPP_RX, pk.DEVICEPP_RX_VOICE_DEFAULT)))).2,
          (populateDeviceKV dk txBeDevId
            (keyVectorTx ++
              ((s.associatedDevices.filter (fun d => decide (d.id = txBeDevId))).map
                (fun _ => kvpair)).flatten)).2)) := by
  constructor
  · intro htype hdir
    refine ⟨s.associatedDevices.map (fun d =>
      if d.id = .QAL_DEVICE_OUT_PROXY then pk.DEVICEPP_RX_DEFAULT
      else pk.DEVICEPP_RX_AUDIO_MBDRC), List.length_map _ _, ?_⟩
    have hmap : (s.associatedDevices.map (fun d =>
        if d.id = .QAL_DEVICE_OUT_PROXY then pk.DEVICEPP_RX_DEFAULT
        else pk.DEVICEPP_RX_AUDIO_MBDRC)).map (fun v => (pk.DEVICEPP_RX, v)) =
        s.associatedDevices.map (fun d =>
          if d.id = .QAL_DEVICE_OUT_PROXY then (pk.DEVICEPP_RX, pk.DEVICEPP_RX_DEFAULT)
          else (pk.DEVICEPP_RX, pk.DEVICEPP_RX_AUDIO_MBDRC)) := by
      rw [List.map_map]
      apply List.map_congr_left
      intro d _
      simp only [Function.comp]
      split_ifs <;> rfl
    rw [hmap]
    simp only [populateDevicePPKV, hattr, hassoc, ne_eq, not_true_eq_false, if_false,
      Bool.not_true, Bool.false_eq_true,
      devicePPLoop_output pk s rxBeDevId txBeDevId kvpair htype hdir s.associatedDevices hdev]
  · intro htype
    simp only [populateDevicePPKV, hattr, hassoc, ne_eq, not_true_eq_false, if_false,
      Bool.not_true, Bool.false_eq_true,
      devicePPLoop_voice_call pk s rxBeDevId txBeDevId kvpair htype s.associatedDevices hdev]

theorem populateDevicePPKV_device_matching_witness :
    populateDevicePPKV sampleDevicePPKeys sampleDeviceKeys true
        { sampleStream with
          sattr := ⟨.QAL_STREAM_VOICE_CALL, .QAL_AUDIO_OUTPUT_INPUT, .QAL_STREAM_LOOPBACK_PCM,
            6101⟩
          associatedDevices := [⟨0, .QAL_DEVICE_OUT_SPEAKER, 2⟩, ⟨0, .QAL_DEVICE_OUT_HANDSET, 1⟩,
            ⟨0, .QAL_DEVICE_IN_HANDSET_MIC, 1⟩] }
        .QAL_DEVICE_OUT_HANDSET [(3, 4)] .QAL_DEVICE_IN_HANDSET_MIC [(5, 6)]
        [(8, 9), (10, 11)] =
      (0, [(3, 4), (5001, 5101), (2001, 2103)], [(5, 6), (8, 9), (10, 11), (2002, 2112)]) :=
  (populateDevicePPKV_device_matching sampleDevicePPKeys sampleDeviceKeys
    { sampleStream with
      sattr := ⟨.QAL_STREAM_VOICE_CALL, .QAL_AUDIO_OUTPUT_INPUT, .QAL_STREAM_LOOPBACK_PCM,
        6101⟩
      associatedDevices := [⟨0, .QAL_DEVICE_OUT_SPEAKER, 2⟩, ⟨0, .QAL_DEVICE_OUT_HANDSET, 1⟩,
        ⟨0, .QAL_DEVICE_IN_HANDSET_MIC, 1⟩] }
    .QAL_DEVICE_OUT_HANDSET .QAL_DEVICE_IN_HANDSET_MIC [(3, 4)] [(5, 6)] [(8, 9), (10, 11)]
    rfl rfl (by decide)).2 rfl

end PayloadBuilder
